import Mathlib

/-!
Liso server (server.c): connection multiplexer and connection lifecycle.

A shallow embedding of `src/src/server.c` and `src/src/inc/srv_def.h`.

* C `int` values are `Int`; descriptors are the `int` the kernel hands out.
* `fd_set` is a bitmap of `FD_SETSIZE` bits, modelled by its characteristic
  function on descriptors; only the descriptors from 0 up to `FD_SETSIZE - 1`
  have a bit. `insert_fd` (the one place where the program adds a descriptor
  to a set) is undefined for a descriptor outside that range, and the loop of
  `process_request` is undefined when it would test a bit past the end. The
  theorems about the readiness ceiling are stated for the states reached
  through descriptors inside the range.
* The process-wide statics (`read_fds`, `write_fds`, `read_wait_fds`,
  `write_wait_fds`, `max_fd`, `cli_list`) are the fields of `World`, passed
  explicitly; `heap` holds the `cli_cb_t` blocks obtained from `malloc`,
  addressed by a natural number; a pointer to a control block is its address.
* `trace` records, in order, the calls the program makes to the operating
  system, to libc `malloc` and `free` and to OpenSSL, and the entries into the
  per-kind request handlers.
* `Env` supplies the results of the external calls.
* A function returns `none` when the C program dereferences a pointer that
  does not address a live block, calls a null function pointer, indexes
  `cli_list` out of bounds or writes past a local array (undefined behaviour).
* Debug and error printing (`dbg_printf`, `err_printf`, `fprintf`) has no
  effect on the state. A print whose arguments read a field of a control block
  is modelled where that block may be gone: after the call of `cb->mthd.close`
  in `tcp_recv_wrapper`, `ssl_recv_wrapper` and `ssl_send_wrapper`, and in the
  write branch of `process_request` where `cb` is null. So are the two debug
  prints of the 200 path of `handle_get_mthd`, one of which adds two `int`
  values and the other prints the outbound buffer before its terminator is
  stored. The two macros come from a missing header; whether they evaluate
  their arguments is given by the fields `dbg_printf_args` and
  `err_printf_args` of `Env`.
* `err_code.h`, `list.h`, `http.h` and the parser (`parse_cli_cb`) are not
  among the sources: the error codes are parameters (`ErrCodes`), the list
  operations, the message type and the parse hook are modelled from the
  specification.
* `exit` is modelled by returning the exit status; one pass of the `while(1)`
  loop of `main` is `main_loop_body`, and `run` is any number of passes.
* Whether storage is released more than once is read off the trace by `audit`,
  which follows the `malloc` and `free` events and the storage live between
  them.
-/

namespace Liso

/-! ## Constants of srv_def.h -/

/-- The macro `BUF_IN_SIZE`. -/
def BUF_IN_SIZE : Nat := 4096

/-- The macro `BUF_PROC_SIZE`. -/
def BUF_PROC_SIZE : Nat := 2 * BUF_IN_SIZE

/-- The macro `BUF_HDR_SIZE`. -/
def BUF_HDR_SIZE : Nat := 2048

/-- The macro `HASH_SIZE` (0xff buckets). -/
def HASH_SIZE : Int := 0xff

/-- The macro `FILENAME_MAX_LEN`. -/
def FILENAME_MAX_LEN : Nat := 256

/-- The macro `DEFAULT_FD`, the folder the static site is served from. -/
def DEFAULT_FD : List Char := "../static_site/".toList

/-- The enumerator `LISTEN` of `enum cli_cb_type`. -/
def LISTEN : Int := 0

/-- The enumerator `CLI` of `enum cli_cb_type`. -/
def CLI : Int := 1

/-- The error codes of `err_code.h`. That header is not among the sources, so
the values are parameters of the model. -/
structure ErrCodes where
  ERR_UNKNOWN_CLI_TYPE : Int
  ERR_CLOSE_SOCKET : Int
  ERR_CLOSE_SSL_SOCKET : Int
  ERR_ACCEPT_FAILURE : Int
  ERR_NO_MEM : Int
  ERR_SSL_NEW : Int
  ERR_SSL_ACCEPT : Int
  ERR_BUF : Int
  ERR_SEND : Int
  ERR_SOCKET : Int
  ERR_FSTAT : Int
  ERR_MMAP : Int
  ERR_CONNECTION_NOT_EXIST : Int
  ERR_BIND : Int
  ERR_LISTEN : Int

/-! ## Descriptor sets -/

/-- The system constant `FD_SETSIZE`: the number of descriptors an `fd_set`
has room for. -/
def FD_SETSIZE : Nat := 1024

/-- An `fd_set`, as the characteristic function of its members. The bitmap has
a bit for the descriptors `0 .. FD_SETSIZE - 1` only. -/
abbrev fd_set := Int → Bool

/-- Whether a descriptor has a bit in an `fd_set`. -/
def fd_in_range (fd : Int) : Bool := decide (0 ≤ fd) && decide (fd < FD_SETSIZE)

/-- The macro `FD_ZERO`. -/
def FD_ZERO : fd_set := fun _ => false

/-- The macro `FD_SET`, for a descriptor in range. -/
def FD_SET (fd : Int) (s : fd_set) : fd_set := fun k => if k = fd then true else s k

/-- The macro `FD_CLR`, for a descriptor in range. -/
def FD_CLR (fd : Int) (s : fd_set) : fd_set := fun k => if k = fd then false else s k

/-- The macro `FD_ISSET`, for a descriptor in range. -/
def FD_ISSET (fd : Int) (s : fd_set) : Bool := s fd

/-! ## Protocol messages (http.h) -/

/-- Modelled from the spec: `http.h` is not among the sources. The request
kinds `handle_req_msg` switches on; any other value of the enum is `OTHER`. -/
inductive req_mthd where
  | HEAD
  | GET
  | POST
  | OTHER (v : Int)
  deriving DecidableEq, Repr

/-- Modelled from the spec: the request line of a parsed message, with the
fields server.c reads (`req`, `url`, `ver`). -/
structure req_line_t where
  req : req_mthd
  url : List Char
  ver : List Char
  deriving DecidableEq, Repr

/-- Modelled from the spec: a parsed protocol message (`req_msg_t` of http.h);
its `req_msg_link` is its position in the queue of the control block. -/
structure req_msg_t where
  req_line : req_line_t
  deriving DecidableEq, Repr

/-! ## The connection control block (srv_def.h) -/

/-- The functions `init_cli_cb` stores in `mthd.new_connection`. -/
inductive new_connection_fn where
  | tcp_new_connection
  | ssl_new_connection
  deriving DecidableEq, Repr

/-- The functions `init_cli_cb` stores in `mthd.close`. -/
inductive close_fn where
  | tcp_close_socket
  | ssl_close_socket
  deriving DecidableEq, Repr

/-- The functions `init_cli_cb` stores in `mthd.recv`. -/
inductive recv_fn where
  | tcp_recv_wrapper
  | ssl_recv_wrapper
  deriving DecidableEq, Repr

/-- The function `init_cli_cb` stores in `mthd.parse`. -/
inductive parse_fn where
  | parse_cli_cb
  deriving DecidableEq, Repr

/-- The function `init_cli_cb` stores in `mthd.handle_req_msg`. -/
inductive handle_req_msg_fn where
  | handle_req_msg
  deriving DecidableEq, Repr

/-- The functions `init_cli_cb` stores in `mthd.send`. -/
inductive send_fn where
  | tcp_send_wrapper
  | ssl_send_wrapper
  deriving DecidableEq, Repr

/-- The struct `cli_cb_mthd`: six function pointers, `none` being `NULL`. -/
structure cli_cb_mthd_t where
  new_connection : Option new_connection_fn
  close : Option close_fn
  recv : Option recv_fn
  parse : Option parse_fn
  handle_req_msg : Option handle_req_msg_fn
  send : Option send_fn
  deriving DecidableEq, Repr

/-- A block obtained from `malloc` for `buf_out`: its address and the bytes
stored in it. -/
structure out_buf where
  addr : Nat
  data : List Char
  deriving DecidableEq, Repr

/-- The struct `cli_cb`. `buf_in` and `buf_proc` are the arrays as functions of
the index; `ssl` and `buf_out` are pointers, `none` being `NULL`; `cli_link` is
the position of the block in `World.cli_list`. -/
structure cli_cb_t where
  cli_addr : Nat
  cli_fd : Int
  type : Int
  is_ssl : Int
  mthd : cli_cb_mthd_t
  ssl : Option Nat
  buf_in : Nat → Nat
  buf_in_ctr : Int
  buf_proc : Nat → Nat
  buf_proc_ctr : Int
  buf_out : Option out_buf
  buf_out_ctr : Int
  par_pos : Int
  par_next : Int
  par_msg_end : Int
  req_msg_list : List req_msg_t
  handle_req_pending : Int

/-! ## External calls -/

/-- One call of the program to the operating system, to libc or to OpenSSL, or
the entry into one of the per-kind request handlers (`handle_head_mthd`,
`handle_get_mthd`, `handle_post_mthd`, `handle_unknown_mthd`) or into
`free_req_msg`. -/
inductive Event where
  | sys_close (fd : Int)
  | sys_accept (fd : Int)
  | sys_recv (fd : Int)
  | sys_send (fd : Int) (len : Int)
  | sys_open (name : List Char)
  | sys_fstat (fd : Int)
  | sys_mmap (fd : Int)
  | sys_munmap (fd : Int)
  | sys_close_file (fd : Int)
  | SSL_new
  | SSL_set_fd (ssl : Option Nat) (fd : Int)
  | SSL_accept (ssl : Option Nat)
  | SSL_shutdown (ssl : Option Nat)
  | SSL_free (ssl : Option Nat)
  | SSL_read (ssl : Option Nat)
  | SSL_write (ssl : Option Nat) (len : Int)
  | malloc_cb (p : Option Nat)
  | malloc_buf (p : Option Nat)
  | free_cb (p : Nat)
  | free_buf (p : Nat)
  | free_req_msg (m : req_msg_t)
  | handle_head_mthd (m : req_msg_t)
  | handle_get_mthd (m : req_msg_t)
  | handle_post_mthd (m : req_msg_t)
  | handle_unknown_mthd (m : req_msg_t)
  | parse_cli_cb (p : Nat)
  | sys_select (nfds : Int)
  | SSL_CTX_free
  | exit (status : Int)
  deriving DecidableEq, Repr

/-- The results of the external calls during one step of the program. -/
structure Env where
  /-- Result of `close(fd)`. -/
  sys_close : Int → Int
  /-- Result of `accept(fd, ..)`: the new descriptor, or -1. -/
  sys_accept : Int → Int
  /-- The peer address `accept` stores. -/
  accept_addr : Nat
  /-- The bytes pending on a descriptor for `recv`; `none` is a failed read. -/
  sys_recv : Int → Option (List Nat)
  /-- Result of `send(fd, buf, len, 0)`. -/
  sys_send : Int → Int → Int
  /-- Result of `malloc(sizeof(cli_cb_t))`: `NULL`, or the address of a block
  and the indeterminate contents it has. -/
  malloc_cb : Option (Nat × cli_cb_t)
  /-- Result of `malloc(n)` for an outbound buffer: `NULL` or an address. -/
  malloc_buf : Nat → Option Nat
  /-- Result of `SSL_new(ssl_ctx)`. -/
  SSL_new : Option Nat
  /-- Result of `SSL_accept`. -/
  SSL_accept : Option Nat → Int
  /-- Result of `SSL_shutdown`. -/
  SSL_shutdown : Option Nat → Int
  /-- The bytes pending on a session for `SSL_read`; `none` is a failed read. -/
  SSL_read : Option Nat → Option (List Nat)
  /-- Result of `SSL_write(ssl, buf, len)`. -/
  SSL_write : Option Nat → Int → Int
  /-- Result of `open(filename, O_RDONLY)`. -/
  sys_open : List Char → Int
  /-- Result of `fstat`: `none` when it fails, else `st_size`. -/
  sys_fstat : Int → Option Nat
  /-- Result of `mmap`: `none` for `MAP_FAILED`, else the mapped bytes. -/
  sys_mmap : Int → Option (List Char)
  /-- Result of `munmap`. -/
  sys_munmap : Int
  /-- Result of `select`: the count it returns (0 on timeout, negative when
  interrupted). -/
  sys_select : Int
  /-- The descriptors `select` finds ready for reading. -/
  ready_read : fd_set
  /-- The descriptors `select` finds ready for writing. -/
  ready_write : fd_set
  /-- Modelled from the spec: `parse_cli_cb` is not among the sources. What the
  parser collaborator does with a control block: the value it returns and the
  block as it leaves it. -/
  parse : cli_cb_t → Int × cli_cb_t
  /-- Whether the macro `err_printf` of the missing logging header evaluates
  its arguments (it does when it prints them). -/
  err_printf_args : Bool
  /-- Whether the macro `dbg_printf` of the missing debug header evaluates its
  arguments (it does in a build that prints debug output). -/
  dbg_printf_args : Bool

/-- The process-wide state of server.c. -/
structure World where
  read_fds : fd_set
  write_fds : fd_set
  read_wait_fds : fd_set
  write_wait_fds : fd_set
  max_fd : Int
  cli_list : Int → List Nat
  heap : Nat → Option cli_cb_t
  trace : List Event

/-- The state the statics have after `init_global_var`: empty descriptor sets,
`max_fd = 0`, every bucket of `cli_list` empty, nothing allocated. -/
def World.init : World :=
  { read_fds := FD_ZERO, write_fds := FD_ZERO, read_wait_fds := FD_ZERO,
    write_wait_fds := FD_ZERO, max_fd := 0, cli_list := fun _ => [],
    heap := fun _ => none, trace := [] }

/-- Storing a block at an address of the heap. -/
def heap_set (h : Nat → Option cli_cb_t) (p : Nat) (c : Option cli_cb_t) :
    Nat → Option cli_cb_t :=
  fun q => if q = p then c else h q

/-- The two interest sets `insert_fd` is called with. -/
inductive fd_set_ref where
  | read_fds
  | write_fds
  deriving DecidableEq, Repr

/-! ## Readiness set manager -/

/-- The loop of `reelect_max_fd`:
`while(!(FD_ISSET(i, &read_fds) || FD_ISSET(i, &write_fds)) && i > 0){i--;}`.
The first argument bounds the number of iterations. -/
def reelect_loop (r w : fd_set) : Nat → Int → Int
  | 0, i => i
  | fuel + 1, i =>
    if (!(FD_ISSET i r || FD_ISSET i w)) && decide (i > 0) then
      reelect_loop r w fuel (i - 1)
    else i

/-- The function `reelect_max_fd`. The loop runs at most `max_fd - 1` times. -/
def reelect_max_fd (w : World) : World :=
  if w.max_fd = 0 then w
  else
    let i := w.max_fd - 1
    let i := reelect_loop w.read_fds w.write_fds i.toNat i
    { w with max_fd := i + 1 }

/-- The function `insert_fd`. `FD_SET` on a descriptor that has no bit in the
set writes outside the set: the result is `none`. -/
def insert_fd (fd : Int) (set : fd_set_ref) (w : World) : Option World :=
  let w := if fd ≥ w.max_fd then { w with max_fd := fd + 1 } else w
  if fd_in_range fd then
    match set with
    | .read_fds => some { w with read_fds := FD_SET fd w.read_fds }
    | .write_fds => some { w with write_fds := FD_SET fd w.write_fds }
  else none

/-- The function `close_socket`. The four `FD_CLR` are reached only after
`close(sock)` has succeeded, so on a descriptor the process had open. -/
def close_socket (env : Env) (sock : Int) (w : World) : Int × World :=
  let w := { w with trace := w.trace ++ [Event.sys_close sock] }
  if env.sys_close sock ≠ 0 then (1, w)
  else
    let w := { w with read_fds := FD_CLR sock w.read_fds }
    let w := { w with write_fds := FD_CLR sock w.write_fds }
    let w := { w with read_wait_fds := FD_CLR sock w.read_wait_fds }
    let w := { w with write_wait_fds := FD_CLR sock w.write_wait_fds }
    (0, reelect_max_fd w)

/-- A descriptor is of interest when it is in `read_fds` or in `write_fds`. -/
def of_interest (w : World) (k : Int) : Bool :=
  FD_ISSET k w.read_fds || FD_ISSET k w.write_fds

/-- The states reached from the initial one by registrations with `insert_fd`
that are defined (the descriptor has a bit in the set) and by successful
`close_socket` calls on descriptors that have a bit in the sets. -/
inductive Registered : World → Prop where
  | init : Registered World.init
  | insert_fd (w w' : World) (fd : Int) (set : fd_set_ref) :
      Registered w → insert_fd fd set w = some w' → Registered w'
  | close_socket (w : World) (env : Env) (sock : Int) :
      Registered w → fd_in_range sock = true → env.sys_close sock = 0 →
      Registered (close_socket env sock w).2

/-- A baseline environment: `close`, `SSL_shutdown` and `munmap` succeed,
`accept` fails, reads find the peer closed, writes send everything, no file
opens and no memory is handed out; `select` times out, the parser accepts
every block as it is, `err_printf` prints its arguments and `dbg_printf` is
compiled out. -/
def Env.quiet : Env :=
  { sys_close := fun _ => 0, sys_accept := fun _ => -1, accept_addr := 0,
    sys_recv := fun _ => some [], sys_send := fun _ len => len,
    malloc_cb := none, malloc_buf := fun _ => none, SSL_new := none,
    SSL_accept := fun _ => 1, SSL_shutdown := fun _ => 1,
    SSL_read := fun _ => some [], SSL_write := fun _ len => len,
    sys_open := fun _ => -1, sys_fstat := fun _ => none, sys_mmap := fun _ => none,
    sys_munmap := 0, sys_select := 0, ready_read := fun _ => false,
    ready_write := fun _ => false, parse := fun c => (0, c), err_printf_args := true,
    dbg_printf_args := false }

/-- The state after registering 3, 5 and 9 for reading. -/
def World.after_3_5_9 : World :=
  match (insert_fd 3 .read_fds World.init).bind
      (fun w => (insert_fd 5 .read_fds w).bind (insert_fd 9 .read_fds)) with
  | some w => w
  | none => World.init

/-- Registering 3, 5 and 9 for reading, then closing 9. -/
def World.after_3_5_9_close_9 : World :=
  (close_socket Env.quiet 9 World.after_3_5_9).2

/-- The invariant of the readiness set manager: `max_fd` is non-negative and at
most `FD_SETSIZE`, every descriptor of interest is non-negative and below
`max_fd`, and `max_fd - 1` is of interest unless `max_fd` is at most 1. -/
def ceiling_inv (w : World) : Prop :=
  0 ≤ w.max_fd ∧ w.max_fd ≤ FD_SETSIZE ∧
    (∀ k, of_interest w k = true → 0 ≤ k ∧ k < w.max_fd) ∧
    (w.max_fd ≤ 1 ∨ of_interest w (w.max_fd - 1) = true)

/-! ## Connection registry and control-block lifecycle -/

/-- The index `cli_fd % HASH_SIZE` into `cli_list` (the C remainder truncates
towards zero); `none` when it is negative, which is out of bounds. -/
def cli_bucket (cli_fd : Int) : Option Int :=
  let i := Int.tmod cli_fd HASH_SIZE
  if i < 0 then none else some i

/-- Modelled from the spec: `list.h` is not among the sources.
`list_add_tail(new, head)` links the node at the end of the list. -/
def list_add_tail (node : Nat) (head : List Nat) : List Nat := head ++ [node]

/-- Modelled from the spec: `list.h` is not among the sources. `list_del(entry)`
unlinks the node from the list it is in; here from every bucket of `cli_list`. -/
def list_del (node : Nat) (cli_list : Int → List Nat) : Int → List Nat :=
  fun i => (cli_list i).filter (fun q => q ≠ node)

/-- The libc call `free(cb)` on a control block: the block stops being live. -/
def free (p : Nat) (w : World) : World :=
  { w with heap := heap_set w.heap p none, trace := w.trace ++ [Event.free_cb p] }

/-- The function `init_cli_cb`. -/
def init_cli_cb (E : ErrCodes) (cli_cb : Nat) (addr : Option Nat) (cli_fd : Int)
    (type : Int) (is_ssl : Int) (w : World) : Option (Int × World) :=
  match w.heap cli_cb with
  | none => none
  | some c =>
    let c := match addr with
      | some a => { c with cli_addr := a }
      | none => c
    let c := { c with cli_fd := cli_fd }
    let c := { c with buf_in := fun i => if i < BUF_IN_SIZE then 0 else c.buf_in i }
    let c := { c with buf_in_ctr := 0 }
    let c := { c with buf_proc := fun i => if i < BUF_PROC_SIZE then 0 else c.buf_proc i }
    let c := { c with buf_proc_ctr := 0 }
    let c := { c with type := type }
    let c := { c with is_ssl := is_ssl }
    let bound : Option cli_cb_mthd_t :=
      if is_ssl = 0 then
        if type = LISTEN then
          some { c.mthd with new_connection := some .tcp_new_connection, recv := none,
                             send := none, close := some .tcp_close_socket }
        else if type = CLI then
          some { c.mthd with new_connection := none, recv := some .tcp_recv_wrapper,
                             send := some .tcp_send_wrapper,
                             close := some .tcp_close_socket }
        else none
      else
        if type = LISTEN then
          some { c.mthd with new_connection := some .ssl_new_connection, recv := none,
                             send := none, close := some .ssl_close_socket }
        else if type = CLI then
          some { c.mthd with new_connection := none, recv := some .ssl_recv_wrapper,
                             send := some .ssl_send_wrapper,
                             close := some .ssl_close_socket }
        else none
    match bound with
    | none => some (E.ERR_UNKNOWN_CLI_TYPE, { w with heap := heap_set w.heap cli_cb (some c) })
    | some m =>
      let c := { c with mthd := m }
      let c := { c with mthd := { c.mthd with parse := some .parse_cli_cb } }
      let c := { c with mthd := { c.mthd with handle_req_msg := some .handle_req_msg } }
      let c := { c with buf_out := none }
      let c := { c with buf_out_ctr := -1 }
      let c := { c with req_msg_list := [] }
      match cli_bucket cli_fd with
      | none => none
      | some i =>
        some (0, { w with heap := heap_set w.heap cli_cb (some c),
                          cli_list := fun j =>
                            if j = i then list_add_tail cli_cb (w.cli_list j)
                            else w.cli_list j })

/-- The function `free_cli_cb`. -/
def free_cli_cb (cli_cb : Nat) (w : World) : Option World :=
  match w.heap cli_cb with
  | none => none
  | some c =>
    let w := match c.buf_out with
      | some b => { w with trace := w.trace ++ [Event.free_buf b.addr] }
      | none => w
    let w := { w with heap := heap_set w.heap cli_cb (some { c with buf_out := none }) }
    let w := { w with cli_list := list_del cli_cb w.cli_list }
    some (free cli_cb w)

/-- The function `is_buf_in_empty`. -/
def is_buf_in_empty (c : cli_cb_t) : Int :=
  if c.buf_in 0 = 0 then 1 else 0

/-- The function `set_buf_ctr`. -/
def set_buf_ctr (c : cli_cb_t) (ctr : Int) : cli_cb_t :=
  { c with buf_in_ctr := ctr }

/-- The loop of `get_cli_cb` over one bucket: the first linked block whose
`cli_fd` is the descriptor, `some none` (`NULL`) when there is none. -/
def get_cli_cb_loop (heap : Nat → Option cli_cb_t) (cli_fd : Int) :
    List Nat → Option (Option Nat)
  | [] => some none
  | item :: rest =>
    match heap item with
    | none => none
    | some c =>
      if c.cli_fd = cli_fd then some (some item)
      else get_cli_cb_loop heap cli_fd rest

/-- The function `get_cli_cb`. The result `some none` is `NULL`. -/
def get_cli_cb (w : World) (cli_fd : Int) : Option (Option Nat) :=
  match cli_bucket cli_fd with
  | none => none
  | some i => get_cli_cb_loop w.heap cli_fd (w.cli_list i)

/-- The function `tcp_close_socket`. -/
def tcp_close_socket (E : ErrCodes) (env : Env) (cb : Nat) (w : World) :
    Option (Int × World) :=
  match w.heap cb with
  | none => none
  | some c =>
    let (ret, w) := close_socket env c.cli_fd w
    if ret < 0 then some (E.ERR_CLOSE_SOCKET, w)
    else
      match free_cli_cb cb w with
      | none => none
      | some w => some (0, w)

/-- The function `ssl_close_socket`. -/
def ssl_close_socket (E : ErrCodes) (env : Env) (cb : Nat) (w : World) :
    Option (Int × World) :=
  match w.heap cb with
  | none => none
  | some c =>
    let w := { w with trace := w.trace ++ [Event.SSL_shutdown c.ssl] }
    if env.SSL_shutdown c.ssl < 0 then some (E.ERR_CLOSE_SSL_SOCKET, w)
    else
      let w := { w with trace := w.trace ++ [Event.SSL_free c.ssl] }
      let (ret, w) := close_socket env c.cli_fd w
      if ret < 0 then some (E.ERR_CLOSE_SOCKET, w)
      else
        match free_cli_cb cb w with
        | none => none
        | some w => some (0, w)

/-- A call through the function pointer `cb->mthd.close`. -/
def call_close (E : ErrCodes) (env : Env) (f : close_fn) (cb : Nat) (w : World) :
    Option (Int × World) :=
  match f with
  | .tcp_close_socket => tcp_close_socket E env cb w
  | .ssl_close_socket => ssl_close_socket E env cb w

/-- The registry holds a control block for a descriptor when some bucket links
a live block whose `cli_fd` is that descriptor. -/
def holds_cb (w : World) (fd : Int) : Prop :=
  ∃ i p c, p ∈ w.cli_list i ∧ w.heap p = some c ∧ c.cli_fd = fd

/-- Every block linked into `cli_list` is live. -/
def registry_live (w : World) : Prop :=
  ∀ i p, p ∈ w.cli_list i → ∃ c, w.heap p = some c

/-! ## Sample data -/

/-- A block as `malloc` may return it: every field zero or null. -/
def cli_cb_t.blank : cli_cb_t :=
  { cli_addr := 0, cli_fd := 0, type := 0, is_ssl := 0,
    mthd := { new_connection := none, close := none, recv := none, parse := none,
              handle_req_msg := none, send := none },
    ssl := none, buf_in := fun _ => 0, buf_in_ctr := 0, buf_proc := fun _ => 0,
    buf_proc_ctr := 0, buf_out := none, buf_out_ctr := 0, par_pos := 0, par_next := 0,
    par_msg_end := 0, req_msg_list := [], handle_req_pending := 0 }

/-- A choice of error codes: distinct negative numbers. -/
def ErrCodes.sample : ErrCodes :=
  { ERR_UNKNOWN_CLI_TYPE := -1, ERR_CLOSE_SOCKET := -2, ERR_CLOSE_SSL_SOCKET := -3,
    ERR_ACCEPT_FAILURE := -4, ERR_NO_MEM := -5, ERR_SSL_NEW := -6, ERR_SSL_ACCEPT := -7,
    ERR_BUF := -8, ERR_SEND := -9, ERR_SOCKET := -10, ERR_FSTAT := -11, ERR_MMAP := -12,
    ERR_CONNECTION_NOT_EXIST := -13, ERR_BIND := -14, ERR_LISTEN := -15 }

/-- A plaintext accepted control block for descriptor 3, as `init_cli_cb`
leaves it. -/
def cli_cb_t.accepted_plain : cli_cb_t :=
  { cli_cb_t.blank with
    cli_fd := 3, type := CLI,
    mthd := { new_connection := none, close := some .tcp_close_socket,
              recv := some .tcp_recv_wrapper, parse := some .parse_cli_cb,
              handle_req_msg := some .handle_req_msg, send := some .tcp_send_wrapper },
    buf_out_ctr := -1 }

/-- An encrypted accepted control block for descriptor 3 with session 50. -/
def cli_cb_t.accepted_ssl : cli_cb_t :=
  { cli_cb_t.blank with
    cli_fd := 3, type := CLI, is_ssl := 1, ssl := some 50,
    mthd := { new_connection := none, close := some .ssl_close_socket,
              recv := some .ssl_recv_wrapper, parse := some .parse_cli_cb,
              handle_req_msg := some .handle_req_msg, send := some .ssl_send_wrapper },
    buf_out_ctr := -1 }

/-- A plaintext accepted control block whose inbound buffer holds the one
unprocessed byte 71. -/
def cli_cb_t.busy_in : cli_cb_t :=
  { cli_cb_t.accepted_plain with
    buf_in := fun i => if i = 0 then 71 else 0, buf_in_ctr := 1 }

/-- A plaintext accepted control block with the two bytes of an outbound buffer
at address 100 waiting to be sent. -/
def cli_cb_t.pending_out : cli_cb_t :=
  { cli_cb_t.accepted_plain with
    buf_out := some { addr := 100, data := "hi".toList }, buf_out_ctr := 2 }

/-- The registry and interest sets with one control block, at address 1, for
descriptor 3. -/
def World.single (c : cli_cb_t) : World :=
  { World.init with
    cli_list := fun j => if j = 3 then [1] else [],
    read_fds := FD_SET 3 FD_ZERO, write_fds := FD_SET 3 FD_ZERO, max_fd := 4,
    heap := fun p => if p = 1 then some c else none }

/-- An environment in which every write is one byte short. -/
def Env.short_write : Env :=
  { Env.quiet with sys_send := fun _ len => len - 1, SSL_write := fun _ len => len - 1 }

/-- A registry holding one plaintext accepted control block, at address 1, for
descriptor 3, and a second block allocated at address 2 but not yet linked. -/
def World.one_cb : World :=
  { World.init with
    cli_list := fun j => if j = 3 then [1] else [],
    heap := fun p =>
      if p = 1 then
        some cli_cb_t.accepted_plain
      else if p = 2 then some cli_cb_t.blank
      else none }

/-! ## Transport strategy: receive and send -/

/-- The value `recv(fd, buf, len, 0)` and `SSL_read(ssl, buf, len)` return: -1
for a failed read, else the number of pending bytes, at most `len`; 0 means the
peer has closed. -/
def read_count (pending : Option (List Nat)) (len : Nat) : Int :=
  match pending with
  | none => -1
  | some bytes => ((bytes.take len).length : Int)

/-- The buffer after a read has stored the first `len` pending bytes at its
start. -/
def read_into (buf : Nat → Nat) (pending : Option (List Nat)) (len : Nat) : Nat → Nat :=
  match pending with
  | none => buf
  | some bytes => fun i => if h : i < (bytes.take len).length then (bytes.take len)[i] else buf i

/-- A print evaluates an argument that reads a field of the control block `cb`
(`cb->cli_fd`, `cb->buf_out_ctr`) after the call of `cb->mthd.close(cb)`: when
the macro evaluates its arguments and the close operation has freed the block,
the program reads freed storage. -/
def print_reads_freed (evaluated : Bool) (cb : Nat) (w : World) : Bool :=
  evaluated && (w.heap cb).isNone

/-- The function `tcp_recv_wrapper`. After the close operation it passes
`cb->cli_fd` to `dbg_printf`. -/
def tcp_recv_wrapper (E : ErrCodes) (env : Env) (cb : Nat) (w : World) :
    Option (Int × World) :=
  match w.heap cb with
  | none => none
  | some c =>
    if is_buf_in_empty c ≠ 0 then
      let w := { w with trace := w.trace ++ [Event.sys_recv c.cli_fd] }
      let readctr := read_count (env.sys_recv c.cli_fd) BUF_IN_SIZE
      let c := { c with buf_in := read_into c.buf_in (env.sys_recv c.cli_fd) BUF_IN_SIZE }
      let w := { w with heap := heap_set w.heap cb (some c) }
      if readctr > 0 then
        let c := { c with buf_in := fun i => if i = readctr.toNat then 0 else c.buf_in i }
        let c := set_buf_ctr c readctr
        some (0, { w with heap := heap_set w.heap cb (some c) })
      else
        match c.mthd.close with
        | none => none
        | some f =>
          match call_close E env f cb w with
          | none => none
          | some (_, w) =>
            if print_reads_freed env.dbg_printf_args cb w then none
            else some (0, w)
    else some (E.ERR_BUF, w)

/-- The function `ssl_recv_wrapper`. After the close operation it passes
`cb->cli_fd` to `dbg_printf`. -/
def ssl_recv_wrapper (E : ErrCodes) (env : Env) (cb : Nat) (w : World) :
    Option (Int × World) :=
  match w.heap cb with
  | none => none
  | some c =>
    if is_buf_in_empty c ≠ 0 then
      let w := { w with trace := w.trace ++ [Event.SSL_read c.ssl] }
      let readctr := read_count (env.SSL_read c.ssl) BUF_IN_SIZE
      let c := { c with buf_in := read_into c.buf_in (env.SSL_read c.ssl) BUF_IN_SIZE }
      let w := { w with heap := heap_set w.heap cb (some c) }
      if readctr > 0 then
        let c := { c with buf_in := fun i => if i = readctr.toNat then 0 else c.buf_in i }
        let c := set_buf_ctr c readctr
        some (0, { w with heap := heap_set w.heap cb (some c) })
      else
        match c.mthd.close with
        | none => none
        | some f =>
          match call_close E env f cb w with
          | none => none
          | some (_, w) =>
            if print_reads_freed env.dbg_printf_args cb w then none
            else some (0, w)
    else some (E.ERR_BUF, w)

/-- The function `tcp_send_wrapper`. Its `err_printf` after the close
operation has no argument besides the text. -/
def tcp_send_wrapper (E : ErrCodes) (env : Env) (cb : Nat) (w : World) :
    Option (Int × World) :=
  match w.heap cb with
  | none => none
  | some c =>
    if c.buf_out_ctr ≠ -1 then
      let w := { w with trace := w.trace ++ [Event.sys_send c.cli_fd c.buf_out_ctr] }
      let sendctr := env.sys_send c.cli_fd c.buf_out_ctr
      if sendctr ≠ c.buf_out_ctr then
        match c.mthd.close with
        | none => none
        | some f =>
          match call_close E env f cb w with
          | none => none
          | some (_, w) => some (E.ERR_SEND, w)
      else
        some (0, { w with heap := heap_set w.heap cb (some { c with buf_out_ctr := -1 }) })
    else some (0, w)

/-- The function `ssl_send_wrapper`. After the close operation it passes
`cb->buf_out_ctr` to `err_printf`. -/
def ssl_send_wrapper (E : ErrCodes) (env : Env) (cb : Nat) (w : World) :
    Option (Int × World) :=
  match w.heap cb with
  | none => none
  | some c =>
    if c.buf_out_ctr ≠ -1 then
      let w := { w with trace := w.trace ++ [Event.SSL_write c.ssl c.buf_out_ctr] }
      let sendctr := env.SSL_write c.ssl c.buf_out_ctr
      if sendctr ≠ c.buf_out_ctr then
        match c.mthd.close with
        | none => none
        | some f =>
          match call_close E env f cb w with
          | none => none
          | some (_, w) =>
            if print_reads_freed env.err_printf_args cb w then none
            else some (E.ERR_SEND, w)
      else
        some (0, { w with heap := heap_set w.heap cb (some { c with buf_out_ctr := -1 }) })
    else some (0, w)

/-- A call through the function pointer `cb->mthd.recv`. -/
def call_recv (E : ErrCodes) (env : Env) (f : recv_fn) (cb : Nat) (w : World) :
    Option (Int × World) :=
  match f with
  | .tcp_recv_wrapper => tcp_recv_wrapper E env cb w
  | .ssl_recv_wrapper => ssl_recv_wrapper E env cb w

/-- A call through the function pointer `cb->mthd.send`. -/
def call_send (E : ErrCodes) (env : Env) (f : send_fn) (cb : Nat) (w : World) :
    Option (Int × World) :=
  match f with
  | .tcp_send_wrapper => tcp_send_wrapper E env cb w
  | .ssl_send_wrapper => ssl_send_wrapper E env cb w

/-- A plaintext accepted control block whose inbound buffer holds the two
unprocessed bytes 0, 65 of a previous receive, and the terminator. -/
def cli_cb_t.nul_first : cli_cb_t :=
  { cli_cb_t.accepted_plain with
    buf_in := fun i => if i = 1 then 65 else 0, buf_in_ctr := 2 }

/-- An environment in which the bytes 0, 65 are pending on every descriptor. -/
def Env.pending_nul : Env :=
  { Env.quiet with sys_recv := fun _ => some [0, 65] }

/-- An environment in which the bytes 71, 69, 84 are pending on every
descriptor and every session. -/
def Env.pending_get : Env :=
  { Env.quiet with sys_recv := fun _ => some [71, 69, 84],
                   SSL_read := fun _ => some [71, 69, 84] }

/-- An encrypted accepted control block (session 50) with the two bytes of an
outbound buffer at address 100 waiting to be sent. -/
def cli_cb_t.pending_out_ssl : cli_cb_t :=
  { cli_cb_t.accepted_ssl with
    buf_out := some { addr := 100, data := "hi".toList }, buf_out_ctr := 2 }

/-- As `Env.short_write`, with an `err_printf` that does not evaluate its
arguments. -/
def Env.short_write_silent : Env :=
  { Env.short_write with err_printf_args := false }

/-- A build in which `dbg_printf` prints: the peer has closed every
connection, every `close` succeeds. -/
def Env.debug_build : Env :=
  { Env.quiet with dbg_printf_args := true }

/-- A build in which `dbg_printf` prints, with the bytes 71, 69, 84 pending on
every descriptor and every session. -/
def Env.debug_build_pending : Env :=
  { Env.pending_get with dbg_printf_args := true }

/-! ## Message handling -/

/-- Modelled from the spec: the macro `FS_ROOT` of the missing `http.h`, the
target of a request for the default document (`GET /`). -/
def FS_ROOT : List Char := "/".toList

/-- The file name `handle_get_mthd` builds in `char filename[FILENAME_MAX_LEN]`:
`strncpy` of `DEFAULT_FD`, then `strncat` of at most `FILENAME_MAX_LEN`
characters of `index.html` or of the url. `none` when the characters and the
terminator do not fit the array. -/
def get_filename (url : List Char) : Option (List Char) :=
  let filename := DEFAULT_FD.take FILENAME_MAX_LEN
  let src := if url = FS_ROOT then "index.html".toList else url
  let appended := src.take FILENAME_MAX_LEN
  if filename.length + appended.length + 1 > FILENAME_MAX_LEN then none
  else some (filename ++ appended)

/-- The call `snprintf(buf_hdr + ctr, BUF_HDR_SIZE - ctr, s)` on the header
text written so far: at most `BUF_HDR_SIZE - ctr - 1` characters are stored and
the full length of `s` is returned, added to `ctr`. `none` when `ctr` is past the
end of `buf_hdr`. -/
def snprintf_at (buf_hdr : List Char) (ctr : Nat) (s : List Char) :
    Option (List Char × Nat) :=
  if ctr > BUF_HDR_SIZE then none
  else if ctr = BUF_HDR_SIZE then some (buf_hdr, ctr + s.length)
  else some (buf_hdr.take ctr ++ s.take (BUF_HDR_SIZE - ctr - 1), ctr + s.length)

/-- Whether the text starts with the given characters. -/
def starts_with : List Char → List Char → Bool
  | [], _ => true
  | _ :: _, [] => false
  | a :: as, b :: bs => a == b && starts_with as bs

/-- The test `strstr(haystack, needle) != NULL`. -/
def strstr (haystack needle : List Char) : Bool :=
  match haystack with
  | [] => starts_with needle []
  | a :: rest => starts_with needle (a :: rest) || strstr rest needle

/-- The conversion of a non-negative `off_t` value to `int`, as in the cast
`(int)statbuf.st_size` and in the assignment to `cb->buf_out_ctr`: the value
modulo 2^32, read as a signed 32-bit number. -/
def to_int (n : Nat) : Int :=
  let m : Nat := n % 2 ^ 32
  if m < 2 ^ 31 then (m : Int) else (m : Int) - 2 ^ 32

/-- The header of the 200 response built by the five `snprintf` calls of
`handle_get_mthd`. -/
def ok_header (ver url : List Char) (st_size : Nat) : Option (List Char) :=
  match snprintf_at [] 0 (ver ++ " 200 OK\r\n".toList) with
  | none => none
  | some (buf_hdr, ctr) =>
    let content_type :=
      if strstr url "css".toList then "Content-Type: text/css\r\n".toList
      else if strstr url "png".toList then "Content-Type: image/png\r\n".toList
      else "Content-Type: text/html\r\n".toList
    match snprintf_at buf_hdr ctr content_type with
    | none => none
    | some (buf_hdr, ctr) =>
      match snprintf_at buf_hdr ctr
          ("Content-Length: ".toList ++ (toString (to_int st_size)).toList ++
            "\r\n".toList) with
      | none => none
      | some (buf_hdr, ctr) =>
        match snprintf_at buf_hdr ctr "\r\n".toList with
        | none => none
        | some (buf_hdr, _) => some buf_hdr

/-- The function `handle_head_mthd`. -/
def handle_head_mthd (req_msg : req_msg_t) (_cb : Nat) (w : World) : Option (Int × World) :=
  some (0, { w with trace := w.trace ++ [Event.handle_head_mthd req_msg] })

/-- The function `handle_post_mthd`. -/
def handle_post_mthd (req_msg : req_msg_t) (_cb : Nat) (w : World) : Option (Int × World) :=
  some (0, { w with trace := w.trace ++ [Event.handle_post_mthd req_msg] })

/-- The function `handle_unknown_mthd`. -/
def handle_unknown_mthd (req_msg : req_msg_t) (_cb : Nat) (w : World) :
    Option (Int × World) :=
  some (0, { w with trace := w.trace ++ [Event.handle_unknown_mthd req_msg] })

/-- The statement `if(cb->buf_out_ctr == -1 && cb->buf_out){ cb->buf_out = NULL; }`
of `handle_get_mthd` (the call of `free` in it is commented out). -/
def forget_sent_buf (c : cli_cb_t) : cli_cb_t :=
  if c.buf_out_ctr = -1 ∧ c.buf_out.isSome then { c with buf_out := none } else c

/-- The exit paths `out2` and `out1` of `handle_get_mthd`: the file is closed
only when its descriptor is 0. -/
def handle_get_out2 (ret : Int) (fd : Int) (w : World) : Option (Int × World) :=
  if fd = 0 then some (ret, { w with trace := w.trace ++ [Event.sys_close_file fd] })
  else some (ret, w)

/-- The argument `buf_hdr_len + (int)statbuf.st_size` of the `dbg_printf` that
follows the `malloc` of the 200 path is an `int` addition: when `dbg_printf`
evaluates its arguments and the sum does not fit an `int`, it overflows. -/
def alloc_size_print_overflows (env : Env) (buf_hdr_len st_size : Nat) : Bool :=
  env.dbg_printf_args && decide ((2 : Int) ^ 31 ≤ (buf_hdr_len : Int) + to_int st_size)

/-- The function `handle_get_mthd`. In the 200 path, between the copy of the
header and the copy of the file, `dbg_printf` is given `cb->buf_out` for `%s`
while the block holds the header without a terminator and bytes never written:
when `dbg_printf` evaluates its arguments the result is `none`. The sum
`buf_hdr_len + statbuf.st_size` is stored in the `int` field `buf_out_ctr` and
then used as the index of the terminator: when the stored value is negative the
store `cb->buf_out[cb->buf_out_ctr] = 0` is outside the block (`none`); when it
has wrapped to a smaller non-negative value the terminator lands inside the
copied bytes. `data` lists the bytes the function has stored in the block. -/
def handle_get_mthd (E : ErrCodes) (env : Env) (req_msg : req_msg_t) (cb : Nat) (w : World) :
    Option (Int × World) :=
  let w := { w with trace := w.trace ++ [Event.handle_get_mthd req_msg] }
  match w.heap cb with
  | none => none
  | some c =>
    match get_filename req_msg.req_line.url with
    | none => none
    | some filename =>
      let w := { w with trace := w.trace ++ [Event.sys_open filename] }
      let fd := env.sys_open filename
      if fd < 0 then
        let buf_hdr :=
          (req_msg.req_line.ver ++ " 404 Not Found\r\n\r\n".toList).take (BUF_HDR_SIZE - 1)
        let c := forget_sent_buf c
        let w := { w with
          trace := w.trace ++ [Event.malloc_buf (env.malloc_buf (buf_hdr.length + 1))] }
        match env.malloc_buf (buf_hdr.length + 1) with
        | none =>
          some (E.ERR_NO_MEM,
            { w with heap := heap_set w.heap cb (some { c with buf_out := none }) })
        | some a =>
          let c := { c with buf_out := some { addr := a, data := buf_hdr ++ [Char.ofNat 0] } }
          let c := { c with buf_out_ctr := (buf_hdr.length : Int) + 1 }
          some (0, { w with heap := heap_set w.heap cb (some c) })
      else
        let w := { w with trace := w.trace ++ [Event.sys_fstat fd] }
        match env.sys_fstat fd with
        | none => handle_get_out2 E.ERR_FSTAT fd w
        | some st_size =>
          let w := { w with trace := w.trace ++ [Event.sys_mmap fd] }
          match env.sys_mmap fd with
          | none => handle_get_out2 E.ERR_MMAP fd w
          | some faddr =>
            match ok_header req_msg.req_line.ver req_msg.req_line.url st_size with
            | none => none
            | some buf_hdr =>
              let buf_hdr_len := buf_hdr.length
              let c := forget_sent_buf c
              let w := { w with
                trace := w.trace ++
                  [Event.malloc_buf (env.malloc_buf (buf_hdr_len + 1 + st_size))] }
              match env.malloc_buf (buf_hdr_len + 1 + st_size) with
              | none =>
                if alloc_size_print_overflows env buf_hdr_len st_size then none
                else
                handle_get_out2 E.ERR_NO_MEM fd
                  { w with heap := heap_set w.heap cb (some { c with buf_out := none }) }
              | some a =>
                if env.dbg_printf_args then none
                else
                let buf_out_ctr := to_int (buf_hdr_len + st_size)
                if buf_out_ctr < 0 then none
                else
                let copied := buf_hdr ++ faddr.take st_size
                let data :=
                  if buf_out_ctr = ((buf_hdr_len + st_size : Nat) : Int) then
                    copied ++ [Char.ofNat 0]
                  else copied.set buf_out_ctr.toNat (Char.ofNat 0)
                let c := { c with buf_out := some { addr := a, data := data } }
                let c := { c with buf_out_ctr := buf_out_ctr }
                let w := { w with heap := heap_set w.heap cb (some c) }
                let w := { w with trace := w.trace ++ [Event.sys_munmap fd] }
                if env.sys_munmap < 0 then
                  handle_get_out2 E.ERR_MMAP fd
                    { w with trace := w.trace ++ [Event.free_buf a] }
                else
                  some (0, { w with trace := w.trace ++ [Event.sys_close_file fd] })

/-- The function `handle_req_msg`. -/
def handle_req_msg (E : ErrCodes) (env : Env) (cb : Nat) (w : World) : Option (Int × World) :=
  match w.heap cb with
  | none => none
  | some c =>
    match c.req_msg_list with
    | [] => some (0, w)
    | req_msg :: rest =>
      let w := { w with heap := heap_set w.heap cb (some { c with req_msg_list := rest }) }
      let r := match req_msg.req_line.req with
        | .HEAD => handle_head_mthd req_msg cb w
        | .GET => handle_get_mthd E env req_msg cb w
        | .POST => handle_post_mthd req_msg cb w
        | .OTHER _ => handle_unknown_mthd req_msg cb w
      match r with
      | none => none
      | some (ret, w) =>
        if ret < 0 then some (ret, w)
        else some (0, { w with trace := w.trace ++ [Event.free_req_msg req_msg] })

/-- Successive calls of `handle_req_msg` on one control block, one per
environment of the list, with the values they return. -/
def handle_req_msg_calls (E : ErrCodes) (cb : Nat) : List Env → World →
    Option (List Int × World)
  | [], w => some ([], w)
  | env :: envs, w =>
    match handle_req_msg E env cb w with
    | none => none
    | some (ret, w) =>
      match handle_req_msg_calls E cb envs w with
      | none => none
      | some (rets, w) => some (ret :: rets, w)

/-- The messages the per-kind handlers were entered with, in order. -/
def dispatched (trace : List Event) : List req_msg_t :=
  trace.filterMap fun e =>
    match e with
    | .handle_head_mthd m => some m
    | .handle_get_mthd m => some m
    | .handle_post_mthd m => some m
    | .handle_unknown_mthd m => some m
    | _ => none

/-- The message queue of a control block, empty when the block is not live. -/
def req_msg_queue (w : World) (cb : Nat) : List req_msg_t :=
  match w.heap cb with
  | none => []
  | some c => c.req_msg_list

/-- The condition under which `handle_get_mthd` stays inside its two local
arrays and inside the outbound buffer: the file name fits `filename`, and when
the file opens and is mapped, the header is written inside `buf_hdr`, the
debug prints of the 200 path are compiled out or harmless and, the buffer
being allocated, the length `buf_hdr_len + st_size` is not stored in
`buf_out_ctr` as a negative `int`. -/
def get_mthd_defined (env : Env) (req_msg : req_msg_t) : Bool :=
  match get_filename req_msg.req_line.url with
  | none => false
  | some filename =>
    if env.sys_open filename < 0 then true
    else
      match env.sys_fstat (env.sys_open filename) with
      | none => true
      | some st_size =>
        match env.sys_mmap (env.sys_open filename) with
        | none => true
        | some _ =>
          match ok_header req_msg.req_line.ver req_msg.req_line.url st_size with
          | none => false
          | some buf_hdr =>
            match env.malloc_buf (buf_hdr.length + 1 + st_size) with
            | none => !alloc_size_print_overflows env buf_hdr.length st_size
            | some _ => !env.dbg_printf_args && decide (0 ≤ to_int (buf_hdr.length + st_size))

/-- The request `GET /a HTTP/1.1`. -/
def req_msg_t.get_a : req_msg_t :=
  { req_line := { req := .GET, url := "/a".toList, ver := "HTTP/1.1".toList } }

/-- The request `HEAD / HTTP/1.1`. -/
def req_msg_t.head_root : req_msg_t :=
  { req_line := { req := .HEAD, url := "/".toList, ver := "HTTP/1.1".toList } }

/-- A plaintext accepted control block with two parsed messages queued. -/
def cli_cb_t.two_queued : cli_cb_t :=
  { cli_cb_t.accepted_plain with req_msg_list := [req_msg_t.get_a, req_msg_t.head_root] }

/-- An environment in which no file can be opened and `malloc` hands out the
address 200 for an outbound buffer. -/
def Env.not_found : Env :=
  { Env.quiet with malloc_buf := fun _ => some 200 }

/-! ## Transport strategy: accept -/

/-- The function `tcp_new_connection`. -/
def tcp_new_connection (E : ErrCodes) (env : Env) (cb : Nat) (w : World) :
    Option (Int × World) :=
  match w.heap cb with
  | none => none
  | some c =>
    let w := { w with trace := w.trace ++ [Event.sys_accept c.cli_fd] }
    let cli_sock := env.sys_accept c.cli_fd
    if cli_sock = -1 then
      match c.mthd.close with
      | none => none
      | some f =>
        match call_close E env f cb w with
        | none => none
        | some (_, w) => some (E.ERR_ACCEPT_FAILURE, w)
    else
      let w := { w with trace := w.trace ++ [Event.malloc_cb (env.malloc_cb.map (·.1))] }
      match env.malloc_cb with
      | none => some (E.ERR_NO_MEM, w)
      | some (cb_new, contents) =>
        let w := { w with heap := heap_set w.heap cb_new (some contents) }
        match init_cli_cb E cb_new (some env.accept_addr) cli_sock CLI 0 w with
        | none => none
        | some (ret, w) =>
          if ret < 0 then some (ret, free cb_new w)
          else
            match insert_fd cli_sock .read_fds w with
            | none => none
            | some w =>
              match insert_fd cli_sock .write_fds w with
              | none => none
              | some w => some (0, w)

/-- The function `ssl_new_connection`. -/
def ssl_new_connection (E : ErrCodes) (env : Env) (cb : Nat) (w : World) :
    Option (Int × World) :=
  match w.heap cb with
  | none => none
  | some c =>
    let w := { w with trace := w.trace ++ [Event.sys_accept c.cli_fd] }
    let cli_sock := env.sys_accept c.cli_fd
    if cli_sock = -1 then
      match c.mthd.close with
      | none => none
      | some f =>
        match call_close E env f cb w with
        | none => none
        | some (_, w) => some (E.ERR_ACCEPT_FAILURE, free cb w)
    else
      let w := { w with trace := w.trace ++ [Event.malloc_cb (env.malloc_cb.map (·.1))] }
      match env.malloc_cb with
      | none => some (E.ERR_NO_MEM, w)
      | some (cb_new, contents) =>
        let w := { w with heap := heap_set w.heap cb_new (some contents) }
        match init_cli_cb E cb_new (some env.accept_addr) cli_sock CLI 1 w with
        | none => none
        | some (ret, w) =>
          if ret < 0 then some (ret, free cb_new w)
          else
            match w.heap cb_new with
            | none => none
            | some cn =>
              let w := { w with trace := w.trace ++ [Event.SSL_new] }
              let cn := { cn with ssl := env.SSL_new }
              let w := { w with heap := heap_set w.heap cb_new (some cn) }
              if cn.ssl = none then some (E.ERR_SSL_NEW, w)
              else
                let w := { w with trace := w.trace ++ [Event.SSL_set_fd cn.ssl cn.cli_fd] }
                let w := { w with trace := w.trace ++ [Event.SSL_accept cn.ssl] }
                if env.SSL_accept cn.ssl < 0 then some (E.ERR_SSL_ACCEPT, w)
                else
                  match insert_fd cli_sock .read_fds w with
                  | none => none
                  | some w =>
                    match insert_fd cli_sock .write_fds w with
                    | none => none
                    | some w => some (0, w)

/-- A call through the function pointer `cb->mthd.new_connection`. -/
def call_new_connection (E : ErrCodes) (env : Env) (f : new_connection_fn) (cb : Nat)
    (w : World) : Option (Int × World) :=
  match f with
  | .tcp_new_connection => tcp_new_connection E env cb w
  | .ssl_new_connection => ssl_new_connection E env cb w

/-- The encrypted listening control block for descriptor 4, as
`establish_socket` leaves it (`ssl` is never assigned). -/
def cli_cb_t.listen_ssl : cli_cb_t :=
  { cli_cb_t.blank with
    cli_fd := 4, type := LISTEN, is_ssl := 1,
    mthd := { new_connection := some .ssl_new_connection,
              close := some .ssl_close_socket, recv := none,
              parse := some .parse_cli_cb, handle_req_msg := some .handle_req_msg,
              send := none },
    buf_out_ctr := -1 }

/-- The state with the encrypted listening control block, at address 1,
registered for reading on descriptor 4. -/
def World.listening_ssl : World :=
  { World.init with
    cli_list := fun j => if j = 4 then [1] else [],
    read_fds := FD_SET 4 FD_ZERO, max_fd := 5,
    heap := fun p => if p = 1 then some cli_cb_t.listen_ssl else none }

/-- An environment in which `accept` returns descriptor 7 and `malloc` a block
at address 2, and `SSL_new` fails. -/
def Env.ssl_new_fails : Env :=
  { Env.quiet with sys_accept := fun _ => 7, malloc_cb := some (2, cli_cb_t.blank),
                   SSL_new := none }

/-- An environment in which `accept` returns descriptor 7, `malloc` a block at
address 2, `SSL_new` the session 50, and `SSL_accept` fails. -/
def Env.ssl_accept_fails : Env :=
  { Env.quiet with sys_accept := fun _ => 7, malloc_cb := some (2, cli_cb_t.blank),
                   SSL_new := some 50, SSL_accept := fun _ => -1 }

/-- An environment in which `SSL_shutdown` reports failure. -/
def Env.ssl_shutdown_fails : Env :=
  { Env.quiet with SSL_shutdown := fun _ => -1 }

/-- An environment in which `close` fails. -/
def Env.close_fails : Env :=
  { Env.quiet with sys_close := fun _ => -1 }

/-- The plaintext listening control block for descriptor 4, as
`establish_socket` leaves it. -/
def cli_cb_t.listen_tcp : cli_cb_t :=
  { cli_cb_t.blank with
    cli_fd := 4, type := LISTEN, is_ssl := 0,
    mthd := { new_connection := some .tcp_new_connection,
              close := some .tcp_close_socket, recv := none,
              parse := some .parse_cli_cb, handle_req_msg := some .handle_req_msg,
              send := none },
    buf_out_ctr := -1 }

/-- The state with the plaintext listening control block, at address 1,
registered for reading on descriptor 4. -/
def World.listening_tcp : World :=
  { World.listening_ssl with
    heap := fun p => if p = 1 then some cli_cb_t.listen_tcp else none }

/-- The trace `free_cli_cb` adds: the outbound buffer, when there is one, then
the block. -/
def free_cli_cb_trace (cb : Nat) (c : cli_cb_t) : List Event :=
  (match c.buf_out with
    | some b => [Event.free_buf b.addr]
    | none => []) ++ [Event.free_cb cb]

/-! ## Event loop -/

/-- The exit status `EXIT_SUCCESS` of stdlib.h. -/
def EXIT_SUCCESS : Int := 0

/-- The exit status `EXIT_FAILURE` of stdlib.h. -/
def EXIT_FAILURE : Int := 1

/-- The static `sock_fd`: initialised to -1 and assigned nowhere in server.c
(`establish_socket` keeps its sockets in the local `sock`). -/
def sock_fd : Int := -1

/-- Where control is after a block of `process_request`: at a `return` with a
value, or at the end of the block. -/
inductive Flow where
  | ret (r : Int) (w : World)
  | go (w : World)

/-- Modelled from the spec: `parse_cli_cb` is not among the sources. The parse
hook reads the control block it is given and leaves it as the parser
collaborator decides; it returns the value of the collaborator. -/
def parse_cli_cb (env : Env) (cb : Nat) (w : World) : Option (Int × World) :=
  match w.heap cb with
  | none => none
  | some c =>
    some ((env.parse c).1,
      { w with heap := heap_set w.heap cb (some (env.parse c).2),
               trace := w.trace ++ [Event.parse_cli_cb cb] })

/-- A call through the function pointer `cb->mthd.parse`. -/
def call_parse (env : Env) (f : parse_fn) (cb : Nat) (w : World) : Option (Int × World) :=
  match f with
  | .parse_cli_cb => parse_cli_cb env cb w

/-- A call through the function pointer `cb->mthd.handle_req_msg`. -/
def call_handle_req_msg (E : ErrCodes) (env : Env) (f : handle_req_msg_fn) (cb : Nat)
    (w : World) : Option (Int × World) :=
  match f with
  | .handle_req_msg => handle_req_msg E env cb w

/-- The function `select_wrapper`: the wait sets are the interest sets, which
`select` reduces to the ready descriptors below `max_fd` unless it fails. -/
def select_wrapper (env : Env) (w : World) : Int × World :=
  let w := { w with read_wait_fds := w.read_fds }
  let w := { w with write_wait_fds := w.write_fds }
  let w := { w with trace := w.trace ++ [Event.sys_select w.max_fd] }
  if env.sys_select < 0 then (env.sys_select, w)
  else
    (env.sys_select,
      { w with
        read_wait_fds := fun k =>
          w.read_wait_fds k && decide (0 ≤ k ∧ k < w.max_fd) && env.ready_read k,
        write_wait_fds := fun k =>
          w.write_wait_fds k && decide (0 ≤ k ∧ k < w.max_fd) && env.ready_write k })

/-- The `switch(cb->type)` of the read branch of `process_request`; the
plaintext arm and the encrypted arm have the same text. -/
def process_read_switch (E : ErrCodes) (env : Env) (cb : Nat) (c : cli_cb_t) (w : World) :
    Option Flow :=
  if c.type = LISTEN then
    match c.mthd.new_connection with
    | none => none
    | some f =>
      match call_new_connection E env f cb w with
      | none => none
      | some (ret, w) => if ret < 0 then some (.ret ret w) else some (.go w)
  else if c.type = CLI then
    match c.mthd.recv with
    | none => none
    | some f =>
      match call_recv E env f cb w with
      | none => none
      | some (ret, w) =>
        if ret < 0 then some (.ret ret w)
        else
          match w.heap cb with
          | none => none
          | some c =>
            match c.mthd.parse with
            | none => none
            | some g =>
              match call_parse env g cb w with
              | none => none
              | some (ret, w) => if ret < 0 then some (.ret ret w) else some (.go w)
  else some (.go w)

/-- The block `if(FD_ISSET(i, &read_wait_fds)){...}` of `process_request`. -/
def process_read (E : ErrCodes) (env : Env) (i : Int) (w : World) : Option Flow :=
  match get_cli_cb w i with
  | none => none
  | some none => some (.ret E.ERR_CONNECTION_NOT_EXIST w)
  | some (some cb) =>
    match w.heap cb with
    | none => none
    | some c =>
      if c.is_ssl = 0 then process_read_switch E env cb c w
      else process_read_switch E env cb c w

/-- The `switch(cb->type)` of the write branch of `process_request`; the
plaintext arm and the encrypted arm have the same text. -/
def process_write_switch (E : ErrCodes) (env : Env) (cb : Nat) (c : cli_cb_t) (w : World) :
    Option Flow :=
  if c.type = LISTEN then some (.go w)
  else if c.type = CLI then
    match c.mthd.handle_req_msg with
    | none => none
    | some f =>
      match call_handle_req_msg E env f cb w with
      | none => none
      | some (ret, w) =>
        if ret < 0 then some (.ret ret w)
        else
          match w.heap cb with
          | none => none
          | some c =>
            match c.mthd.send with
            | none => none
            | some g =>
              match call_send E env g cb w with
              | none => none
              | some (ret, w) => if ret < 0 then some (.ret ret w) else some (.go w)
  else some (.go w)

/-- The block `if(FD_ISSET(i, &write_wait_fds)){...}` of `process_request`.
When the lookup returns `NULL`, the argument `cb->cli_fd` of `err_printf`
dereferences the null pointer. -/
def process_write (E : ErrCodes) (env : Env) (i : Int) (w : World) : Option Flow :=
  match get_cli_cb w i with
  | none => none
  | some none =>
    if env.err_printf_args then none
    else some (.ret E.ERR_CONNECTION_NOT_EXIST w)
  | some (some cb) =>
    match w.heap cb with
    | none => none
    | some c =>
      if c.is_ssl = 0 then process_write_switch E env cb c w
      else process_write_switch E env cb c w

/-- The body of the loop of `process_request` for descriptor `i`: the read
block, then the write block. -/
def process_fd (E : ErrCodes) (env : Env) (i : Int) (w : World) : Option Flow :=
  match (if FD_ISSET i w.read_wait_fds then process_read E env i w
         else some (.go w)) with
  | none => none
  | some (.ret ret w) => some (.ret ret w)
  | some (.go w) =>
    if FD_ISSET i w.write_wait_fds then process_write E env i w
    else some (.go w)

/-- The loop `for(i = 0; i < max_fd; i++)` of `process_request`, entered at
descriptor `i`. The first argument is the room left in an `fd_set` above `i`:
when it is used up and `i < max_fd` still holds, `FD_ISSET` reads outside the
set. -/
def process_request_loop (E : ErrCodes) (env : Env) : Nat → Int → World →
    Option (Int × World)
  | 0, i, w => if i < w.max_fd then none else some (0, w)
  | n + 1, i, w =>
    if i < w.max_fd then
      match process_fd E env i w with
      | none => none
      | some (.ret ret w) => some (ret, w)
      | some (.go w) => process_request_loop E env n (i + 1) w
    else some (0, w)

/-- The function `process_request`. -/
def process_request (E : ErrCodes) (env : Env) (w : World) : Option (Int × World) :=
  process_request_loop E env FD_SETSIZE 0 w

/-- The loop of `kill_connections` over one bucket
(`list_for_each_entry_safe`), on the blocks linked in it at entry. -/
def kill_bucket (E : ErrCodes) (env : Env) : List Nat → World → Option Flow
  | [], w => some (.go w)
  | cb :: rest, w =>
    match w.heap cb with
    | none => none
    | some c =>
      let w := { w with cli_list := list_del cb w.cli_list }
      let (ret, w) := close_socket env c.cli_fd w
      if ret < 0 then some (.ret E.ERR_SOCKET w)
      else
        match free_cli_cb cb w with
        | none => none
        | some w => kill_bucket E env rest w

/-- The loop `for (i = 0; i < HASH_SIZE; i++)` of `kill_connections`, with the
number of buckets still to visit. -/
def kill_buckets (E : ErrCodes) (env : Env) : Nat → Int → World → Option (Int × World)
  | 0, _, w => some (0, w)
  | n + 1, i, w =>
    match kill_bucket E env (w.cli_list i) w with
    | none => none
    | some (.ret ret w) => some (ret, w)
    | some (.go w) => kill_buckets E env n (i + 1) w

/-- The function `kill_connections`. -/
def kill_connections (E : ErrCodes) (env : Env) (w : World) : Option (Int × World) :=
  kill_buckets E env HASH_SIZE.toNat 0 w

/-- The function `liso_shutdown`. It does not return: the value is the status
the process exits with. -/
def liso_shutdown (E : ErrCodes) (env : Env) (w : World) : Option (Int × World) :=
  let w := { w with trace := w.trace ++ [Event.SSL_CTX_free] }
  match kill_connections E env w with
  | none => none
  | some (ret, w) =>
    if ret < 0 then some (EXIT_FAILURE, { w with trace := w.trace ++ [Event.exit EXIT_FAILURE] })
    else
      let (r, w) := close_socket env sock_fd w
      if r ≠ 0 then
        some (EXIT_FAILURE, { w with trace := w.trace ++ [Event.exit EXIT_FAILURE] })
      else some (0, { w with trace := w.trace ++ [Event.exit 0] })

/-- What one pass of the `while(1)` loop of `main` leads to: the process has
terminated with a status, or the loop goes on. -/
inductive Outcome where
  | exited (status : Int) (w : World)
  | running (w : World)

/-- One pass of the `while(1)` loop of `main`, for one call of
`select_wrapper`: a timeout waits again, a negative count shuts the server
down, otherwise the ready descriptors are processed. -/
def main_loop_body (E : ErrCodes) (env : Env) (w : World) : Option Outcome :=
  let (num, w) := select_wrapper env w
  if num = 0 then some (.running w)
  else if num < 0 then
    match liso_shutdown E env w with
    | none => none
    | some (status, w) => some (.exited status w)
  else
    match process_request E env w with
    | none => none
    | some (ret, w) => if ret < 0 then some (.exited EXIT_FAILURE w) else some (.running w)

/-- A tick ends the process with a negative result: `process_request`, called
on the state `select_wrapper` leaves, returns the value `r` in the state `w'`,
and the pass of the loop of `main` exits with `EXIT_FAILURE` in that state. -/
def aborts_tick (E : ErrCodes) (env : Env) (w0 : World) (r : Int) (w' : World) : Prop :=
  process_request E env (select_wrapper env w0).2 = some (r, w') ∧
  main_loop_body E env w0 = some (.exited EXIT_FAILURE w')

/-- The state `tcp_close_socket` leaves when `close` fails on the one
connection of `World.single`: the control block is freed, its descriptor 3
stays in the interest sets. -/
def World.desync : World :=
  match tcp_close_socket ErrCodes.sample Env.close_fails 1
      (World.single cli_cb_t.accepted_plain) with
  | some (_, w) => w
  | none => World.init

/-- An environment in which `select` finds every descriptor ready for reading
only. -/
def Env.read_ready : Env :=
  { Env.quiet with sys_select := 1, ready_read := fun _ => true }

/-- An environment in which `select` finds every descriptor ready for writing
only. -/
def Env.write_ready : Env :=
  { Env.quiet with sys_select := 1, ready_write := fun _ => true }

/-- As `Env.write_ready`, with an `err_printf` that does not evaluate its
arguments. -/
def Env.write_ready_silent : Env :=
  { Env.write_ready with err_printf_args := false }

/-- An environment in which `select` finds every descriptor ready for reading
and the bytes 71, 69, 84 are pending. -/
def Env.read_ready_get : Env :=
  { Env.pending_get with sys_select := 1, ready_read := fun _ => true }

/-- An environment in which `select` finds every descriptor ready for writing
and every write is one byte short. -/
def Env.write_ready_short : Env :=
  { Env.short_write with sys_select := 1, ready_write := fun _ => true }

/-- An environment in which `select` finds every descriptor ready for writing,
no file opens and `malloc` hands out the address 200. -/
def Env.write_ready_not_found : Env :=
  { Env.not_found with sys_select := 1, ready_write := fun _ => true }

/-- A plaintext accepted control block with the request `GET /a HTTP/1.1`
queued. -/
def cli_cb_t.get_queued : cli_cb_t :=
  { cli_cb_t.accepted_plain with req_msg_list := [req_msg_t.get_a] }

/-- The state with the plaintext listening control block at address 1
(descriptor 4) and an accepted plaintext control block at address 2
(descriptor 7), both registered. -/
def World.two_cbs : World :=
  { World.init with
    cli_list := fun j => if j = 4 then [1] else if j = 7 then [2] else [],
    read_fds := FD_SET 7 (FD_SET 4 FD_ZERO), write_fds := FD_SET 7 FD_ZERO, max_fd := 8,
    heap := fun p =>
      if p = 1 then some cli_cb_t.listen_tcp
      else if p = 2 then some { cli_cb_t.accepted_plain with cli_fd := 7 }
      else none }

/-- An environment in which `select` is interrupted and `close` succeeds on
every descriptor but fails on -1, which is no descriptor. -/
def Env.interrupted : Env :=
  { Env.quiet with sys_select := -1, sys_close := fun fd => if fd = -1 then -1 else 0 }

/-- An environment in which `select` is interrupted and `close` returns 0
whatever it is given. -/
def Env.interrupted_close_ok : Env :=
  { Env.quiet with sys_select := -1 }

/-- The status a pass of the main loop exits with, if it exits. -/
def Outcome.status : Outcome → Option Int
  | .exited status _ => some status
  | .running _ => none

/-- The state a pass of the main loop leaves. -/
def Outcome.world : Outcome → World
  | .exited _ w => w
  | .running w => w

/-! ## Dispatch by role and security mode -/

/-- The operations `init_cli_cb` binds for a role and a security mode. -/
def mthd_of_init (type is_ssl : Int) : cli_cb_mthd_t :=
  { new_connection :=
      if type = LISTEN then
        some (if is_ssl = 0 then .tcp_new_connection else .ssl_new_connection)
      else none,
    close := some (if is_ssl = 0 then .tcp_close_socket else .ssl_close_socket),
    recv :=
      if type = LISTEN then none
      else some (if is_ssl = 0 then .tcp_recv_wrapper else .ssl_recv_wrapper),
    parse := some .parse_cli_cb,
    handle_req_msg := some .handle_req_msg,
    send :=
      if type = LISTEN then none
      else some (if is_ssl = 0 then .tcp_send_wrapper else .ssl_send_wrapper) }

/-- A control block whose role is LISTEN or CLI and whose operations are the
ones `init_cli_cb` binds for its role and security mode. -/
def bound_by_init (c : cli_cb_t) : Prop :=
  (c.type = LISTEN ∨ c.type = CLI) ∧ c.mthd = mthd_of_init c.type c.is_ssl

/-- The read branch as the specification words it: a Listening block accepts
with the operation of its security mode, an Accepted block receives with the
operation of its security mode and then parses. No function pointer is read. -/
def read_by_mode (E : ErrCodes) (env : Env) (cb : Nat) (type is_ssl : Int) (w : World) :
    Option Flow :=
  if type = LISTEN then
    match (if is_ssl = 0 then tcp_new_connection E env cb w
           else ssl_new_connection E env cb w) with
    | none => none
    | some (ret, w) => if ret < 0 then some (.ret ret w) else some (.go w)
  else
    match (if is_ssl = 0 then tcp_recv_wrapper E env cb w
           else ssl_recv_wrapper E env cb w) with
    | none => none
    | some (ret, w) =>
      if ret < 0 then some (.ret ret w)
      else
        match parse_cli_cb env cb w with
        | none => none
        | some (ret, w) => if ret < 0 then some (.ret ret w) else some (.go w)

/-- The write branch as the specification words it: nothing for a Listening
block; an Accepted block handles one queued message and then sends with the
operation of its security mode. No function pointer is read. -/
def write_by_mode (E : ErrCodes) (env : Env) (cb : Nat) (type is_ssl : Int) (w : World) :
    Option Flow :=
  if type = LISTEN then some (.go w)
  else
    match handle_req_msg E env cb w with
    | none => none
    | some (ret, w) =>
      if ret < 0 then some (.ret ret w)
      else
        match (if is_ssl = 0 then tcp_send_wrapper E env cb w
               else ssl_send_wrapper E env cb w) with
        | none => none
        | some (ret, w) => if ret < 0 then some (.ret ret w) else some (.go w)

/-- An environment in which `select` finds every descriptor ready for reading,
`accept` returns descriptor 7, `malloc` a block at address 2, and `SSL_new`
fails. -/
def Env.read_ready_ssl_new_fails : Env :=
  { Env.ssl_new_fails with sys_select := 1, ready_read := fun _ => true }

/-- An environment in which `select` finds every descriptor ready for reading,
three bytes are pending, and the parser rejects them with the value -20. -/
def Env.read_ready_malformed : Env :=
  { Env.read_ready_get with parse := fun c => (-20, c) }

/-- An environment in which every file opens as descriptor 5 and has the given
size, `malloc` hands out the address 200 for an outbound buffer, and the
mapping of the file starts with the bytes `ab`. -/
def Env.file_of_size (st_size : Nat) : Env :=
  { Env.quiet with sys_open := fun _ => 5, sys_fstat := fun _ => some st_size,
                   sys_mmap := fun _ => some "ab".toList, malloc_buf := fun _ => some 200 }

/-! ## Release of storage along a path -/

/-- What an audit of a trace finds about the storage of control blocks and of
outbound buffers: every `free` released storage that was live at that moment
(`ok`, with the control blocks and the buffers live at the end), or `malloc`
handed out storage that was still live (`alloc_fault`, a fault of the
allocator, after which nothing is said), or a `free` released storage that was
not live (`dead_free`), as the second of two releases of the same storage
does. -/
inductive Verdict where
  | ok (cbs bufs : Nat → Bool)
  | alloc_fault
  | dead_free

/-- The audit of one event, `cbs` and `bufs` being the addresses of the live
control blocks and of the live outbound buffers before it. -/
def audit_step (cbs bufs : Nat → Bool) : Event → Verdict
  | .malloc_cb (some p) =>
    if cbs p then .alloc_fault else .ok (fun q => decide (q = p) || cbs q) bufs
  | .free_cb p =>
    if cbs p then .ok (fun q => !decide (q = p) && cbs q) bufs else .dead_free
  | .malloc_buf (some a) =>
    if bufs a then .alloc_fault else .ok cbs (fun q => decide (q = a) || bufs q)
  | .free_buf a =>
    if bufs a then .ok cbs (fun q => !decide (q = a) && bufs q) else .dead_free
  | _ => .ok cbs bufs

/-- The audit of a trace, event by event. -/
def audit (cbs bufs : Nat → Bool) : List Event → Verdict
  | [] => .ok cbs bufs
  | e :: es =>
    match audit_step cbs bufs e with
    | .ok cbs bufs => audit cbs bufs es
    | .alloc_fault => .alloc_fault
    | .dead_free => .dead_free

/-- Whether the audit found a release of storage that was not live. -/
def Verdict.freed_dead : Verdict → Bool
  | .dead_free => true
  | _ => false

/-- An event that neither allocates nor releases storage of a control block or
of an outbound buffer. -/
def Event.quiet : Event → Bool
  | .malloc_cb (some _) => false
  | .free_cb _ => false
  | .malloc_buf (some _) => false
  | .free_buf _ => false
  | _ => true

/-- The passes of the `while(1)` loop of `main`, one per environment of the
list, until the process exits. -/
def run (E : ErrCodes) : List Env → World → Option Outcome
  | [], w => some (.running w)
  | env :: envs, w =>
    match main_loop_body E env w with
    | none => none
    | some (.exited status w) => some (.exited status w)
    | some (.running w) => run E envs w

/-- The state of the storage the engine relies on: `cbs` are the addresses of
the live control blocks; the outbound buffer a live block points to is live
and no two live blocks point to the same buffer; and an encrypted listening
block (the one whose accept operation is `ssl_new_connection`) has
`ssl_close_socket` as its close operation and an `ssl` handle for which `R`
holds (`establish_socket` never assigns it). -/
def store_inv (R : Option Nat → Prop) (cbs bufs : Nat → Bool)
    (heap : Nat → Option cli_cb_t) : Prop :=
  cbs = (fun p => (heap p).isSome) ∧
  (∀ p c b, heap p = some c → c.buf_out = some b → bufs b.addr = true) ∧
  (∀ p q c d b e, heap p = some c → heap q = some d → c.buf_out = some b →
    d.buf_out = some e → b.addr = e.addr → p = q) ∧
  (∀ p c, heap p = some c → c.mthd.new_connection = some .ssl_new_connection →
    c.mthd.close = some .ssl_close_socket ∧ R c.ssl)

/-- From a state of the storage for which `P` holds, the events a step adds to
the trace are audited without a release of dead storage, and `Q` holds of the
storage after them unless the allocator was at fault. -/
def Audited (P : (Nat → Bool) → (Nat → Bool) → Prop) (w w' : World)
    (Q : (Nat → Bool) → (Nat → Bool) → Prop) : Prop :=
  ∃ ext, w'.trace = w.trace ++ ext ∧
    ∀ cbs bufs, P cbs bufs →
      audit cbs bufs ext = .alloc_fault ∨
      ∃ cbs' bufs', audit cbs bufs ext = .ok cbs' bufs' ∧ Q cbs' bufs'

/-- The state of the storage at a state of the program. -/
def store_at (R : Option Nat → Prop) (w : World) : (Nat → Bool) → (Nat → Bool) → Prop :=
  fun cbs bufs => store_inv R cbs bufs w.heap

/-- The state a block of `process_request` leaves. -/
def Flow.world : Flow → World
  | .ret _ w => w
  | .go w => w

/-- An environment in which `select` finds every descriptor ready for reading,
`accept` fails and `SSL_shutdown` reports failure. -/
def Env.read_ready_shutdown_rejects : Env :=
  { Env.ssl_shutdown_fails with sys_select := 1, ready_read := fun _ => true }

/-- The outcome of the pass in which `accept` fails on the encrypted listening
block. -/
def Outcome.accept_failed : Outcome :=
  match run ErrCodes.sample [Env.read_ready_shutdown_rejects] World.listening_ssl with
  | some o => o
  | none => .running World.init

/-! ## Theorems -/

/-- The loop of `reelect_max_fd` stops within the bound: at its result the loop
condition is false, the result is at most the start, and nothing above it up to
the start is of interest. -/
theorem reelect_loop_spec (r w : fd_set) :
    ∀ (fuel : Nat) (i : Int), i.toNat ≤ fuel →
      reelect_loop r w fuel i ≤ i ∧
      (0 ≤ i → 0 ≤ reelect_loop r w fuel i) ∧
      ((r (reelect_loop r w fuel i) || w (reelect_loop r w fuel i)) = true ∨
        reelect_loop r w fuel i ≤ 0) ∧
      ∀ k, reelect_loop r w fuel i < k → k ≤ i → (r k || w k) = false := by
  intro fuel
  induction fuel with
  | zero =>
    intro i hi
    have h0 : i ≤ 0 := by omega
    refine ⟨le_refl _, fun h => h, Or.inr h0, ?_⟩
    intro k hk hk2
    simp only [reelect_loop] at hk
    omega
  | succ n ih =>
    intro i hi
    by_cases hc : ((!(FD_ISSET i r || FD_ISSET i w)) && decide (i > 0)) = true
    · have hpos : i > 0 := by
        simp only [Bool.and_eq_true, decide_eq_true_eq] at hc
        exact hc.2
      have hnot : (r i || w i) = false := by
        simp only [Bool.and_eq_true, Bool.not_eq_true', FD_ISSET] at hc
        exact hc.1
      have hstep : reelect_loop r w (n + 1) i = reelect_loop r w n (i - 1) := by
        simp only [reelect_loop, hc, if_true]
      obtain ⟨h1, h2, h3, h4⟩ := ih (i - 1) (by omega)
      rw [hstep]
      refine ⟨by omega, fun _ => h2 (by omega), h3, ?_⟩
      intro k hk hk2
      by_cases hki : k = i
      · rw [hki]; exact hnot
      · exact h4 k hk (by omega)
    · have hstep : reelect_loop r w (n + 1) i = i := by
        simp only [reelect_loop, hc]
        rfl
      rw [hstep]
      refine ⟨le_refl _, fun h => h, ?_, ?_⟩
      · by_cases hpos : i > 0
        · left
          simp only [Bool.and_eq_true, Bool.not_eq_true', decide_eq_true_eq, FD_ISSET,
            not_and] at hc
          by_contra hne
          exact hc (by simpa using hne) hpos
        · right; omega
      · intro k hk hk2; omega

theorem fd_in_range_iff (fd : Int) :
    fd_in_range fd = true ↔ 0 ≤ fd ∧ fd < FD_SETSIZE := by
  simp [fd_in_range]

/-- Inside the range `insert_fd` is defined, and only there; what it changes. -/
theorem insert_fd_eq_some (fd : Int) (set : fd_set_ref) (w w' : World)
    (h : insert_fd fd set w = some w') :
    fd_in_range fd = true ∧
    w'.max_fd = (if fd ≥ w.max_fd then fd + 1 else w.max_fd) ∧
    ∀ k, of_interest w' k = (decide (k = fd) || of_interest w k) := by
  by_cases hr : fd_in_range fd = true
  · refine ⟨hr, ?_⟩
    by_cases hge : fd ≥ w.max_fd <;> cases set <;>
      simp only [insert_fd, hr, hge, if_true, if_false, Option.some.injEq] at h <;>
      subst h <;> refine ⟨by simp [hge], ?_⟩ <;> intro k <;>
      by_cases hk : k = fd <;> simp [of_interest, FD_ISSET, FD_SET, hk]
  · exfalso
    cases set <;> simp [insert_fd, hr] at h

theorem ceiling_inv_init : ceiling_inv World.init := by
  refine ⟨le_refl _, by decide, ?_, Or.inl (by decide)⟩
  intro k hk
  simp [of_interest, World.init, FD_ISSET, FD_ZERO] at hk

theorem ceiling_inv_insert_fd (w w' : World) (fd : Int) (set : fd_set_ref)
    (h : ceiling_inv w) (hins : insert_fd fd set w = some w') : ceiling_inv w' := by
  obtain ⟨h0, hcap, hmem, htop⟩ := h
  obtain ⟨hr, hmax, hint⟩ := insert_fd_eq_some fd set w w' hins
  obtain ⟨hfd, hfd2⟩ := (fd_in_range_iff fd).1 hr
  have hmax1 : w.max_fd ≤ w'.max_fd ∧ fd < w'.max_fd ∧
      (w'.max_fd = fd + 1 ∨ w'.max_fd = w.max_fd) := by
    rw [hmax]; split <;> omega
  refine ⟨by omega, by omega, ?_, ?_⟩
  · intro k hk
    rw [hint k] at hk
    simp only [Bool.or_eq_true, decide_eq_true_eq] at hk
    rcases hk with hk | hk
    · subst hk; omega
    · have := hmem k hk; omega
  · rcases hmax1.2.2 with he | he
    · right
      rw [hint, he]
      simp
    · rcases htop with h1 | h1
      · left; omega
      · right
        rw [hint, he, h1]
        simp

theorem ceiling_inv_close_socket (w : World) (env : Env) (sock : Int)
    (h : ceiling_inv w) (hc : env.sys_close sock = 0) :
    ceiling_inv (close_socket env sock w).2 := by
  obtain ⟨h0, hcap, hmem, htop⟩ := h
  by_cases hz : w.max_fd = 0
  · simp only [close_socket, hc, ne_eq, not_true_eq_false, if_false, reelect_max_fd, hz,
      if_true, ceiling_inv, of_interest, FD_ISSET, FD_CLR]
    refine ⟨le_refl _, by omega, ?_, Or.inl (by decide)⟩
    intro k hk
    by_cases hks : k = sock
    · simp [hks] at hk
    · simp only [hks, if_false] at hk
      have := hmem k (by simpa [of_interest, FD_ISSET] using hk)
      omega
  · have hsp := reelect_loop_spec (FD_CLR sock w.read_fds) (FD_CLR sock w.write_fds)
      (w.max_fd - 1).toNat (w.max_fd - 1) (le_refl _)
    obtain ⟨s1, s2, s3, s4⟩ := hsp
    simp only [close_socket, hc, ne_eq, not_true_eq_false, if_false, reelect_max_fd, hz,
      ceiling_inv, of_interest, FD_ISSET]
    refine ⟨?_, ?_, ?_, ?_⟩
    · have := s2 (by omega); omega
    · omega
    · intro k hk
      have hk0 : of_interest w k = true := by
        by_cases hks : k = sock
        · simp [FD_CLR, hks] at hk
        · simpa [FD_CLR, hks, of_interest, FD_ISSET] using hk
      have hb := hmem k hk0
      refine ⟨hb.1, ?_⟩
      by_contra hlt
      have := s4 k (by omega) (by omega)
      rw [this] at hk
      exact Bool.false_ne_true hk
    · rcases s3 with h3 | h3
      · right; simpa using h3
      · left; omega

theorem Registered.ceiling_inv (w : World) (h : Registered w) : ceiling_inv w := by
  induction h with
  | init => exact ceiling_inv_init
  | insert_fd w w' fd set _ hins ih => exact ceiling_inv_insert_fd w w' fd set ih hins
  | close_socket w env sock _ _ hc ih => exact ceiling_inv_close_socket w env sock ih hc

/-- Every descriptor a reachable state was built with has a bit in the sets:
the registrations are the defined ones. -/
theorem Registered.after_3_5_9 : Registered World.after_3_5_9 :=
  Registered.insert_fd _ _ 9 .read_fds
    (Registered.insert_fd _ _ 5 .read_fds
      (Registered.insert_fd _ _ 3 .read_fds Registered.init rfl) rfl)
    rfl

theorem Registered.after_3_5_9_close_9 : Registered World.after_3_5_9_close_9 :=
  Registered.close_socket _ Env.quiet 9 Registered.after_3_5_9 (by decide) rfl

/-- C1. Readiness ceiling: in every state reached from the initial one by
`insert_fd` registrations and successful `close_socket` deregistrations of
descriptors that have a bit in an `fd_set` (0 up to `FD_SETSIZE - 1`, outside
of which `FD_SET` and `FD_CLR` are undefined), if some descriptor is of
interest then `max_fd` is 1 + the highest descriptor in the union of `read_fds`
and `write_fds`, and `max_fd` never exceeds `FD_SETSIZE`, so that
`reelect_max_fd` tests bits of the sets only; registering 3, 5 and 9 and then
deregistering 9 leaves `max_fd` at 6. -/
theorem C1_readiness_ceiling (w : World) (hreach : Registered w)
    (hne : ∃ k, of_interest w k = true) :
    (∃ m, of_interest w m = true ∧ (∀ k, of_interest w k = true → k ≤ m) ∧
      w.max_fd = 1 + m) ∧
    w.max_fd ≤ FD_SETSIZE ∧
    (∀ k, of_interest w k = true → fd_in_range k = true) ∧
    (insert_fd 3 .read_fds World.init).bind
        (fun w => (insert_fd 5 .read_fds w).bind (insert_fd 9 .read_fds)) =
      some World.after_3_5_9 ∧
    World.after_3_5_9.max_fd = 10 ∧
    World.after_3_5_9_close_9.max_fd = 6 := by
  obtain ⟨h0, hcap, hmem, htop⟩ := hreach.ceiling_inv
  obtain ⟨k0, hk0⟩ := hne
  have hb := hmem k0 hk0
  refine ⟨⟨w.max_fd - 1, ?_, ?_, by omega⟩, hcap, ?_, rfl, by decide, by decide⟩
  · rcases htop with h1 | h1
    · have : k0 = w.max_fd - 1 := by omega
      rw [← this]; exact hk0
    · exact h1
  · intro k hk
    have := hmem k hk
    omega
  · intro k hk
    have := hmem k hk
    exact (fd_in_range_iff k).2 ⟨this.1, by omega⟩

/-- Witness of C1 at the state after registering 3, 5, 9 and closing 9. -/
theorem C1_readiness_ceiling_witness :
    Registered World.after_3_5_9_close_9 ∧
    (∃ k, of_interest World.after_3_5_9_close_9 k = true) ∧
    ((∃ m, of_interest World.after_3_5_9_close_9 m = true ∧
        (∀ k, of_interest World.after_3_5_9_close_9 k = true → k ≤ m) ∧
        World.after_3_5_9_close_9.max_fd = 1 + m) ∧
      World.after_3_5_9_close_9.max_fd = 6) :=
  ⟨Registered.after_3_5_9_close_9, ⟨5, by decide⟩,
    (C1_readiness_ceiling World.after_3_5_9_close_9 Registered.after_3_5_9_close_9
      ⟨5, by decide⟩).1,
    (C1_readiness_ceiling World.after_3_5_9_close_9 Registered.after_3_5_9_close_9
      ⟨5, by decide⟩).2.2.2.2.2⟩

/-- Outside the range `insert_fd` is undefined: descriptor 1030 has no bit in
an `fd_set`, and neither has a negative descriptor. -/
theorem insert_fd_out_of_range :
    (insert_fd 1030 .write_fds World.init).isSome = false ∧
    (insert_fd (-1) .read_fds World.init).isSome = false ∧
    (insert_fd 1023 .read_fds World.init).map (fun w => w.max_fd) = some 1024 := by
  decide

/-! ### Registry lookup -/

theorem cli_bucket_of_nonneg (fd : Int) (h : 0 ≤ fd) :
    cli_bucket fd = some (Int.tmod fd HASH_SIZE) := by
  have := Int.tmod_nonneg HASH_SIZE h
  simp only [cli_bucket]
  rw [if_neg (by omega)]

/-- The bucket loop reads only the blocks linked into the bucket. -/
theorem get_cli_cb_loop_congr (h1 h2 : Nat → Option cli_cb_t) (g : Int) :
    ∀ l : List Nat, (∀ p ∈ l, h1 p = h2 p) →
      get_cli_cb_loop h1 g l = get_cli_cb_loop h2 g l := by
  intro l
  induction l with
  | nil => intro _; rfl
  | cons p rest ih =>
    intro hl
    have hp := hl p (List.mem_cons_self _ _)
    have hr := ih (fun q hq => hl q (List.mem_cons_of_mem _ hq))
    simp only [get_cli_cb_loop, hp, hr]

/-- The bucket loop on a bucket with one more block linked at its tail. -/
theorem get_cli_cb_loop_append (h : Nat → Option cli_cb_t) (g : Int) (p : Nat)
    (c : cli_cb_t) (hp : h p = some c) :
    ∀ l : List Nat, get_cli_cb_loop h g (l ++ [p]) =
      match get_cli_cb_loop h g l with
      | none => none
      | some (some q) => some (some q)
      | some none => if c.cli_fd = g then some (some p) else some none := by
  intro l
  induction l with
  | nil => simp [get_cli_cb_loop, hp]
  | cons q rest ih =>
    simp only [List.cons_append, get_cli_cb_loop]
    cases hq : h q with
    | none => rfl
    | some d =>
      by_cases hd : d.cli_fd = g
      · simp [hd]
      · simp only [hd, if_false]; exact ih

/-- On a bucket of live blocks none of which is for the descriptor, the loop
returns `NULL`. -/
theorem get_cli_cb_loop_null (h : Nat → Option cli_cb_t) (g : Int) :
    ∀ l : List Nat, (∀ p ∈ l, ∃ c, h p = some c ∧ c.cli_fd ≠ g) →
      get_cli_cb_loop h g l = some none := by
  intro l
  induction l with
  | nil => intro _; rfl
  | cons p rest ih =>
    intro hl
    obtain ⟨c, hc, hne⟩ := hl p (List.mem_cons_self _ _)
    simp only [get_cli_cb_loop, hc, hne, if_false]
    exact ih (fun q hq => hl q (List.mem_cons_of_mem _ hq))

/-- In a registry of live blocks, `get_cli_cb` returns `NULL` for a non-negative
descriptor the registry holds no control block for. -/
theorem get_cli_cb_null (w : World) (g : Int) (hg : 0 ≤ g) (hlive : registry_live w)
    (hno : ¬ holds_cb w g) : get_cli_cb w g = some none := by
  simp only [get_cli_cb, cli_bucket_of_nonneg g hg]
  apply get_cli_cb_loop_null
  intro p hp
  obtain ⟨c, hc⟩ := hlive _ p hp
  exact ⟨c, hc, fun hfd => hno ⟨_, p, c, hp, hc, hfd⟩⟩

/-- The shape of a successful `init_cli_cb`: the block is rewritten in place,
with `cli_fd` set, and linked at the tail of the bucket of the descriptor. -/
theorem init_cli_cb_ok (E : ErrCodes) (w : World) (cb : Nat) (c0 : cli_cb_t)
    (addr : Option Nat) (fd type is_ssl : Int) (hfd : 0 ≤ fd)
    (hcb : w.heap cb = some c0) (htype : type = LISTEN ∨ type = CLI) :
    ∃ c, c.cli_fd = fd ∧ c.type = type ∧ c.is_ssl = is_ssl ∧
      init_cli_cb E cb addr fd type is_ssl w =
        some (0, { w with
          heap := heap_set w.heap cb (some c),
          cli_list := fun j =>
            if j = Int.tmod fd HASH_SIZE then list_add_tail cb (w.cli_list j)
            else w.cli_list j }) := by
  have hb := cli_bucket_of_nonneg fd hfd
  by_cases hs : is_ssl = 0 <;> rcases htype with ht | ht <;>
    simp only [init_cli_cb, hcb, hs, ht, hb, if_true, if_false, LISTEN, CLI,
      show ((1 : Int) = 0) = False from by decide] <;>
    exact ⟨_, rfl, rfl, rfl, rfl⟩

/-- C2. Registry exact lookup: for a non-negative descriptor `fd`, a registry
of live blocks holding no control block for `fd`, and a live block `cb` not
yet linked, `init_cli_cb` with role LISTEN or CLI succeeds (returns 0), after
which `get_cli_cb fd` returns exactly `cb` and `get_cli_cb g` is unchanged for
every other descriptor `g`, same bucket or not; `get_cli_cb` returns `NULL`
for every descriptor that has no control block in the registry, before and
after. -/
theorem C2_registry_exact_lookup (E : ErrCodes) (w : World) (cb : Nat) (c0 : cli_cb_t)
    (addr : Option Nat) (fd type is_ssl : Int) (hfd : 0 ≤ fd)
    (hlive : registry_live w) (hcb : w.heap cb = some c0)
    (hfresh : ∀ i, cb ∉ w.cli_list i) (hnone : ¬ holds_cb w fd)
    (htype : type = LISTEN ∨ type = CLI) :
    ∃ w', init_cli_cb E cb addr fd type is_ssl w = some (0, w') ∧
      get_cli_cb w' fd = some (some cb) ∧
      (∀ g, 0 ≤ g → g ≠ fd → get_cli_cb w' g = get_cli_cb w g) ∧
      (∀ g, 0 ≤ g → ¬ holds_cb w g → get_cli_cb w g = some none) ∧
      (∀ g, 0 ≤ g → ¬ holds_cb w' g → get_cli_cb w' g = some none) := by
  obtain ⟨c, hcfd, -, -, hinit⟩ := init_cli_cb_ok E w cb c0 addr fd type is_ssl hfd hcb htype
  refine ⟨_, hinit, ?_, ?_, fun g hg hno => get_cli_cb_null w g hg hlive hno, ?_⟩
  · -- lookup of fd
    simp only [get_cli_cb, cli_bucket_of_nonneg fd hfd, if_true, list_add_tail]
    rw [get_cli_cb_loop_append _ fd cb c (by simp [heap_set])]
    have hold : get_cli_cb_loop (heap_set w.heap cb (some c)) fd
        (w.cli_list (Int.tmod fd HASH_SIZE)) = some none := by
      rw [get_cli_cb_loop_congr (heap_set w.heap cb (some c)) w.heap fd]
      · have := get_cli_cb_null w fd hfd hlive hnone
        simpa only [get_cli_cb, cli_bucket_of_nonneg fd hfd] using this
      · intro p hp
        have : p ≠ cb := fun h => hfresh _ (h ▸ hp)
        simp [heap_set, this]
    rw [hold]
    simp [hcfd]
  · -- lookup of another descriptor
    intro g hg hne
    simp only [get_cli_cb, cli_bucket_of_nonneg g hg]
    have hcongr : ∀ i, get_cli_cb_loop (heap_set w.heap cb (some c)) g (w.cli_list i) =
        get_cli_cb_loop w.heap g (w.cli_list i) := by
      intro i
      apply get_cli_cb_loop_congr
      intro p hp
      have : p ≠ cb := fun h => hfresh _ (h ▸ hp)
      simp [heap_set, this]
    by_cases hb : Int.tmod g HASH_SIZE = Int.tmod fd HASH_SIZE
    · simp only [hb, if_true, list_add_tail]
      rw [get_cli_cb_loop_append _ g cb c (by simp [heap_set]), hcongr]
      have hcg : ¬ c.cli_fd = g := by rw [hcfd]; exact fun h => hne h.symm
      cases hres : get_cli_cb_loop w.heap g (w.cli_list (Int.tmod fd HASH_SIZE)) with
      | none => rfl
      | some r =>
        cases r with
        | none => simp [hcg]
        | some q => rfl
    · simp only [hb, if_false]
      exact hcongr _
  · -- descriptors without a control block afterwards
    intro g hg hno
    apply get_cli_cb_null _ g hg _ hno
    intro i p hp
    by_cases hpc : p = cb
    · exact ⟨c, by simp [heap_set, hpc]⟩
    · have hp' : p ∈ w.cli_list i := by
        by_cases hi : i = Int.tmod fd HASH_SIZE
        · simp only [hi, if_true, list_add_tail, List.mem_append, List.mem_singleton] at hp
          rcases hp with hp | hp
          · rw [hi]; exact hp
          · exact absurd hp hpc
        · simpa only [hi, if_false] using hp
      obtain ⟨d, hd⟩ := hlive i p hp'
      exact ⟨d, by simp [heap_set, hpc, hd]⟩

theorem World.one_cb_live : registry_live World.one_cb := by
  intro i p hp
  by_cases hi : i = 3
  · simp only [World.one_cb, hi, if_true, List.mem_singleton] at hp
    subst hp
    exact ⟨_, rfl⟩
  · simp [World.one_cb, hi] at hp

theorem World.one_cb_fresh : ∀ i, 2 ∉ World.one_cb.cli_list i := by
  intro i
  by_cases hi : i = 3 <;> simp [World.one_cb, hi]

theorem World.one_cb_holds_not_258 : ¬ holds_cb World.one_cb 258 := by
  rintro ⟨i, p, c, hp, hc, hfd⟩
  by_cases hi : i = 3
  · simp only [World.one_cb, hi, if_true, List.mem_singleton] at hp
    subst hp
    simp only [World.one_cb, if_true, Option.some.injEq] at hc
    subst hc
    revert hfd
    decide
  · simp [World.one_cb, hi] at hp

/-- Witness of C2: descriptor 258 is registered next to descriptor 3, which
falls in the same bucket. -/
theorem C2_registry_exact_lookup_witness :
    (0 : Int) ≤ 258 ∧ registry_live World.one_cb ∧
    World.one_cb.heap 2 = some cli_cb_t.blank ∧
    (∀ i, 2 ∉ World.one_cb.cli_list i) ∧ ¬ holds_cb World.one_cb 258 ∧
    (CLI = LISTEN ∨ CLI = CLI) ∧
    ∃ w', init_cli_cb ErrCodes.sample 2 (some 7) 258 CLI 0 World.one_cb = some (0, w') ∧
      get_cli_cb w' 258 = some (some 2) ∧
      (∀ g, 0 ≤ g → g ≠ 258 → get_cli_cb w' g = get_cli_cb World.one_cb g) ∧
      (∀ g, 0 ≤ g → ¬ holds_cb World.one_cb g → get_cli_cb World.one_cb g = some none) ∧
      (∀ g, 0 ≤ g → ¬ holds_cb w' g → get_cli_cb w' g = some none) :=
  ⟨by decide, World.one_cb_live, rfl, World.one_cb_fresh, World.one_cb_holds_not_258,
    Or.inr rfl,
    C2_registry_exact_lookup ErrCodes.sample World.one_cb 2 cli_cb_t.blank (some 7) 258 CLI 0
      (by decide) World.one_cb_live rfl World.one_cb_fresh World.one_cb_holds_not_258
      (Or.inr rfl)⟩

/-- Descriptors 3 and 258 share a bucket, and each is found by exact lookup. -/
theorem get_cli_cb_3_258 :
    cli_bucket 3 = cli_bucket 258 ∧
    (init_cli_cb ErrCodes.sample 2 (some 7) 258 CLI 0 World.one_cb).bind
        (fun r => get_cli_cb r.2 258) = some (some 2) ∧
    (init_cli_cb ErrCodes.sample 2 (some 7) 258 CLI 0 World.one_cb).bind
        (fun r => get_cli_cb r.2 3) = some (some 1) ∧
    (init_cli_cb ErrCodes.sample 2 (some 7) 258 CLI 0 World.one_cb).bind
        (fun r => get_cli_cb r.2 513) = some none := by
  refine ⟨by decide, by decide, by decide, by decide⟩

/-! ### Receive backpressure -/

/-- Counterexample to C3 as stated: a receive of the two bytes 0, 65 leaves
the inbound buffer of the control block with two recorded bytes, not all zero;
on the next call `tcp_recv_wrapper` reads from the descriptor again, overwrites
`buf_in` and `buf_in_ctr`, and returns 0. -/
theorem C3_receive_backpressure_counterexample :
    (tcp_recv_wrapper ErrCodes.sample Env.pending_nul 1
        (World.single cli_cb_t.accepted_plain)).map
      (fun r => (r.2.heap 1).map (fun c => (c.buf_in 0, c.buf_in 1, c.buf_in 2, c.buf_in_ctr))) =
      some (some (0, 65, 0, 2)) ∧
    ((World.single cli_cb_t.nul_first).heap 1).map
        (fun c => (c.type, decide (0 < c.buf_in_ctr), c.buf_in 0, c.buf_in 1)) =
      some (CLI, true, 0, 65) ∧
    (tcp_recv_wrapper ErrCodes.sample Env.pending_get 1 (World.single cli_cb_t.nul_first)).map
        (fun r => (r.1, r.2.trace,
          (r.2.heap 1).map (fun c => (c.buf_in 0, c.buf_in 1, c.buf_in_ctr)))) =
      some (0, [Event.sys_recv 3], some (71, 69, 3)) := by
  refine ⟨by rfl, by rfl, by rfl⟩

/-- C3, amended. Receive backpressure: for every live control block whose
inbound buffer starts with a non-zero byte, `tcp_recv_wrapper` and
`ssl_recv_wrapper` return `ERR_BUF` and leave the whole state as it is: no
read is performed and `buf_in`, `buf_in_ctr` are unchanged. -/
theorem C3_receive_backpressure (E : ErrCodes) (env : Env) (cb : Nat) (w : World)
    (c : cli_cb_t) (hcb : w.heap cb = some c) (hbusy : c.buf_in 0 ≠ 0) :
    tcp_recv_wrapper E env cb w = some (E.ERR_BUF, w) ∧
    ssl_recv_wrapper E env cb w = some (E.ERR_BUF, w) := by
  constructor <;>
    simp [tcp_recv_wrapper, ssl_recv_wrapper, hcb, is_buf_in_empty, hbusy]

/-- Witness of C3 (amended) at a control block whose inbound buffer starts
with the byte 71. -/
theorem C3_receive_backpressure_witness :
    (World.single cli_cb_t.busy_in).heap 1 = some cli_cb_t.busy_in ∧
    cli_cb_t.busy_in.buf_in 0 ≠ 0 ∧
    tcp_recv_wrapper ErrCodes.sample Env.pending_get 1 (World.single cli_cb_t.busy_in) =
      some (ErrCodes.sample.ERR_BUF, World.single cli_cb_t.busy_in) ∧
    ssl_recv_wrapper ErrCodes.sample Env.pending_get 1 (World.single cli_cb_t.busy_in) =
      some (ErrCodes.sample.ERR_BUF, World.single cli_cb_t.busy_in) :=
  ⟨rfl, by decide,
    C3_receive_backpressure ErrCodes.sample Env.pending_get 1
      (World.single cli_cb_t.busy_in) cli_cb_t.busy_in rfl (by decide)⟩

/-! ### Close operations on a live block -/

theorem reelect_max_fd_heap (w : World) : (reelect_max_fd w).heap = w.heap := by
  unfold reelect_max_fd
  split <;> rfl

theorem close_socket_heap (env : Env) (sock : Int) (w : World) :
    (close_socket env sock w).2.heap = w.heap := by
  unfold close_socket
  split
  · rfl
  · simp only [reelect_max_fd_heap]

/-- On a live block `free_cli_cb` returns. -/
theorem free_cli_cb_some (cb : Nat) (w : World) (c : cli_cb_t) (h : w.heap cb = some c) :
    ∃ w', free_cli_cb cb w = some w' := by
  simp only [free_cli_cb, h]
  exact ⟨_, rfl⟩

/-- On a live block the close operation bound in `mthd.close` returns. -/
theorem call_close_some (E : ErrCodes) (env : Env) (f : close_fn) (cb : Nat) (w : World)
    (c : cli_cb_t) (h : w.heap cb = some c) :
    ∃ r w', call_close E env f cb w = some (r, w') := by
  cases f
  · simp only [call_close, tcp_close_socket, h]
    split
    · exact ⟨_, _, rfl⟩
    · have hh : (close_socket env c.cli_fd w).2.heap cb = some c := by
        rw [close_socket_heap]; exact h
      obtain ⟨w', hw'⟩ := free_cli_cb_some cb _ c hh
      simp only [hw']
      exact ⟨_, _, rfl⟩
  · simp only [call_close, ssl_close_socket, h]
    split
    · exact ⟨_, _, rfl⟩
    · split
      · exact ⟨_, _, rfl⟩
      · have hh : (close_socket env c.cli_fd
            { w with trace := w.trace ++ [Event.SSL_shutdown c.ssl] ++
              [Event.SSL_free c.ssl] }).2.heap cb = some c := by
          rw [close_socket_heap]; exact h
        obtain ⟨w', hw'⟩ := free_cli_cb_some cb _ c hh
        simp only [hw']
        exact ⟨_, _, rfl⟩

/-! ### Send -/

/-- The branches of the send operations on a live control block:
`tcp_send_wrapper` and `ssl_send_wrapper` return 0 and leave the state as it is
when `buf_out_ctr` is -1 (no write is attempted); when `buf_out_ctr` is not -1
and the transport writes exactly `buf_out_ctr` bytes they return 0 and set
`buf_out_ctr` to -1, the rest of the block unchanged; when the transport writes
any other count they call the close operation bound in the block, after which
`tcp_send_wrapper` returns `ERR_SEND`, and `ssl_send_wrapper` returns `ERR_SEND`
unless its `err_printf` reads `cb->buf_out_ctr` from the block the close
operation has freed. -/
theorem send_wrapper_branches (E : ErrCodes) (env : Env) (cb : Nat) (w : World)
    (c : cli_cb_t) (hcb : w.heap cb = some c) :
    (c.buf_out_ctr = -1 →
      tcp_send_wrapper E env cb w = some (0, w) ∧
      ssl_send_wrapper E env cb w = some (0, w)) ∧
    (c.buf_out_ctr ≠ -1 → env.sys_send c.cli_fd c.buf_out_ctr = c.buf_out_ctr →
      tcp_send_wrapper E env cb w =
        some (0, { w with
          trace := w.trace ++ [Event.sys_send c.cli_fd c.buf_out_ctr],
          heap := heap_set w.heap cb (some { c with buf_out_ctr := -1 }) })) ∧
    (c.buf_out_ctr ≠ -1 → env.SSL_write c.ssl c.buf_out_ctr = c.buf_out_ctr →
      ssl_send_wrapper E env cb w =
        some (0, { w with
          trace := w.trace ++ [Event.SSL_write c.ssl c.buf_out_ctr],
          heap := heap_set w.heap cb (some { c with buf_out_ctr := -1 }) })) ∧
    (c.buf_out_ctr ≠ -1 → env.sys_send c.cli_fd c.buf_out_ctr ≠ c.buf_out_ctr →
      ∀ f, c.mthd.close = some f →
        ∃ r w', call_close E env f cb
            { w with trace := w.trace ++ [Event.sys_send c.cli_fd c.buf_out_ctr] } =
              some (r, w') ∧
          tcp_send_wrapper E env cb w = some (E.ERR_SEND, w')) ∧
    (c.buf_out_ctr ≠ -1 → env.SSL_write c.ssl c.buf_out_ctr ≠ c.buf_out_ctr →
      ∀ f, c.mthd.close = some f →
        ∃ r w', call_close E env f cb
            { w with trace := w.trace ++ [Event.SSL_write c.ssl c.buf_out_ctr] } =
              some (r, w') ∧
          ssl_send_wrapper E env cb w =
            if print_reads_freed env.err_printf_args cb w' then none
            else some (E.ERR_SEND, w')) := by
  refine ⟨?_, ?_, ?_, ?_, ?_⟩
  · intro h
    constructor <;> simp [tcp_send_wrapper, ssl_send_wrapper, hcb, h]
  · intro h hs
    simp [tcp_send_wrapper, hcb, h, hs]
  · intro h hs
    simp [ssl_send_wrapper, hcb, h, hs]
  · intro h hs f hf
    obtain ⟨r, w', hcl⟩ := call_close_some E env f cb
      { w with trace := w.trace ++ [Event.sys_send c.cli_fd c.buf_out_ctr] } c hcb
    refine ⟨r, w', hcl, ?_⟩
    simp [tcp_send_wrapper, hcb, h, hs, hf, hcl]
  · intro h hs f hf
    obtain ⟨r, w', hcl⟩ := call_close_some E env f cb
      { w with trace := w.trace ++ [Event.SSL_write c.ssl c.buf_out_ctr] } c hcb
    refine ⟨r, w', hcl, ?_⟩
    simp [ssl_send_wrapper, hcb, h, hs, hf, hcl]

/-- A complete write of the two pending bytes resets `buf_out_ctr` to -1 and
returns 0. -/
theorem tcp_send_wrapper_exact_write :
    (World.single cli_cb_t.pending_out).heap 1 = some cli_cb_t.pending_out ∧
    tcp_send_wrapper ErrCodes.sample Env.quiet 1 (World.single cli_cb_t.pending_out) =
      some (0, { World.single cli_cb_t.pending_out with
        trace := (World.single cli_cb_t.pending_out).trace ++
          [Event.sys_send cli_cb_t.pending_out.cli_fd cli_cb_t.pending_out.buf_out_ctr],
        heap := heap_set (World.single cli_cb_t.pending_out).heap 1
          (some { cli_cb_t.pending_out with buf_out_ctr := -1 }) }) :=
  ⟨rfl, (send_wrapper_branches ErrCodes.sample Env.quiet 1 (World.single cli_cb_t.pending_out)
    cli_cb_t.pending_out rfl).2.1 (by decide) (by decide)⟩

/-- C4. Send contract, where the code departs from it: an encrypted accepted
control block (address 1, descriptor 3, session 50) has two bytes to send and
`SSL_write` writes one. The close operation bound in the block runs to its end
and frees the outbound buffer and the block; `ssl_send_wrapper` then passes
`cb->buf_out_ctr` to `err_printf`, a read of the freed block, before its
`return ERR_SEND`: the call has no defined result. With an `err_printf` that
does not evaluate its arguments the same call returns `ERR_SEND`, and so does
the plaintext `tcp_send_wrapper`, whose `err_printf` has no such argument. -/
theorem C4_ssl_send_reads_freed_cb :
    (ssl_close_socket ErrCodes.sample Env.short_write 1
        { World.single cli_cb_t.pending_out_ssl with
          trace := [Event.SSL_write (some 50) 2] }).map
      (fun r => (r.1, r.2.trace, (r.2.heap 1).isSome)) =
      some (0,
        [Event.SSL_write (some 50) 2, Event.SSL_shutdown (some 50),
          Event.SSL_free (some 50), Event.sys_close 3, Event.free_buf 100,
          Event.free_cb 1],
        false) ∧
    Env.short_write.err_printf_args = true ∧
    (ssl_send_wrapper ErrCodes.sample Env.short_write 1
        (World.single cli_cb_t.pending_out_ssl)).isSome = false ∧
    (ssl_send_wrapper ErrCodes.sample Env.short_write_silent 1
        (World.single cli_cb_t.pending_out_ssl)).map
      (fun r => (r.1, r.2.trace, (r.2.heap 1).isSome)) =
      some (ErrCodes.sample.ERR_SEND,
        [Event.SSL_write (some 50) 2, Event.SSL_shutdown (some 50),
          Event.SSL_free (some 50), Event.sys_close 3, Event.free_buf 100,
          Event.free_cb 1],
        false) ∧
    (tcp_send_wrapper ErrCodes.sample Env.short_write 1
        (World.single cli_cb_t.pending_out)).map
      (fun r => (r.1, r.2.trace, (r.2.heap 1).isSome)) =
      some (ErrCodes.sample.ERR_SEND,
        [Event.sys_send 3 2, Event.sys_close 3, Event.free_buf 100, Event.free_cb 1],
        false) := by
  refine ⟨rfl, rfl, rfl, rfl, rfl⟩

/-- A short write of the two pending bytes: the descriptor is closed, the
outbound buffer and the block are freed once each, the block leaves the
registry and the interest sets, and `ERR_SEND` is returned. -/
theorem tcp_send_wrapper_short_write :
    (tcp_send_wrapper ErrCodes.sample Env.short_write 1
        (World.single cli_cb_t.pending_out)).map
      (fun r => (r.1, r.2.trace, r.2.cli_list 3, (r.2.heap 1).isSome, r.2.max_fd,
        r.2.read_fds 3, r.2.write_fds 3)) =
      some (ErrCodes.sample.ERR_SEND,
        [Event.sys_send 3 2, Event.sys_close 3, Event.free_buf 100, Event.free_cb 1],
        [], false, 1, false, false) := by
  rfl

/-! ### Receive -/

theorem heap_set_self (h : Nat → Option cli_cb_t) (p : Nat) (c : cli_cb_t)
    (hp : h p = some c) : heap_set h p (some c) = h := by
  funext q
  by_cases hq : q = p
  · simp [heap_set, hq, hp]
  · simp [heap_set, hq]

theorem heap_set_same (h : Nat → Option cli_cb_t) (p : Nat) (x : Option cli_cb_t) :
    heap_set h p x p = x := by
  simp [heap_set]

theorem heap_set_twice (h : Nat → Option cli_cb_t) (p : Nat) (x y : Option cli_cb_t) :
    heap_set (heap_set h p x) p y = heap_set h p y := by
  funext q
  by_cases hq : q = p <;> simp [heap_set, hq]

theorem read_count_le (pending : Option (List Nat)) (len : Nat) :
    read_count pending len ≤ len := by
  cases pending with
  | none => simp only [read_count]; omega
  | some bytes =>
    simp only [read_count, List.length_take]
    omega

/-- A read that returns no byte leaves the buffer as it is. -/
theorem read_into_of_nonpos (buf : Nat → Nat) (pending : Option (List Nat)) (len : Nat)
    (h : read_count pending len ≤ 0) : read_into buf pending len = buf := by
  cases pending with
  | none => rfl
  | some bytes =>
    simp only [read_count] at h
    have h0 : (bytes.take len).length = 0 := by omega
    funext i
    simp only [read_into, h0, Nat.not_lt_zero, dite_false]

/-- Receive on an empty inbound buffer: for a live control block whose inbound
buffer is empty, if the transport read returns `n > 0` then `n <= BUF_IN_SIZE`,
index `n` lies inside `buf_in` (capacity `BUF_IN_SIZE + 1`), the received bytes
are stored, the terminator 0 is written at index `n`, `buf_in_ctr` becomes `n`
and the receive returns 0; if the read returns zero or a negative value, the
close operation bound in the block is called, after which the receive returns
0 unless its `dbg_printf` reads `cb->cli_fd` from the block the close operation
has freed. Plaintext and encrypted receive alike. -/
theorem recv_wrapper_outcome (E : ErrCodes) (env : Env) (cb : Nat) (w : World) (c : cli_cb_t)
    (hcb : w.heap cb = some c) (hempty : c.buf_in 0 = 0) :
    (∀ n, read_count (env.sys_recv c.cli_fd) BUF_IN_SIZE = n →
      (0 < n →
        n ≤ BUF_IN_SIZE ∧ n.toNat < BUF_IN_SIZE + 1 ∧
        ∃ w' c', tcp_recv_wrapper E env cb w = some (0, w') ∧
          w' = { w with
            trace := w.trace ++ [Event.sys_recv c.cli_fd],
            heap := heap_set w.heap cb (some c') } ∧
          c' = { c with
            buf_in := fun i => if i = n.toNat then 0
              else read_into c.buf_in (env.sys_recv c.cli_fd) BUF_IN_SIZE i,
            buf_in_ctr := n } ∧
          c'.buf_in n.toNat = 0 ∧ c'.buf_in_ctr = n) ∧
      (n ≤ 0 → ∀ f, c.mthd.close = some f →
        ∃ r w', call_close E env f cb
            { w with trace := w.trace ++ [Event.sys_recv c.cli_fd] } = some (r, w') ∧
          tcp_recv_wrapper E env cb w =
            if print_reads_freed env.dbg_printf_args cb w' then none else some (0, w'))) ∧
    (∀ n, read_count (env.SSL_read c.ssl) BUF_IN_SIZE = n →
      (0 < n →
        n ≤ BUF_IN_SIZE ∧ n.toNat < BUF_IN_SIZE + 1 ∧
        ∃ w' c', ssl_recv_wrapper E env cb w = some (0, w') ∧
          w' = { w with
            trace := w.trace ++ [Event.SSL_read c.ssl],
            heap := heap_set w.heap cb (some c') } ∧
          c' = { c with
            buf_in := fun i => if i = n.toNat then 0
              else read_into c.buf_in (env.SSL_read c.ssl) BUF_IN_SIZE i,
            buf_in_ctr := n } ∧
          c'.buf_in n.toNat = 0 ∧ c'.buf_in_ctr = n) ∧
      (n ≤ 0 → ∀ f, c.mthd.close = some f →
        ∃ r w', call_close E env f cb
            { w with trace := w.trace ++ [Event.SSL_read c.ssl] } = some (r, w') ∧
          ssl_recv_wrapper E env cb w =
            if print_reads_freed env.dbg_printf_args cb w' then none else some (0, w'))) := by
  constructor
  · intro n hn
    have hle := read_count_le (env.sys_recv c.cli_fd) BUF_IN_SIZE
    rw [hn] at hle
    constructor
    · intro hpos
      refine ⟨hle, by omega, _, _, ?_, rfl, rfl, by simp, rfl⟩
      simp [tcp_recv_wrapper, hcb, is_buf_in_empty, hempty, hn, hpos, set_buf_ctr,
        heap_set_twice]
    · intro hnp f hf
      obtain ⟨r, w', hcl⟩ := call_close_some E env f cb
        { w with trace := w.trace ++ [Event.sys_recv c.cli_fd] } c hcb
      refine ⟨r, w', hcl, ?_⟩
      have hbuf := read_into_of_nonpos c.buf_in (env.sys_recv c.cli_fd) BUF_IN_SIZE
        (by rw [hn]; exact hnp)
      have hnot : ¬ (0 < n) := by omega
      simp [tcp_recv_wrapper, hcb, is_buf_in_empty, hempty, hn, hnot, hbuf, hf,
        heap_set_self _ _ _ hcb, hcl]
  · intro n hn
    have hle := read_count_le (env.SSL_read c.ssl) BUF_IN_SIZE
    rw [hn] at hle
    constructor
    · intro hpos
      refine ⟨hle, by omega, _, _, ?_, rfl, rfl, by simp, rfl⟩
      simp [ssl_recv_wrapper, hcb, is_buf_in_empty, hempty, hn, hpos, set_buf_ctr,
        heap_set_twice]
    · intro hnp f hf
      obtain ⟨r, w', hcl⟩ := call_close_some E env f cb
        { w with trace := w.trace ++ [Event.SSL_read c.ssl] } c hcb
      refine ⟨r, w', hcl, ?_⟩
      have hbuf := read_into_of_nonpos c.buf_in (env.SSL_read c.ssl) BUF_IN_SIZE
        (by rw [hn]; exact hnp)
      have hnot : ¬ (0 < n) := by omega
      simp [ssl_recv_wrapper, hcb, is_buf_in_empty, hempty, hn, hnot, hbuf, hf,
        heap_set_self _ _ _ hcb, hcl]

/-- Three bytes are pending on descriptor 3, whose control block has an empty
inbound buffer: they are stored with the terminator and the count. -/
theorem tcp_recv_wrapper_three_bytes :
    (World.single cli_cb_t.accepted_plain).heap 1 = some cli_cb_t.accepted_plain ∧
    cli_cb_t.accepted_plain.buf_in 0 = 0 ∧
    ((3 : Int) ≤ BUF_IN_SIZE ∧ (3 : Int).toNat < BUF_IN_SIZE + 1 ∧
      ∃ w' c', tcp_recv_wrapper ErrCodes.sample Env.pending_get 1
            (World.single cli_cb_t.accepted_plain) = some (0, w') ∧
        w' = { World.single cli_cb_t.accepted_plain with
          trace := (World.single cli_cb_t.accepted_plain).trace ++
            [Event.sys_recv cli_cb_t.accepted_plain.cli_fd],
          heap := heap_set (World.single cli_cb_t.accepted_plain).heap 1 (some c') } ∧
        c' = { cli_cb_t.accepted_plain with
          buf_in := fun i => if i = (3 : Int).toNat then 0
            else read_into cli_cb_t.accepted_plain.buf_in
              (Env.pending_get.sys_recv cli_cb_t.accepted_plain.cli_fd) BUF_IN_SIZE i,
          buf_in_ctr := 3 } ∧
        c'.buf_in (3 : Int).toNat = 0 ∧ c'.buf_in_ctr = 3) :=
  ⟨rfl, rfl,
    ((recv_wrapper_outcome ErrCodes.sample Env.pending_get 1
      (World.single cli_cb_t.accepted_plain) cli_cb_t.accepted_plain rfl rfl).1 3
        (by decide)).1 (by decide)⟩

/-- C6. Receive outcome on an empty inbound buffer, where the code departs from
it: in a build whose `dbg_printf` prints, the peer of an accepted control block
(address 1, descriptor 3, empty inbound buffer) has closed, so the read returns
0. The close operation bound in the block runs to its end and frees the block;
the receive then passes `cb->cli_fd` to `dbg_printf`, a read of the freed
block, before its `return 0`: the call has no defined result, in
`tcp_recv_wrapper` and in `ssl_recv_wrapper` alike. The same holds for a failed
read (-1). With `dbg_printf` compiled out the same calls return 0, and a
positive read returns 0 in either build. -/
theorem C6_recv_reads_freed_cb :
    read_count (Env.debug_build.sys_recv 3) BUF_IN_SIZE = 0 ∧
    (tcp_close_socket ErrCodes.sample Env.debug_build 1
        { World.single cli_cb_t.accepted_plain with trace := [Event.sys_recv 3] }).map
      (fun r => (r.1, r.2.trace, (r.2.heap 1).isSome)) =
      some (0, [Event.sys_recv 3, Event.sys_close 3, Event.free_cb 1], false) ∧
    (tcp_recv_wrapper ErrCodes.sample Env.debug_build 1
        (World.single cli_cb_t.accepted_plain)).isSome = false ∧
    (ssl_recv_wrapper ErrCodes.sample Env.debug_build 1
        (World.single cli_cb_t.accepted_ssl)).isSome = false ∧
    (tcp_recv_wrapper ErrCodes.sample { Env.debug_build with sys_recv := fun _ => none } 1
        (World.single cli_cb_t.accepted_plain)).isSome = false ∧
    (tcp_recv_wrapper ErrCodes.sample Env.quiet 1
        (World.single cli_cb_t.accepted_plain)).map
      (fun r => (r.1, r.2.trace, (r.2.heap 1).isSome)) =
      some (0, [Event.sys_recv 3, Event.sys_close 3, Event.free_cb 1], false) ∧
    (ssl_recv_wrapper ErrCodes.sample Env.quiet 1
        (World.single cli_cb_t.accepted_ssl)).map
      (fun r => (r.1, r.2.trace, (r.2.heap 1).isSome)) =
      some (0,
        [Event.SSL_read (some 50), Event.SSL_shutdown (some 50), Event.SSL_free (some 50),
          Event.sys_close 3, Event.free_cb 1],
        false) ∧
    (tcp_recv_wrapper ErrCodes.sample Env.debug_build_pending 1
        (World.single cli_cb_t.accepted_plain)).map
      (fun r => (r.1, r.2.trace, (r.2.heap 1).map (fun c => (c.buf_in 3, c.buf_in_ctr)))) =
      some (0, [Event.sys_recv 3], some (0, 3)) := by
  refine ⟨rfl, rfl, rfl, rfl, rfl, rfl, rfl, rfl⟩

/-- Receive on descriptor 3 when three bytes are pending, and when the peer has
closed: in the first case the bytes, the terminator and the count are stored;
in the second the connection is closed and freed; both return 0. -/
theorem tcp_recv_wrapper_examples :
    (tcp_recv_wrapper ErrCodes.sample Env.pending_get 1
        (World.single cli_cb_t.accepted_plain)).map
      (fun r => (r.1, r.2.trace, (r.2.heap 1).map
        (fun c => ([c.buf_in 0, c.buf_in 1, c.buf_in 2, c.buf_in 3], c.buf_in_ctr)))) =
      some (0, [Event.sys_recv 3], some ([71, 69, 84, 0], 3)) ∧
    (tcp_recv_wrapper ErrCodes.sample Env.quiet 1
        (World.single cli_cb_t.accepted_plain)).map
      (fun r => (r.1, r.2.trace, (r.2.heap 1).isSome, r.2.cli_list 3)) =
      some (0, [Event.sys_recv 3, Event.sys_close 3, Event.free_cb 1], false, []) := by
  constructor <;> rfl

/-! ### Message handling -/

theorem dispatched_append (a b : List Event) :
    dispatched (a ++ b) = dispatched a ++ dispatched b := by
  simp [dispatched, List.filterMap_append]

theorem forget_sent_buf_req_msg_list (c : cli_cb_t) :
    (forget_sent_buf c).req_msg_list = c.req_msg_list := by
  unfold forget_sent_buf
  split <;> rfl

theorem handle_get_out2_spec (ret fd : Int) (w : World) (cb : Nat) (c : cli_cb_t)
    (q : List req_msg_t) (tr : List req_msg_t) (hheap : w.heap cb = some c)
    (hq : c.req_msg_list = q) (htr : dispatched w.trace = tr) :
    ∃ r w' c', handle_get_out2 ret fd w = some (r, w') ∧ w'.heap cb = some c' ∧
      c'.req_msg_list = q ∧ dispatched w'.trace = tr := by
  unfold handle_get_out2
  split
  · refine ⟨_, _, c, rfl, hheap, hq, ?_⟩
    simp only [dispatched_append, htr]
    simp [dispatched]
  · exact ⟨_, _, c, rfl, hheap, hq, htr⟩

/-- The GET handler, when it stays inside its local arrays and inside the
outbound buffer, returns; it records its message as dispatched and leaves the
message queue of the block as it is. -/
theorem handle_get_mthd_spec (E : ErrCodes) (env : Env) (m : req_msg_t) (cb : Nat)
    (w : World) (c : cli_cb_t) (hcb : w.heap cb = some c)
    (hdef : get_mthd_defined env m = true) :
    ∃ r w' c', handle_get_mthd E env m cb w = some (r, w') ∧ w'.heap cb = some c' ∧
      c'.req_msg_list = c.req_msg_list ∧
      dispatched w'.trace = dispatched w.trace ++ [m] := by
  unfold get_mthd_defined at hdef
  unfold handle_get_mthd
  simp only [hcb]
  cases hfn : get_filename m.req_line.url with
  | none => simp [hfn] at hdef
  | some filename =>
    simp only [hfn] at hdef ⊢
    by_cases hfd : env.sys_open filename < 0
    · simp only [hfd, if_true]
      cases hmal : env.malloc_buf
          (((m.req_line.ver ++ " 404 Not Found\r\n\r\n".toList).take
            (BUF_HDR_SIZE - 1)).length + 1) with
      | none =>
        exact ⟨_, _, _, rfl, heap_set_same _ _ _, forget_sent_buf_req_msg_list c,
          by simp [dispatched_append, dispatched]⟩
      | some a =>
        exact ⟨_, _, _, rfl, heap_set_same _ _ _, forget_sent_buf_req_msg_list c,
          by simp [dispatched_append, dispatched]⟩
    · simp only [hfd, if_false] at hdef ⊢
      cases hst : env.sys_fstat (env.sys_open filename) with
      | none =>
        exact handle_get_out2_spec _ _ _ cb c _ _ hcb rfl
          (by simp [dispatched_append, dispatched])
      | some st_size =>
        simp only [hst] at hdef ⊢
        cases hmm : env.sys_mmap (env.sys_open filename) with
        | none =>
          exact handle_get_out2_spec _ _ _ cb c _ _ hcb rfl
            (by simp [dispatched_append, dispatched])
        | some faddr =>
          simp only [hmm] at hdef ⊢
          cases hok : ok_header m.req_line.ver m.req_line.url st_size with
          | none => simp [hok] at hdef
          | some buf_hdr =>
            simp only []
            cases hmal : env.malloc_buf (buf_hdr.length + 1 + st_size) with
            | none =>
              simp only [hok, hmal, Bool.not_eq_true'] at hdef
              simp only [hdef, Bool.false_eq_true, if_false]
              exact handle_get_out2_spec _ _ _ cb _ _ _ (heap_set_same _ _ _)
                (forget_sent_buf_req_msg_list c) (by simp [dispatched_append, dispatched])
            | some a =>
              simp only [hok, hmal, Bool.and_eq_true, Bool.not_eq_true',
                decide_eq_true_eq] at hdef
              have hnn : ¬ to_int (buf_hdr.length + st_size) < 0 := by omega
              simp only [hdef.1, Bool.false_eq_true, hnn, if_false]
              by_cases hmu : env.sys_munmap < 0
              · simp only [hmu, if_true]
                exact handle_get_out2_spec _ _ _ cb _ _ _ (heap_set_same _ _ _)
                  (forget_sent_buf_req_msg_list c) (by simp [dispatched_append, dispatched])
              · simp only [hmu, if_false]
                exact ⟨_, _, _, rfl, heap_set_same _ _ _, forget_sent_buf_req_msg_list c,
                  by simp [dispatched_append, dispatched]⟩

/-- The condition `get_mthd_defined` is necessary: whenever the GET handler
returns, it holds. -/
theorem get_mthd_defined_of_some (E : ErrCodes) (env : Env) (m : req_msg_t) (cb : Nat)
    (w : World) (r : Int) (w' : World)
    (h : handle_get_mthd E env m cb w = some (r, w')) :
    get_mthd_defined env m = true := by
  unfold handle_get_mthd at h
  unfold get_mthd_defined
  cases hcb : w.heap cb with
  | none => simp [hcb] at h
  | some c =>
    simp only [hcb] at h
    cases hfn : get_filename m.req_line.url with
    | none => simp [hfn] at h
    | some filename =>
      simp only [hfn] at h ⊢
      by_cases hfd : env.sys_open filename < 0
      · simp [hfd]
      · simp only [hfd, if_false] at h ⊢
        cases hst : env.sys_fstat (env.sys_open filename) with
        | none => rfl
        | some st_size =>
          simp only [hst] at h ⊢
          cases hmm : env.sys_mmap (env.sys_open filename) with
          | none => rfl
          | some faddr =>
            simp only [hmm] at h ⊢
            cases hok : ok_header m.req_line.ver m.req_line.url st_size with
            | none => simp [hok] at h
            | some buf_hdr =>
              simp only [hok] at h ⊢
              cases hmal : env.malloc_buf (buf_hdr.length + 1 + st_size) with
              | none =>
                simp only [hmal] at h ⊢
                by_cases hov : alloc_size_print_overflows env buf_hdr.length st_size = true
                · simp [hov] at h
                · simpa using hov
              | some a =>
                simp only [hmal] at h ⊢
                by_cases hd : env.dbg_printf_args = true
                · simp [hd] at h
                by_cases hnn : to_int (buf_hdr.length + st_size) < 0
                · simp [hd, hnn] at h
                · simp only [Bool.and_eq_true, Bool.not_eq_true', decide_eq_true_eq]
                  exact ⟨by simpa using hd, by omega⟩

/-- One call of `handle_req_msg` on a non-empty queue: it returns, the head of
the queue is removed and is the one message dispatched, the rest of the queue
keeps its order, and the value returned is 0 unless it is negative. -/
theorem handle_req_msg_step (E : ErrCodes) (env : Env) (cb : Nat) (w : World)
    (c : cli_cb_t) (m : req_msg_t) (rest : List req_msg_t) (hcb : w.heap cb = some c)
    (hq : c.req_msg_list = m :: rest)
    (hdef : m.req_line.req = .GET → get_mthd_defined env m = true) :
    ∃ r w' c', handle_req_msg E env cb w = some (r, w') ∧ w'.heap cb = some c' ∧
      c'.req_msg_list = rest ∧ dispatched w'.trace = dispatched w.trace ++ [m] ∧
      (0 ≤ r → r = 0) := by
  unfold handle_req_msg
  simp only [hcb, hq]
  cases hk : m.req_line.req with
  | HEAD =>
    refine ⟨0, _, _, by simp [handle_head_mthd]; rfl, heap_set_same _ _ _, rfl, ?_,
      fun _ => rfl⟩
    simp [dispatched_append, dispatched]
  | POST =>
    refine ⟨0, _, _, by simp [handle_post_mthd]; rfl, heap_set_same _ _ _, rfl, ?_,
      fun _ => rfl⟩
    simp [dispatched_append, dispatched]
  | OTHER v =>
    refine ⟨0, _, _, by simp [handle_unknown_mthd]; rfl, heap_set_same _ _ _, rfl, ?_,
      fun _ => rfl⟩
    simp [dispatched_append, dispatched]
  | GET =>
    obtain ⟨r, w1, c1, h1, h2, h3, h4⟩ := handle_get_mthd_spec E env m cb
      { w with heap := heap_set w.heap cb (some { c with req_msg_list := rest }) }
      { c with req_msg_list := rest } (heap_set_same _ _ _) (hdef hk)
    simp only [h1]
    by_cases hr : r < 0
    · simp only [hr, if_true]
      exact ⟨r, w1, c1, rfl, h2, h3, h4, fun h => absurd hr (by omega)⟩
    · simp only [hr, if_false]
      refine ⟨0, _, c1, rfl, h2, h3, ?_, fun _ => rfl⟩
      simp only [dispatched_append, h4]
      simp [dispatched]

/-- C5. Pipelining FIFO: for a live control block whose message queue holds
m1..mN in insertion order, k <= N successive calls of `handle_req_msg` (each GET
handler staying inside its local arrays and inside the outbound buffer, as
`get_mthd_defined` says: the file name and the header fit, and the length of a
served file does not overflow the `int` field `buf_out_ctr`) return, dispatch
exactly m1..mk in that order, each once, and leave the queue m(k+1)..mN in
order; every call whose handler does not fail returns 0; and a call on an
empty queue returns 0 and leaves the state as it is. -/
theorem C5_pipelining_fifo (E : ErrCodes) (cb : Nat) (w : World) (c : cli_cb_t)
    (hcb : w.heap cb = some c) :
    (c.req_msg_list = [] → ∀ env, handle_req_msg E env cb w = some (0, w)) ∧
    (∀ envs : List Env, envs.length ≤ c.req_msg_list.length →
      (∀ p ∈ envs.zip c.req_msg_list,
        p.2.req_line.req = .GET → get_mthd_defined p.1 p.2 = true) →
      ∃ rets w', handle_req_msg_calls E cb envs w = some (rets, w') ∧
        rets.length = envs.length ∧
        dispatched w'.trace = dispatched w.trace ++ c.req_msg_list.take envs.length ∧
        req_msg_queue w' cb = c.req_msg_list.drop envs.length ∧
        (∀ r ∈ rets, 0 ≤ r → r = 0)) := by
  constructor
  · intro hq env
    simp [handle_req_msg, hcb, hq]
  · intro envs
    induction envs generalizing w c with
    | nil =>
      intro _ _
      exact ⟨[], w, rfl, rfl, by simp, by simp [req_msg_queue, hcb], by simp⟩
    | cons env envs ih =>
      intro hlen hdef
      cases hq : c.req_msg_list with
      | nil => simp [hq] at hlen
      | cons m rest =>
        obtain ⟨r, w1, c1, h1, h2, h3, h4, h5⟩ := handle_req_msg_step E env cb w c m rest hcb hq
          (hdef (env, m) (by simp [hq]))
        have hlen1 : envs.length ≤ c1.req_msg_list.length := by
          rw [h3]; simp [hq] at hlen; omega
        have hdef1 : ∀ p ∈ envs.zip c1.req_msg_list,
            p.2.req_line.req = .GET → get_mthd_defined p.1 p.2 = true := by
          intro p hp
          apply hdef p
          rw [hq, List.zip_cons_cons]
          rw [h3] at hp
          exact List.mem_cons_of_mem _ hp
        obtain ⟨rets, w2, k1, k2, k3, k4, k5⟩ := ih w1 c1 h2 hlen1 hdef1
        refine ⟨r :: rets, w2, ?_, by simp [k2], ?_, ?_, ?_⟩
        · simp [handle_req_msg_calls, h1, k1]
        · rw [k3, h4, h3]; simp
        · rw [k4, h3]; simp
        · intro x hx
          rcases List.mem_cons.1 hx with hx | hx
          · rw [hx]; exact h5
          · exact k5 x hx

/-- Witness of C5: two calls on a queue of two messages. -/
theorem C5_pipelining_fifo_witness :
    (World.single cli_cb_t.two_queued).heap 1 = some cli_cb_t.two_queued ∧
    ∃ rets w', handle_req_msg_calls ErrCodes.sample 1 [Env.not_found, Env.not_found]
          (World.single cli_cb_t.two_queued) = some (rets, w') ∧
      rets.length = [Env.not_found, Env.not_found].length ∧
      dispatched w'.trace = dispatched (World.single cli_cb_t.two_queued).trace ++
        cli_cb_t.two_queued.req_msg_list.take [Env.not_found, Env.not_found].length ∧
      req_msg_queue w' 1 =
        cli_cb_t.two_queued.req_msg_list.drop [Env.not_found, Env.not_found].length ∧
      (∀ r ∈ rets, 0 ≤ r → r = 0) :=
  ⟨rfl, (C5_pipelining_fifo ErrCodes.sample 1 (World.single cli_cb_t.two_queued)
    cli_cb_t.two_queued rfl).2 [Env.not_found, Env.not_found] (by decide) (by
      intro p hp
      simp only [List.zip_cons_cons, List.zip_nil_right, cli_cb_t.two_queued,
        List.mem_cons, List.mem_singleton, List.not_mem_nil, or_false] at hp
      rcases hp with hp | hp <;> subst hp <;> decide)⟩

/-- Two calls on the queue `GET /a`, `HEAD /`, then a third call on the queue
they have emptied: the messages are dispatched in order, every call returns
0. -/
theorem handle_req_msg_calls_example :
    (handle_req_msg_calls ErrCodes.sample 1 [Env.not_found, Env.not_found, Env.not_found]
        (World.single cli_cb_t.two_queued)).map
      (fun r => (r.1, dispatched r.2.trace, req_msg_queue r.2 1)) =
      some ([0, 0, 0], [req_msg_t.get_a, req_msg_t.head_root], []) := by
  rfl

/-- The GET handler on files of 2 bytes, of 2^31 - 1 bytes and of 2^32 + 2 bytes:
for the first the header and the two bytes are stored and `buf_out_ctr` is their
length; for the second the length stored in the `int` field `buf_out_ctr` is
negative and the terminator is written outside the buffer; for the third the
stored length has wrapped to that of the header plus 2. In a build whose
`dbg_printf` prints, the file of 2 bytes meets the print of the unterminated
buffer. -/
theorem handle_get_mthd_file_sizes :
    (handle_get_mthd ErrCodes.sample (Env.file_of_size 2) req_msg_t.get_a 1
        (World.single cli_cb_t.accepted_plain)).map
      (fun r => (r.1, (r.2.heap 1).map (fun c => (c.buf_out.map (fun b => b.data),
        c.buf_out_ctr)))) =
      some (0, some (some ("HTTP/1.1 200 OK\r\nContent-Type: text/html\r\n".toList ++
        "Content-Length: 2\r\n\r\nab".toList ++ [Char.ofNat 0]), 65)) ∧
    get_mthd_defined (Env.file_of_size 2) req_msg_t.get_a = true ∧
    (handle_get_mthd ErrCodes.sample (Env.file_of_size (2 ^ 31 - 1)) req_msg_t.get_a 1
        (World.single cli_cb_t.accepted_plain)).isSome = false ∧
    get_mthd_defined (Env.file_of_size (2 ^ 31 - 1)) req_msg_t.get_a = false ∧
    (handle_get_mthd ErrCodes.sample (Env.file_of_size (2 ^ 32 + 2)) req_msg_t.get_a 1
        (World.single cli_cb_t.accepted_plain)).map
      (fun r => (r.1, (r.2.heap 1).map (fun c => c.buf_out_ctr))) =
      some (0, some 65) ∧
    (handle_get_mthd ErrCodes.sample { Env.file_of_size 2 with dbg_printf_args := true }
        req_msg_t.get_a 1 (World.single cli_cb_t.accepted_plain)).isSome = false := by
  refine ⟨by rfl, by rfl, by rfl, by rfl, by rfl, by rfl⟩

/-! ### Close, accept and the release of storage -/

/-- A failed `accept` on a listening control block. On the encrypted one, whose
`ssl` was never assigned, `ssl_new_connection` calls the close operation and
then `free(cb)`: when `SSL_shutdown` rejects the handle, the close operation
returns before it frees anything and the block is freed once, by that
`free(cb)`, and stays linked in `cli_list`; a second `free` of the block is
reached only if `SSL_shutdown` accepts the handle. On the plaintext one,
`tcp_new_connection` has no `free` of its own and the close operation frees the
block once. -/
theorem accept_failure_examples :
    (ssl_new_connection ErrCodes.sample Env.ssl_shutdown_fails 1 World.listening_ssl).map
      (fun r => (r.1, r.2.trace, r.2.trace.count (Event.free_cb 1), (r.2.heap 1).isSome,
        r.2.cli_list 4)) =
      some (ErrCodes.sample.ERR_ACCEPT_FAILURE,
        [Event.sys_accept 4, Event.SSL_shutdown none, Event.free_cb 1], 1, false, [1]) ∧
    (ssl_new_connection ErrCodes.sample Env.quiet 1 World.listening_ssl).map
      (fun r => (r.1, r.2.trace, r.2.trace.count (Event.free_cb 1))) =
      some (ErrCodes.sample.ERR_ACCEPT_FAILURE,
        [Event.sys_accept 4, Event.SSL_shutdown none, Event.SSL_free none,
         Event.sys_close 4, Event.free_cb 1, Event.free_cb 1], 2) ∧
    (tcp_new_connection ErrCodes.sample Env.quiet 1 World.listening_tcp).map
      (fun r => (r.1, r.2.trace, r.2.trace.count (Event.free_cb 1))) =
      some (ErrCodes.sample.ERR_ACCEPT_FAILURE,
        [Event.sys_accept 4, Event.sys_close 4, Event.free_cb 1], 1) := by
  refine ⟨by rfl, by rfl, by rfl⟩

theorem close_socket_trace (env : Env) (sock : Int) (w : World) :
    (close_socket env sock w).2.trace = w.trace ++ [Event.sys_close sock] := by
  unfold close_socket
  split
  · rfl
  · simp only [reelect_max_fd]
    split <;> rfl

/-- The function `close_socket` returns 1 or 0, never a negative value. -/
theorem close_socket_ret (env : Env) (sock : Int) (w : World) :
    ¬ (close_socket env sock w).1 < 0 := by
  unfold close_socket
  split <;> simp

/-- When `close` fails, `close_socket` changes nothing but the trace. -/
theorem close_socket_of_fail (env : Env) (sock : Int) (w : World)
    (h : env.sys_close sock ≠ 0) :
    close_socket env sock w = (1, { w with trace := w.trace ++ [Event.sys_close sock] }) := by
  simp [close_socket, h]

/-- The effect of `free_cli_cb` on a live block: descriptor sets and ceiling
are untouched, the block is unlinked from every bucket and no longer live. -/
theorem free_cli_cb_spec (cb : Nat) (w : World) (c : cli_cb_t) (h : w.heap cb = some c) :
    ∃ w', free_cli_cb cb w = some w' ∧
      w'.read_fds = w.read_fds ∧ w'.write_fds = w.write_fds ∧
      w'.read_wait_fds = w.read_wait_fds ∧ w'.write_wait_fds = w.write_wait_fds ∧
      w'.max_fd = w.max_fd ∧ w'.heap cb = none ∧ (∀ i, cb ∉ w'.cli_list i) ∧
      w'.trace = w.trace ++ free_cli_cb_trace cb c := by
  simp only [free_cli_cb, h]
  cases hb : c.buf_out with
  | none =>
    refine ⟨_, rfl, rfl, rfl, rfl, rfl, rfl, by simp [free, heap_set], ?_, ?_⟩
    · intro i; simp [free, list_del]
    · simp [free, free_cli_cb_trace, hb]
  | some b =>
    refine ⟨_, rfl, rfl, rfl, rfl, rfl, rfl, by simp [free, heap_set], ?_, ?_⟩
    · intro i; simp [free, list_del]
    · simp [free, free_cli_cb_trace, hb]

/-- Counterexample to C8 as stated: `SSL_shutdown` reports failure on the
encrypted control block with session 50; `ssl_close_socket` returns
`ERR_CLOSE_SSL_SOCKET` and the session handle is not released (`SSL_free` is
not called, the block stays live and registered). -/
theorem C8_security_mode_isolation_counterexample :
    (World.single cli_cb_t.accepted_ssl).heap 1 = some cli_cb_t.accepted_ssl ∧
    cli_cb_t.accepted_ssl.is_ssl = 1 ∧
    Env.ssl_shutdown_fails.SSL_shutdown cli_cb_t.accepted_ssl.ssl < 0 ∧
    (ssl_close_socket ErrCodes.sample Env.ssl_shutdown_fails 1
        (World.single cli_cb_t.accepted_ssl)).map
      (fun r => (r.1, r.2.trace, decide (Event.SSL_free (some 50) ∈ r.2.trace),
        (r.2.heap 1).isSome, r.2.cli_list 3)) =
      some (ErrCodes.sample.ERR_CLOSE_SSL_SOCKET, [Event.SSL_shutdown (some 50)], false,
        true, [1]) := by
  refine ⟨rfl, rfl, by decide, by rfl⟩

/-- C8, amended. Security-mode isolation: for every live control block, when
`SSL_shutdown` does not report failure, `ssl_close_socket` releases the session
handle (`SSL_free`) before it closes the descriptor, frees the block and
returns 0; when `SSL_shutdown` reports failure (a negative result) it returns
`ERR_CLOSE_SSL_SOCKET` at once, with the handle not released, the descriptor not
closed and the block kept. -/
theorem C8_security_mode_isolation (E : ErrCodes) (env : Env) (cb : Nat) (w : World)
    (c : cli_cb_t) (hcb : w.heap cb = some c) :
    (¬ env.SSL_shutdown c.ssl < 0 →
      ∃ w', ssl_close_socket E env cb w = some (0, w') ∧
        w'.trace = w.trace ++
          [Event.SSL_shutdown c.ssl, Event.SSL_free c.ssl, Event.sys_close c.cli_fd] ++
          free_cli_cb_trace cb c) ∧
    (env.SSL_shutdown c.ssl < 0 →
      ssl_close_socket E env cb w =
        some (E.ERR_CLOSE_SSL_SOCKET,
          { w with trace := w.trace ++ [Event.SSL_shutdown c.ssl] })) := by
  constructor
  · intro hs
    have hret := close_socket_ret env c.cli_fd
      { w with trace := w.trace ++ [Event.SSL_shutdown c.ssl] ++ [Event.SSL_free c.ssl] }
    have hheap : (close_socket env c.cli_fd
        { w with trace := w.trace ++ [Event.SSL_shutdown c.ssl] ++
          [Event.SSL_free c.ssl] }).2.heap cb = some c := by
      rw [close_socket_heap]; exact hcb
    obtain ⟨w', h1, -, -, -, -, -, -, -, h9⟩ := free_cli_cb_spec cb _ c hheap
    refine ⟨w', ?_, ?_⟩
    · simp only [ssl_close_socket, hcb, hs, if_false, hret, h1]
    · rw [h9, close_socket_trace]
      simp
  · intro hs
    simp only [ssl_close_socket, hcb, hs, if_true]

/-- Witness of C8 (amended): the encrypted control block with session 50 is
closed; the session is released before the descriptor is closed. -/
theorem C8_security_mode_isolation_witness :
    (World.single cli_cb_t.accepted_ssl).heap 1 = some cli_cb_t.accepted_ssl ∧
    ∃ w', ssl_close_socket ErrCodes.sample Env.quiet 1 (World.single cli_cb_t.accepted_ssl) =
        some (0, w') ∧
      w'.trace = (World.single cli_cb_t.accepted_ssl).trace ++
        [Event.SSL_shutdown cli_cb_t.accepted_ssl.ssl, Event.SSL_free cli_cb_t.accepted_ssl.ssl,
         Event.sys_close cli_cb_t.accepted_ssl.cli_fd] ++
        free_cli_cb_trace 1 cli_cb_t.accepted_ssl :=
  ⟨rfl, (C8_security_mode_isolation ErrCodes.sample Env.quiet 1
    (World.single cli_cb_t.accepted_ssl) cli_cb_t.accepted_ssl rfl).1 (by decide)⟩

/-- Counterexample to C9 as stated: `close` fails on descriptor 3 inside
`tcp_close_socket`; when the close operation returns, descriptor 3 is still in
`read_fds` and in `write_fds` and the ceiling is still 4. -/
theorem C9_close_failure_counterexample :
    (World.single cli_cb_t.accepted_plain).heap 1 = some cli_cb_t.accepted_plain ∧
    Env.close_fails.sys_close cli_cb_t.accepted_plain.cli_fd ≠ 0 ∧
    (tcp_close_socket ErrCodes.sample Env.close_fails 1
        (World.single cli_cb_t.accepted_plain)).map
      (fun r => (r.1, r.2.read_fds 3, r.2.write_fds 3, r.2.max_fd, (r.2.heap 1).isSome,
        r.2.cli_list 3, r.2.trace)) =
      some (0, true, true, 4, false, [], [Event.sys_close 3, Event.free_cb 1]) := by
  refine ⟨rfl, by decide, by rfl⟩

/-- C9, amended. Close failure: for every live control block, when the
descriptor close fails inside `tcp_close_socket`, `close_socket` reports the
failure to its caller at once (it returns 1 with nothing but the `close` call
done), and when `tcp_close_socket` returns, the read and write interest sets,
the wait snapshots and the ceiling are what they were before the call: the
descriptor is not deregistered. -/
theorem C9_close_failure (E : ErrCodes) (env : Env) (cb : Nat) (w : World) (c : cli_cb_t)
    (hcb : w.heap cb = some c) (hfail : env.sys_close c.cli_fd ≠ 0) :
    close_socket env c.cli_fd w =
      (1, { w with trace := w.trace ++ [Event.sys_close c.cli_fd] }) ∧
    ∃ r w', tcp_close_socket E env cb w = some (r, w') ∧
      w'.read_fds = w.read_fds ∧ w'.write_fds = w.write_fds ∧
      w'.read_wait_fds = w.read_wait_fds ∧ w'.write_wait_fds = w.write_wait_fds ∧
      w'.max_fd = w.max_fd := by
  obtain ⟨w', h1, h2, h3, h4, h5, h6, -, -, -⟩ := free_cli_cb_spec cb
    { w with trace := w.trace ++ [Event.sys_close c.cli_fd] } c hcb
  refine ⟨close_socket_of_fail env c.cli_fd w hfail, 0, w', ?_, h2, h3, h4, h5, h6⟩
  simp [tcp_close_socket, hcb, close_socket_of_fail env c.cli_fd w hfail, h1]

/-- Witness of C9 (amended) at the plaintext control block for descriptor 3. -/
theorem C9_close_failure_witness :
    (World.single cli_cb_t.accepted_plain).heap 1 = some cli_cb_t.accepted_plain ∧
    Env.close_fails.sys_close cli_cb_t.accepted_plain.cli_fd ≠ 0 ∧
    close_socket Env.close_fails cli_cb_t.accepted_plain.cli_fd
        (World.single cli_cb_t.accepted_plain) =
      (1, { World.single cli_cb_t.accepted_plain with
        trace := (World.single cli_cb_t.accepted_plain).trace ++
          [Event.sys_close cli_cb_t.accepted_plain.cli_fd] }) ∧
    ∃ r w', tcp_close_socket ErrCodes.sample Env.close_fails 1
          (World.single cli_cb_t.accepted_plain) = some (r, w') ∧
      w'.read_fds = (World.single cli_cb_t.accepted_plain).read_fds ∧
      w'.write_fds = (World.single cli_cb_t.accepted_plain).write_fds ∧
      w'.read_wait_fds = (World.single cli_cb_t.accepted_plain).read_wait_fds ∧
      w'.write_wait_fds = (World.single cli_cb_t.accepted_plain).write_wait_fds ∧
      w'.max_fd = (World.single cli_cb_t.accepted_plain).max_fd :=
  ⟨rfl, by decide,
    C9_close_failure ErrCodes.sample Env.close_fails 1 (World.single cli_cb_t.accepted_plain)
      cli_cb_t.accepted_plain rfl (by decide)⟩

/-- C10. Handshake failure, evaluated where the code breaks the claim: on the
encrypted listening control block (descriptor 4), `accept` returns descriptor
7 and `malloc` the block at address 2, then `SSL_new` returns null, or
`SSL_accept` a negative value. `ssl_new_connection` reports `ERR_SSL_NEW`,
respectively `ERR_SSL_ACCEPT`, but does not destroy the new control block:
`get_cli_cb 7` still returns it, it stays live and is never freed, and
descriptor 7 is not closed. The listening block stays registered and
descriptor 7 is in neither interest set. -/
theorem C10_handshake_failure_keeps_new_cb :
    (ssl_new_connection ErrCodes.sample Env.ssl_new_fails 1 World.listening_ssl).map
      (fun r => (r.1, get_cli_cb r.2 7, (r.2.heap 2).isSome, r.2.trace,
        get_cli_cb r.2 4, r.2.read_fds 7, r.2.write_fds 7)) =
      some (ErrCodes.sample.ERR_SSL_NEW, some (some 2), true,
        [Event.sys_accept 4, Event.malloc_cb (some 2), Event.SSL_new],
        some (some 1), false, false) ∧
    (ssl_new_connection ErrCodes.sample Env.ssl_accept_fails 1 World.listening_ssl).map
      (fun r => (r.1, get_cli_cb r.2 7, (r.2.heap 2).isSome, r.2.trace,
        get_cli_cb r.2 4, r.2.read_fds 7, r.2.write_fds 7)) =
      some (ErrCodes.sample.ERR_SSL_ACCEPT, some (some 2), true,
        [Event.sys_accept 4, Event.malloc_cb (some 2), Event.SSL_new,
         Event.SSL_set_fd (some 50) 7, Event.SSL_accept (some 50)],
        some (some 1), false, false) := by
  constructor <;> rfl

/-! ### The event loop -/

/-- C12. Registry miss, evaluated where the code breaks the claim. After a
failed `close`, descriptor 3 is still of interest and has no control block.
When `select` reports it readable, `process_request` returns
`ERR_CONNECTION_NOT_EXIST`. When `select` reports it writable, the lookup
returns `NULL` as well, but the write branch passes `cb->cli_fd` to
`err_printf`: with an `err_printf` that evaluates its arguments the null
pointer is dereferenced and `process_request` does not return; only with one
that does not evaluate them is `ERR_CONNECTION_NOT_EXIST` returned. -/
theorem C12_registry_miss_write_branch_derefs_null :
    (World.desync.read_fds 3, World.desync.write_fds 3, World.desync.max_fd,
      get_cli_cb World.desync 3) = (true, true, 4, some none) ∧
    (process_request ErrCodes.sample Env.read_ready
        (select_wrapper Env.read_ready World.desync).2).map (fun r => r.1) =
      some ErrCodes.sample.ERR_CONNECTION_NOT_EXIST ∧
    ((select_wrapper Env.write_ready World.desync).2.write_wait_fds 3,
      get_cli_cb (select_wrapper Env.write_ready World.desync).2 3) = (true, some none) ∧
    Env.write_ready.err_printf_args = true ∧
    (process_request ErrCodes.sample Env.write_ready
        (select_wrapper Env.write_ready World.desync).2).map (fun r => r.1) = none ∧
    (process_request ErrCodes.sample Env.write_ready_silent
        (select_wrapper Env.write_ready_silent World.desync).2).map (fun r => r.1) =
      some ErrCodes.sample.ERR_CONNECTION_NOT_EXIST := by
  refine ⟨by rfl, by rfl, by rfl, by rfl, by rfl, by rfl⟩

/-- C16. No use of a closed control block, evaluated where the code breaks it.
Descriptor 3 is readable and its peer has closed. `tcp_recv_wrapper` closes the
connection, frees the control block at address 1 and returns 0; as the value
is not negative, `process_request` goes on to `cb->mthd.parse(cb)`, which reads
the freed block: it does not return. In the same tick with three bytes
pending, the block stays live, the parse hook is called on it and
`process_request` returns 0. -/
theorem C16_parse_called_after_receive_freed_cb :
    ((select_wrapper Env.read_ready (World.single cli_cb_t.accepted_plain)).2.read_wait_fds 3,
      get_cli_cb (select_wrapper Env.read_ready (World.single cli_cb_t.accepted_plain)).2 3) =
      (true, some (some 1)) ∧
    (tcp_recv_wrapper ErrCodes.sample Env.read_ready 1
        (select_wrapper Env.read_ready (World.single cli_cb_t.accepted_plain)).2).map
      (fun r => (r.1, (r.2.heap 1).isSome, r.2.trace)) =
      some (0, false,
        [Event.sys_select 4, Event.sys_recv 3, Event.sys_close 3, Event.free_cb 1]) ∧
    (process_read ErrCodes.sample Env.read_ready 3
        (select_wrapper Env.read_ready (World.single cli_cb_t.accepted_plain)).2).isNone =
      true ∧
    (process_request ErrCodes.sample Env.read_ready
        (select_wrapper Env.read_ready (World.single cli_cb_t.accepted_plain)).2).map
      (fun r => r.1) = none ∧
    (process_request ErrCodes.sample Env.read_ready_get
        (select_wrapper Env.read_ready_get (World.single cli_cb_t.accepted_plain)).2).map
      (fun r => (r.1, (r.2.heap 1).isSome, r.2.trace)) =
      some (0, true, [Event.sys_select 4, Event.sys_recv 3, Event.parse_cli_cb 1]) := by
  refine ⟨by rfl, by rfl, by rfl, by rfl, by rfl⟩

/-- C14. Not-found response, evaluated where the code breaks the claim. For
`GET /a HTTP/1.1` with a file that cannot be opened, `handle_get_mthd` returns
0 and stores the 26 characters of `HTTP/1.1 404 Not Found`, the line end and
the blank line, followed by the terminator; but `buf_out_ctr` is 27, one more
than the length of the text, and the send that follows writes 27 bytes: the
terminator goes out after the header. The connection stays open. -/
theorem C14_not_found_counts_terminator :
    (handle_get_mthd ErrCodes.sample Env.not_found req_msg_t.get_a 1
        (World.single cli_cb_t.accepted_plain)).map
      (fun r => (r.1, (r.2.heap 1).map (fun c => (c.buf_out, c.buf_out_ctr)))) =
      some (0, some (some (out_buf.mk 200
        ("HTTP/1.1 404 Not Found\r\n\r\n".toList ++ [Char.ofNat 0])), 27)) ∧
    "HTTP/1.1 404 Not Found\r\n\r\n".toList.length = 26 ∧
    (process_request ErrCodes.sample Env.write_ready_not_found
        (select_wrapper Env.write_ready_not_found (World.single cli_cb_t.get_queued)).2).map
      (fun r => (r.1, r.2.trace, (r.2.heap 1).map (fun c => c.buf_out_ctr),
        get_cli_cb r.2 3)) =
      some (0,
        [Event.sys_select 4, Event.handle_get_mthd req_msg_t.get_a,
         Event.sys_open "../static_site//a".toList, Event.malloc_buf (some 200),
         Event.free_req_msg req_msg_t.get_a, Event.sys_send 3 27],
        some (-1), some (some 1)) := by
  refine ⟨by rfl, by rfl, by rfl⟩

/-- C13. Orderly shutdown, evaluated where the code breaks the claim. `select`
is interrupted while two control blocks are registered; every `close` of a
connection succeeds. `liso_shutdown` releases the security context, closes
both descriptors, frees both blocks and leaves the buckets empty, then calls
`close_socket(sock_fd)` with `sock_fd` still -1: that `close` fails and the
process exits with `EXIT_FAILURE`. Status 0 is reached only if `close(-1)`
were to return 0. -/
theorem C13_shutdown_exits_with_failure :
    sock_fd = -1 ∧
    (main_loop_body ErrCodes.sample Env.interrupted World.two_cbs).map
      (fun o => (o.status, o.world.trace, o.world.cli_list 4, o.world.cli_list 7,
        (o.world.heap 1).isSome, (o.world.heap 2).isSome)) =
      some (some EXIT_FAILURE,
        [Event.sys_select 8, Event.SSL_CTX_free, Event.sys_close 4, Event.free_cb 1,
         Event.sys_close 7, Event.free_cb 2, Event.sys_close (-1), Event.exit 1],
        [], [], false, false) ∧
    (main_loop_body ErrCodes.sample Env.interrupted_close_ok World.two_cbs).map
      (fun o => o.status) = some (some 0) := by
  refine ⟨rfl, by rfl, by rfl⟩

/-! ### Dispatch through the bound operations -/

/-- After its close operation a block is either no longer live or as it was. -/
theorem call_close_heap (E : ErrCodes) (env : Env) (f : close_fn) (cb : Nat) (w : World)
    (c : cli_cb_t) (r : Int) (w' : World) (h : w.heap cb = some c)
    (hc : call_close E env f cb w = some (r, w')) :
    w'.heap cb = none ∨ w'.heap cb = some c := by
  cases f
  · simp only [call_close, tcp_close_socket, h] at hc
    have hret := close_socket_ret env c.cli_fd w
    have hheap : (close_socket env c.cli_fd w).2.heap cb = some c := by
      rw [close_socket_heap]; exact h
    obtain ⟨w1, h1, -, -, -, -, -, h7, -, -⟩ := free_cli_cb_spec cb _ c hheap
    simp only [hret, if_false, h1, Option.some.injEq, Prod.mk.injEq] at hc
    rw [← hc.2]; exact Or.inl h7
  · simp only [call_close, ssl_close_socket, h] at hc
    by_cases hs : env.SSL_shutdown c.ssl < 0
    · simp only [hs, if_true, Option.some.injEq, Prod.mk.injEq] at hc
      rw [← hc.2]; exact Or.inr h
    · have hret := close_socket_ret env c.cli_fd
        { w with trace := w.trace ++ [Event.SSL_shutdown c.ssl] ++ [Event.SSL_free c.ssl] }
      have hheap : (close_socket env c.cli_fd
          { w with trace := w.trace ++ [Event.SSL_shutdown c.ssl] ++
            [Event.SSL_free c.ssl] }).2.heap cb = some c := by
        rw [close_socket_heap]; exact h
      obtain ⟨w1, h1, -, -, -, -, -, h7, -, -⟩ := free_cli_cb_spec cb _ c hheap
      simp only [hs, if_false, hret, h1, Option.some.injEq, Prod.mk.injEq] at hc
      rw [← hc.2]; exact Or.inl h7

/-- After a receive a block is either no longer live or has the operations it
had. -/
theorem call_recv_heap (E : ErrCodes) (env : Env) (f : recv_fn) (cb : Nat) (w : World)
    (c : cli_cb_t) (r : Int) (w' : World) (h : w.heap cb = some c)
    (hc : call_recv E env f cb w = some (r, w')) :
    w'.heap cb = none ∨ ∃ c', w'.heap cb = some c' ∧ c'.mthd = c.mthd := by
  cases f
  · simp only [call_recv, tcp_recv_wrapper, h] at hc
    split at hc
    · split at hc
      · simp only [Option.some.injEq, Prod.mk.injEq] at hc
        rw [← hc.2]
        exact Or.inr ⟨_, heap_set_same _ _ _, rfl⟩
      · cases hcl : c.mthd.close with
        | none => simp [hcl] at hc
        | some k =>
          simp only [hcl] at hc
          split at hc
          · exact absurd hc (by simp)
          · rename_i r1 w1 hk
            split at hc
            · exact absurd hc (by simp)
            · simp only [Option.some.injEq, Prod.mk.injEq] at hc
              rcases call_close_heap E env k cb _ _ r1 w1 (heap_set_same _ _ _) hk with
                h1 | h1
              · rw [← hc.2]; exact Or.inl h1
              · rw [← hc.2]; exact Or.inr ⟨_, h1, rfl⟩
    · simp only [Option.some.injEq, Prod.mk.injEq] at hc
      rw [← hc.2]; exact Or.inr ⟨c, h, rfl⟩
  · simp only [call_recv, ssl_recv_wrapper, h] at hc
    split at hc
    · split at hc
      · simp only [Option.some.injEq, Prod.mk.injEq] at hc
        rw [← hc.2]
        exact Or.inr ⟨_, heap_set_same _ _ _, rfl⟩
      · cases hcl : c.mthd.close with
        | none => simp [hcl] at hc
        | some k =>
          simp only [hcl] at hc
          split at hc
          · exact absurd hc (by simp)
          · rename_i r1 w1 hk
            split at hc
            · exact absurd hc (by simp)
            · simp only [Option.some.injEq, Prod.mk.injEq] at hc
              rcases call_close_heap E env k cb _ _ r1 w1 (heap_set_same _ _ _) hk with
                h1 | h1
              · rw [← hc.2]; exact Or.inl h1
              · rw [← hc.2]; exact Or.inr ⟨_, h1, rfl⟩
    · simp only [Option.some.injEq, Prod.mk.injEq] at hc
      rw [← hc.2]; exact Or.inr ⟨c, h, rfl⟩

theorem forget_sent_buf_mthd (c : cli_cb_t) : (forget_sent_buf c).mthd = c.mthd := by
  unfold forget_sent_buf
  split <;> rfl

theorem handle_get_out2_heap (ret fd : Int) (w : World) (r : Int) (w' : World)
    (h : handle_get_out2 ret fd w = some (r, w')) : r = ret ∧ w'.heap = w.heap := by
  unfold handle_get_out2 at h
  split at h <;>
    (simp only [Option.some.injEq, Prod.mk.injEq] at h
     exact ⟨h.1.symm, by rw [← h.2]⟩)

/-- Whenever the GET handler returns, the block is live and has the
operations it had. -/
theorem handle_get_mthd_heap (E : ErrCodes) (env : Env) (m : req_msg_t) (cb : Nat)
    (w : World) (c : cli_cb_t) (r : Int) (w' : World) (hcb : w.heap cb = some c)
    (h : handle_get_mthd E env m cb w = some (r, w')) :
    ∃ c', w'.heap cb = some c' ∧ c'.mthd = c.mthd := by
  unfold handle_get_mthd at h
  simp only [hcb] at h
  cases hfn : get_filename m.req_line.url with
  | none => simp [hfn] at h
  | some filename =>
    simp only [hfn] at h
    by_cases hfd : env.sys_open filename < 0
    · simp only [hfd, if_true] at h
      split at h <;>
        (simp only [Option.some.injEq, Prod.mk.injEq] at h
         rw [← h.2]
         exact ⟨_, heap_set_same _ _ _, forget_sent_buf_mthd c⟩)
    · simp only [hfd, if_false] at h
      cases hst : env.sys_fstat (env.sys_open filename) with
      | none =>
        simp only [hst] at h
        obtain ⟨-, hh⟩ := handle_get_out2_heap _ _ _ _ _ h
        exact ⟨c, by rw [hh]; exact hcb, rfl⟩
      | some st_size =>
        simp only [hst] at h
        cases hmm : env.sys_mmap (env.sys_open filename) with
        | none =>
          simp only [hmm] at h
          obtain ⟨-, hh⟩ := handle_get_out2_heap _ _ _ _ _ h
          exact ⟨c, by rw [hh]; exact hcb, rfl⟩
        | some faddr =>
          simp only [hmm] at h
          cases hok : ok_header m.req_line.ver m.req_line.url st_size with
          | none => simp [hok] at h
          | some buf_hdr =>
            simp only [hok] at h
            cases hmal : env.malloc_buf (buf_hdr.length + 1 + st_size) with
            | none =>
              simp only [hmal] at h
              by_cases hov : alloc_size_print_overflows env buf_hdr.length st_size = true
              · simp [hov] at h
              simp only [hov, if_false] at h
              obtain ⟨-, hh⟩ := handle_get_out2_heap _ _ _ _ _ h
              apply Exists.intro
              constructor
              · rw [hh]; exact heap_set_same _ _ _
              · exact forget_sent_buf_mthd c
            | some a =>
              simp only [hmal] at h
              by_cases hd : env.dbg_printf_args = true
              · simp [hd] at h
              have hd' : env.dbg_printf_args = false := by simpa using hd
              simp only [hd', Bool.false_eq_true, if_false] at h
              by_cases hnn : to_int (buf_hdr.length + st_size) < 0
              · simp [hnn] at h
              simp only [hnn, if_false] at h
              by_cases hmu : env.sys_munmap < 0
              · simp only [hmu, if_true] at h
                obtain ⟨-, hh⟩ := handle_get_out2_heap _ _ _ _ _ h
                apply Exists.intro
                constructor
                · rw [hh]; exact heap_set_same _ _ _
                · exact forget_sent_buf_mthd c
              · simp only [hmu, if_false, Option.some.injEq, Prod.mk.injEq] at h
                rw [← h.2]
                exact ⟨_, heap_set_same _ _ _, forget_sent_buf_mthd c⟩

/-- Whenever `handle_req_msg` returns, the block is live and has the operations
it had. -/
theorem handle_req_msg_heap (E : ErrCodes) (env : Env) (cb : Nat) (w : World)
    (c : cli_cb_t) (r : Int) (w' : World) (hcb : w.heap cb = some c)
    (h : handle_req_msg E env cb w = some (r, w')) :
    ∃ c', w'.heap cb = some c' ∧ c'.mthd = c.mthd := by
  unfold handle_req_msg at h
  simp only [hcb] at h
  cases hq : c.req_msg_list with
  | nil =>
    simp only [hq, Option.some.injEq, Prod.mk.injEq] at h
    rw [← h.2]; exact ⟨c, hcb, rfl⟩
  | cons m rest =>
    simp only [hq] at h
    have key : ∀ r1 w1, (match m.req_line.req with
        | .HEAD => handle_head_mthd m cb
            { w with heap := heap_set w.heap cb (some { c with req_msg_list := rest }) }
        | .GET => handle_get_mthd E env m cb
            { w with heap := heap_set w.heap cb (some { c with req_msg_list := rest }) }
        | .POST => handle_post_mthd m cb
            { w with heap := heap_set w.heap cb (some { c with req_msg_list := rest }) }
        | .OTHER _ => handle_unknown_mthd m cb
            { w with heap := heap_set w.heap cb (some { c with req_msg_list := rest }) }) =
          some (r1, w1) → ∃ c', w1.heap cb = some c' ∧ c'.mthd = c.mthd := by
      intro r1 w1 h1
      cases hk : m.req_line.req with
      | HEAD =>
        simp only [hk, handle_head_mthd, Option.some.injEq, Prod.mk.injEq] at h1
        rw [← h1.2]; exact ⟨_, heap_set_same _ _ _, rfl⟩
      | POST =>
        simp only [hk, handle_post_mthd, Option.some.injEq, Prod.mk.injEq] at h1
        rw [← h1.2]; exact ⟨_, heap_set_same _ _ _, rfl⟩
      | OTHER v =>
        simp only [hk, handle_unknown_mthd, Option.some.injEq, Prod.mk.injEq] at h1
        rw [← h1.2]; exact ⟨_, heap_set_same _ _ _, rfl⟩
      | GET =>
        simp only [hk] at h1
        exact handle_get_mthd_heap E env m cb _ { c with req_msg_list := rest } r1 w1
          (heap_set_same _ _ _) h1
    split at h
    · exact absurd h (by simp)
    · rename_i r1 w1 h1
      obtain ⟨c', hc1, hc2⟩ := key r1 w1 h1
      split at h <;>
        (simp only [Option.some.injEq, Prod.mk.injEq] at h
         rw [← h.2]
         exact ⟨c', hc1, hc2⟩)

/-- The operations a successful `init_cli_cb` leaves in the block are the ones
of `mthd_of_init` for the role and the security mode. -/
theorem init_cli_cb_bound (E : ErrCodes) (w : World) (cb : Nat) (c0 : cli_cb_t)
    (addr : Option Nat) (fd type is_ssl : Int) (hfd : 0 ≤ fd)
    (hcb : w.heap cb = some c0) (htype : type = LISTEN ∨ type = CLI) :
    ∃ w' c, init_cli_cb E cb addr fd type is_ssl w = some (0, w') ∧
      w'.heap cb = some c ∧ c.type = type ∧ c.is_ssl = is_ssl ∧
      c.mthd = mthd_of_init type is_ssl := by
  have hb := cli_bucket_of_nonneg fd hfd
  by_cases hs : is_ssl = 0 <;> rcases htype with ht | ht <;>
    simp only [init_cli_cb, hcb, hs, ht, hb, if_true, if_false, LISTEN, CLI,
      show ((1 : Int) = 0) = False from by decide] <;>
    refine ⟨_, _, rfl, heap_set_same _ _ _, rfl, rfl, ?_⟩ <;>
    simp [mthd_of_init, hs, LISTEN, CLI]

/-- The read branch on a block bound by `init_cli_cb` calls the operations of
its role and security mode. -/
theorem process_read_switch_by_mode (E : ErrCodes) (env : Env) (cb : Nat) (w : World)
    (c : cli_cb_t) (hcb : w.heap cb = some c) (hinit : bound_by_init c) :
    process_read_switch E env cb c w = read_by_mode E env cb c.type c.is_ssl w := by
  obtain ⟨htype, hm⟩ := hinit
  rcases htype with ht | ht
  · -- Listening
    by_cases hs : c.is_ssl = 0 <;>
      simp [process_read_switch, read_by_mode, hm, mthd_of_init, ht, hs,
        call_new_connection]
  · -- Accepted
    have hne : ¬ c.type = LISTEN := by rw [ht]; decide
    have hne' : ¬ CLI = LISTEN := by decide
    by_cases hs : c.is_ssl = 0
    · simp only [process_read_switch, read_by_mode, hm, mthd_of_init, ht, hs, hne',
        if_true, if_false, call_recv]
      cases hr : tcp_recv_wrapper E env cb w with
      | none => rfl
      | some p =>
        obtain ⟨r, w1⟩ := p
        simp only []
        by_cases hneg : r < 0
        · simp only [hneg, if_true]
        · simp only [hneg, if_false]
          rcases call_recv_heap E env .tcp_recv_wrapper cb w c r w1 hcb hr with h1 | ⟨c1, h1, h2⟩
          · simp [h1, parse_cli_cb]
          · have hp : c1.mthd.parse = some .parse_cli_cb := by
              rw [h2, hm]; rfl
            simp [h1, hp, call_parse]
    · simp only [process_read_switch, read_by_mode, hm, mthd_of_init, ht, hs, hne',
        if_true, if_false, call_recv]
      cases hr : ssl_recv_wrapper E env cb w with
      | none => rfl
      | some p =>
        obtain ⟨r, w1⟩ := p
        simp only []
        by_cases hneg : r < 0
        · simp only [hneg, if_true]
        · simp only [hneg, if_false]
          rcases call_recv_heap E env .ssl_recv_wrapper cb w c r w1 hcb hr with h1 | ⟨c1, h1, h2⟩
          · simp [h1, parse_cli_cb]
          · have hp : c1.mthd.parse = some .parse_cli_cb := by
              rw [h2, hm]; rfl
            simp [h1, hp, call_parse]

/-- The write branch on a block bound by `init_cli_cb` calls the operations of
its role and security mode. -/
theorem process_write_switch_by_mode (E : ErrCodes) (env : Env) (cb : Nat) (w : World)
    (c : cli_cb_t) (hcb : w.heap cb = some c) (hinit : bound_by_init c) :
    process_write_switch E env cb c w = write_by_mode E env cb c.type c.is_ssl w := by
  obtain ⟨htype, hm⟩ := hinit
  rcases htype with ht | ht
  · simp [process_write_switch, write_by_mode, ht]
  · have hne' : ¬ CLI = LISTEN := by decide
    simp only [process_write_switch, write_by_mode, hm, mthd_of_init, ht, hne',
      if_true, if_false, call_handle_req_msg]
    cases hr : handle_req_msg E env cb w with
    | none => rfl
    | some p =>
      obtain ⟨r, w1⟩ := p
      simp only []
      by_cases hneg : r < 0
      · simp only [hneg, if_true]
      · simp only [hneg, if_false]
        obtain ⟨c1, h1, h2⟩ := handle_req_msg_heap E env cb w c r w1 hcb hr
        have hsend : c1.mthd.send =
            some (if c.is_ssl = 0 then .tcp_send_wrapper else .ssl_send_wrapper) := by
          rw [h2, hm]; simp [mthd_of_init, ht, hne']
        by_cases hs : c.is_ssl = 0 <;> simp [h1, hsend, hs, call_send]

/-- C15. Dispatch never calls an unbound operation: `init_cli_cb` with role
LISTEN or CLI, in either security mode, leaves a block bound by it; and for
every live block so bound, the operations `process_request` calls on it are
bound and are the ones of its security mode: the read branch is
`new_connection` of the mode for a Listening block and `recv` of the mode then
`parse` for an Accepted one, the write branch is nothing for a Listening block
and `handle_req_msg` then `send` of the mode for an Accepted one. The slots left
`NULL` (`recv`, `send` on Listening, `new_connection` on Accepted) are not
called. -/
theorem C15_dispatch_bound_operations (E : ErrCodes) (env : Env) (cb : Nat) (w : World)
    (c : cli_cb_t) (hcb : w.heap cb = some c) (hinit : bound_by_init c) :
    (c.type = LISTEN →
      c.mthd.new_connection =
        some (if c.is_ssl = 0 then .tcp_new_connection else .ssl_new_connection)) ∧
    (c.type = CLI →
      c.mthd.recv = some (if c.is_ssl = 0 then .tcp_recv_wrapper else .ssl_recv_wrapper) ∧
      c.mthd.parse = some .parse_cli_cb ∧
      c.mthd.handle_req_msg = some .handle_req_msg ∧
      c.mthd.send = some (if c.is_ssl = 0 then .tcp_send_wrapper else .ssl_send_wrapper)) ∧
    process_read_switch E env cb c w = read_by_mode E env cb c.type c.is_ssl w ∧
    process_write_switch E env cb c w = write_by_mode E env cb c.type c.is_ssl w ∧
    (∀ i, get_cli_cb w i = some (some cb) →
      process_read E env i w = read_by_mode E env cb c.type c.is_ssl w ∧
      process_write E env i w = write_by_mode E env cb c.type c.is_ssl w) ∧
    (∀ (w0 : World) (cb0 : Nat) (c0 : cli_cb_t) (addr : Option Nat) (fd type is_ssl : Int),
      0 ≤ fd → w0.heap cb0 = some c0 → (type = LISTEN ∨ type = CLI) →
      ∃ w' c', init_cli_cb E cb0 addr fd type is_ssl w0 = some (0, w') ∧
        w'.heap cb0 = some c' ∧ c'.type = type ∧ c'.is_ssl = is_ssl ∧ bound_by_init c') := by
  have hr := process_read_switch_by_mode E env cb w c hcb hinit
  have hw := process_write_switch_by_mode E env cb w c hcb hinit
  refine ⟨?_, ?_, hr, hw, ?_, ?_⟩
  · intro ht
    rw [hinit.2]; simp [mthd_of_init, ht]
  · intro ht
    have hne : ¬ CLI = LISTEN := by decide
    rw [hinit.2]; simp [mthd_of_init, ht, hne]
  · intro i hi
    constructor
    · simp only [process_read, hi, hcb, ite_self]; exact hr
    · simp only [process_write, hi, hcb, ite_self]; exact hw
  · intro w0 cb0 c0 addr fd type is_ssl hfd h0 ht
    obtain ⟨w', c', h1, h2, h3, h4, h5⟩ := init_cli_cb_bound E w0 cb0 c0 addr fd type is_ssl
      hfd h0 ht
    exact ⟨w', c', h1, h2, h3, h4, by rw [h3]; exact ht, by rw [h3, h4]; exact h5⟩

/-- Witness of C15 at the plaintext accepted control block for descriptor 3:
its read branch is `tcp_recv_wrapper` then the parse hook. -/
theorem C15_dispatch_bound_operations_witness :
    (World.single cli_cb_t.accepted_plain).heap 1 = some cli_cb_t.accepted_plain ∧
    bound_by_init cli_cb_t.accepted_plain ∧
    process_read_switch ErrCodes.sample Env.pending_get 1 cli_cb_t.accepted_plain
        (World.single cli_cb_t.accepted_plain) =
      read_by_mode ErrCodes.sample Env.pending_get 1 cli_cb_t.accepted_plain.type
        cli_cb_t.accepted_plain.is_ssl (World.single cli_cb_t.accepted_plain) :=
  ⟨rfl, ⟨Or.inr rfl, rfl⟩,
    (C15_dispatch_bound_operations ErrCodes.sample Env.pending_get 1
      (World.single cli_cb_t.accepted_plain) cli_cb_t.accepted_plain rfl
      ⟨Or.inr rfl, rfl⟩).2.2.1⟩

/-- The four kinds of block `init_cli_cb` produces in `establish_socket` and in
the accept operations are bound by it. -/
theorem bound_by_init_examples :
    bound_by_init cli_cb_t.listen_tcp ∧ bound_by_init cli_cb_t.listen_ssl ∧
    bound_by_init cli_cb_t.accepted_plain ∧ bound_by_init cli_cb_t.accepted_ssl :=
  ⟨⟨Or.inl rfl, rfl⟩, ⟨Or.inl rfl, rfl⟩, ⟨Or.inr rfl, rfl⟩, ⟨Or.inr rfl, rfl⟩⟩

/-! ### Faults inside a tick -/

/-- Counterexample to C11 as stated: descriptor 3 is writable, two bytes are
pending in its outbound buffer and the write is one byte short. The send
operation closes and frees that connection and returns `ERR_SEND`;
`process_request` returns this negative value and `main` leaves the event loop
with `EXIT_FAILURE`. -/
theorem C11_transient_faults_counterexample :
    (process_request ErrCodes.sample Env.write_ready_short
        (select_wrapper Env.write_ready_short (World.single cli_cb_t.pending_out)).2).map
      (fun r => (r.1, decide (r.1 < 0), r.2.trace, (r.2.heap 1).isSome)) =
      some (ErrCodes.sample.ERR_SEND, true,
        [Event.sys_select 4, Event.sys_send 3 2, Event.sys_close 3, Event.free_buf 100,
         Event.free_cb 1], false) ∧
    (main_loop_body ErrCodes.sample Env.write_ready_short
        (World.single cli_cb_t.pending_out)).map (fun o => o.status) =
      some (some EXIT_FAILURE) := by
  refine ⟨by rfl, by rfl⟩

/-- When the descriptors below `k` are serviced without a `return` and the
servicing of `k` returns, the loop of `process_request` returns that value. -/
theorem process_request_loop_reaches (E : ErrCodes) (env : Env) (ws : Nat → World)
    (k : Nat) (r : Int) (w' : World)
    (hgo : ∀ j, j < k → (j : Int) < (ws j).max_fd ∧
      process_fd E env j (ws j) = some (.go (ws (j + 1))))
    (hmax : (k : Int) < (ws k).max_fd)
    (hret : process_fd E env k (ws k) = some (.ret r w')) :
    ∀ (d i n : Nat), i + d = k → d < n →
      process_request_loop E env n (i : Int) (ws i) = some (r, w') := by
  intro d
  induction d with
  | zero =>
    intro i n hik hn
    have hi : i = k := by omega
    subst hi
    obtain ⟨m, rfl⟩ : ∃ m, n = m + 1 := ⟨n - 1, by omega⟩
    simp only [process_request_loop, hmax, if_true, hret]
  | succ d ih =>
    intro i n hik hn
    obtain ⟨m, rfl⟩ : ∃ m, n = m + 1 := ⟨n - 1, by omega⟩
    obtain ⟨h1, h2⟩ := hgo i (by omega)
    have := ih (i + 1) m (by omega) (by omega)
    simp only [process_request_loop, h1, if_true, h2]
    rw [← this]
    push_cast
    rfl

/-- The same for `process_request`, which enters the loop at descriptor 0 with
room for `FD_SETSIZE` descriptors. -/
theorem process_request_reaches (E : ErrCodes) (env : Env) (ws : Nat → World)
    (k : Nat) (r : Int) (w' : World) (hk : k < FD_SETSIZE)
    (hgo : ∀ j, j < k → (j : Int) < (ws j).max_fd ∧
      process_fd E env j (ws j) = some (.go (ws (j + 1))))
    (hmax : (k : Int) < (ws k).max_fd)
    (hret : process_fd E env k (ws k) = some (.ret r w')) :
    process_request E env (ws 0) = some (r, w') := by
  have := process_request_loop_reaches E env ws k r w' hgo hmax hret k 0 FD_SETSIZE
    (by omega) hk
  simpa [process_request] using this

/-- A negative result of `process_request` makes `main` leave the event loop
with `EXIT_FAILURE`. -/
theorem main_loop_body_of_negative (E : ErrCodes) (env : Env) (w0 : World) (r : Int)
    (w' : World) (hsel : 0 < (select_wrapper env w0).1)
    (hp : process_request E env (select_wrapper env w0).2 = some (r, w')) (hneg : r < 0) :
    main_loop_body E env w0 = some (.exited EXIT_FAILURE w') := by
  have h0 : ¬ (select_wrapper env w0).1 = 0 := by omega
  have h1 : ¬ (select_wrapper env w0).1 < 0 := by omega
  simp only [main_loop_body, h0, h1, if_false, hp, hneg, if_true]

/-- A tick in which the servicing of descriptor `k` returns a negative value,
the descriptors below `k` having been serviced without a `return`. -/
theorem aborts_tick_of_ret (E : ErrCodes) (env : Env) (w0 : World) (ws : Nat → World)
    (k : Nat) (r : Int) (w' : World)
    (hsel : 0 < (select_wrapper env w0).1) (h0 : ws 0 = (select_wrapper env w0).2)
    (hk : k < FD_SETSIZE)
    (hgo : ∀ j, j < k → (j : Int) < (ws j).max_fd ∧
      process_fd E env j (ws j) = some (.go (ws (j + 1))))
    (hmax : (k : Int) < (ws k).max_fd)
    (hret : process_fd E env k (ws k) = some (.ret r w')) (hneg : r < 0) :
    aborts_tick E env w0 r w' := by
  have hp := process_request_reaches E env ws k r w' hk hgo hmax hret
  rw [h0] at hp
  exact ⟨hp, main_loop_body_of_negative E env w0 r w' hsel hp hneg⟩

/-- When `SSL_new` fails after a successful `accept`, `ssl_new_connection`
returns `ERR_SSL_NEW`. -/
theorem ssl_new_connection_of_SSL_new_fails (E : ErrCodes) (env : Env) (cb : Nat)
    (w : World) (c : cli_cb_t) (p : Nat) (contents : cli_cb_t)
    (hcb : w.heap cb = some c) (hacc : env.sys_accept c.cli_fd ≠ -1)
    (hfd : 0 ≤ env.sys_accept c.cli_fd) (hmal : env.malloc_cb = some (p, contents))
    (hnew : env.SSL_new = none) :
    ∃ w', ssl_new_connection E env cb w = some (E.ERR_SSL_NEW, w') := by
  have hne : ¬ CLI = LISTEN := by decide
  simp [ssl_new_connection, hcb, hacc, hmal, init_cli_cb, heap_set,
    cli_bucket_of_nonneg _ hfd, hnew, hne]

/-- C11, amended. Transient faults abort the tick and the process: in a tick
(`select_wrapper` has found some descriptor ready) in which the descriptors
below `k` are serviced without a `return`, whatever negative value the
servicing of descriptor `k` returns is returned by `process_request` at once,
in the state that servicing leaves (no descriptor above `k` is serviced), and
`main` leaves the event loop with `EXIT_FAILURE`. That is so for a negative
value of the accept operation (a failed handshake: `ssl_new_connection` returns
`ERR_SSL_NEW` when `SSL_new` fails), of the receive operation, of the parse hook
(a malformed message), of `handle_req_msg` and of the send operation; and for a
short or failed write on a plaintext connection, where `tcp_send_wrapper`
closes that one connection and returns `ERR_SEND`. The error codes named are
taken to be negative. -/
theorem C11_transient_faults (E : ErrCodes) (env : Env) (w0 : World) (ws : Nat → World)
    (k : Nat)
    (hsel : 0 < (select_wrapper env w0).1) (h0 : ws 0 = (select_wrapper env w0).2)
    (hk : k < FD_SETSIZE)
    (hgo : ∀ j, j < k → (j : Int) < (ws j).max_fd ∧
      process_fd E env j (ws j) = some (.go (ws (j + 1))))
    (hmax : (k : Int) < (ws k).max_fd) :
    -- whatever `return` the servicing of `k` ends with
    (∀ r w', process_fd E env k (ws k) = some (.ret r w') → r < 0 →
      aborts_tick E env w0 r w') ∧
    -- the operations of the read block
    (∀ cb c f r w', FD_ISSET k (ws k).read_wait_fds = true →
      get_cli_cb (ws k) k = some (some cb) → (ws k).heap cb = some c →
      c.type = LISTEN → c.mthd.new_connection = some f →
      call_new_connection E env f cb (ws k) = some (r, w') → r < 0 →
      aborts_tick E env w0 r w') ∧
    (∀ cb c p contents, FD_ISSET k (ws k).read_wait_fds = true →
      get_cli_cb (ws k) k = some (some cb) → (ws k).heap cb = some c →
      c.type = LISTEN → c.mthd.new_connection = some .ssl_new_connection →
      env.sys_accept c.cli_fd ≠ -1 → 0 ≤ env.sys_accept c.cli_fd →
      env.malloc_cb = some (p, contents) → env.SSL_new = none → E.ERR_SSL_NEW < 0 →
      ∃ w', ssl_new_connection E env cb (ws k) = some (E.ERR_SSL_NEW, w') ∧
        aborts_tick E env w0 E.ERR_SSL_NEW w') ∧
    (∀ cb c f r w', FD_ISSET k (ws k).read_wait_fds = true →
      get_cli_cb (ws k) k = some (some cb) → (ws k).heap cb = some c →
      c.type = CLI → c.mthd.recv = some f →
      call_recv E env f cb (ws k) = some (r, w') → r < 0 →
      aborts_tick E env w0 r w') ∧
    (∀ cb c f r1 w1 c1 g r w', FD_ISSET k (ws k).read_wait_fds = true →
      get_cli_cb (ws k) k = some (some cb) → (ws k).heap cb = some c →
      c.type = CLI → c.mthd.recv = some f →
      call_recv E env f cb (ws k) = some (r1, w1) → ¬ r1 < 0 →
      w1.heap cb = some c1 → c1.mthd.parse = some g →
      call_parse env g cb w1 = some (r, w') → r < 0 →
      aborts_tick E env w0 r w') ∧
    -- the operations of the write block
    (∀ w1 cb c f r w',
      (if FD_ISSET k (ws k).read_wait_fds then process_read E env k (ws k)
        else some (.go (ws k))) = some (.go w1) →
      FD_ISSET k w1.write_wait_fds = true →
      get_cli_cb w1 k = some (some cb) → w1.heap cb = some c →
      c.type = CLI → c.mthd.handle_req_msg = some f →
      call_handle_req_msg E env f cb w1 = some (r, w') → r < 0 →
      aborts_tick E env w0 r w') ∧
    (∀ w1 cb c f r1 w2 c2 g r w',
      (if FD_ISSET k (ws k).read_wait_fds then process_read E env k (ws k)
        else some (.go (ws k))) = some (.go w1) →
      FD_ISSET k w1.write_wait_fds = true →
      get_cli_cb w1 k = some (some cb) → w1.heap cb = some c →
      c.type = CLI → c.mthd.handle_req_msg = some f →
      call_handle_req_msg E env f cb w1 = some (r1, w2) → ¬ r1 < 0 →
      w2.heap cb = some c2 → c2.mthd.send = some g →
      call_send E env g cb w2 = some (r, w') → r < 0 →
      aborts_tick E env w0 r w') ∧
    -- a short or failed write on a plaintext connection
    (∀ w1 cb c f r1 w2 c2 kf,
      (if FD_ISSET k (ws k).read_wait_fds then process_read E env k (ws k)
        else some (.go (ws k))) = some (.go w1) →
      FD_ISSET k w1.write_wait_fds = true →
      get_cli_cb w1 k = some (some cb) → w1.heap cb = some c →
      c.type = CLI → c.mthd.handle_req_msg = some f →
      call_handle_req_msg E env f cb w1 = some (r1, w2) → ¬ r1 < 0 →
      w2.heap cb = some c2 → c2.mthd.send = some .tcp_send_wrapper →
      c2.buf_out_ctr ≠ -1 → env.sys_send c2.cli_fd c2.buf_out_ctr ≠ c2.buf_out_ctr →
      c2.mthd.close = some kf → E.ERR_SEND < 0 →
      ∃ rc w', call_close E env kf cb
          { w2 with trace := w2.trace ++ [Event.sys_send c2.cli_fd c2.buf_out_ctr] } =
            some (rc, w') ∧
        aborts_tick E env w0 E.ERR_SEND w') := by
  have hne : ¬ CLI = LISTEN := by decide
  have key : ∀ r w', process_fd E env k (ws k) = some (.ret r w') → r < 0 →
      aborts_tick E env w0 r w' :=
    fun r w' hret hneg => aborts_tick_of_ret E env w0 ws k r w' hsel h0 hk hgo hmax hret hneg
  refine ⟨key, ?_, ?_, ?_, ?_, ?_, ?_, ?_⟩
  · intro cb c f r w' hrd hget hcb ht hf hcall hneg
    refine key r w' ?_ hneg
    simp only [process_fd, hrd, if_true, process_read, hget, hcb, ite_self,
      process_read_switch, ht, hf, hcall, hneg]
  · intro cb c p contents hrd hget hcb ht hf hacc hfd hmal hnew hneg
    obtain ⟨w', hw'⟩ := ssl_new_connection_of_SSL_new_fails E env cb (ws k) c p contents
      hcb hacc hfd hmal hnew
    refine ⟨w', hw', key _ w' ?_ hneg⟩
    simp only [process_fd, hrd, if_true, process_read, hget, hcb, ite_self,
      process_read_switch, ht, hf, call_new_connection, hw', hneg]
  · intro cb c f r w' hrd hget hcb ht hf hcall hneg
    refine key r w' ?_ hneg
    simp only [process_fd, hrd, if_true, process_read, hget, hcb, ite_self,
      process_read_switch, ht, hne, if_false, hf, hcall, hneg]
  · intro cb c f r1 w1 c1 g r w' hrd hget hcb ht hf hcall hnn h1 hg hparse hneg
    refine key r w' ?_ hneg
    simp only [process_fd, hrd, if_true, process_read, hget, hcb, ite_self,
      process_read_switch, ht, hne, if_false, hf, hcall, hnn, h1, hg, hparse, hneg]
  · intro w1 cb c f r w' hread hwr hget hcb ht hf hcall hneg
    refine key r w' ?_ hneg
    simp only [process_fd, hread, hwr, if_true, process_write, hget, hcb, ite_self,
      process_write_switch, ht, hne, if_false, hf, hcall, hneg]
  · intro w1 cb c f r1 w2 c2 g r w' hread hwr hget hcb ht hf hcall hnn h2 hg hsend hneg
    refine key r w' ?_ hneg
    simp only [process_fd, hread, hwr, if_true, process_write, hget, hcb, ite_self,
      process_write_switch, ht, hne, if_false, hf, hcall, hnn, h2, hg, hsend, hneg]
  · intro w1 cb c f r1 w2 c2 kf hread hwr hget hcb ht hf hcall hnn h2 hg hctr hshort hkf
      hneg
    obtain ⟨rc, w', hcl⟩ := call_close_some E env kf cb
      { w2 with trace := w2.trace ++ [Event.sys_send c2.cli_fd c2.buf_out_ctr] } c2 h2
    have hsend : call_send E env .tcp_send_wrapper cb w2 = some (E.ERR_SEND, w') := by
      simp [call_send, tcp_send_wrapper, h2, hctr, hshort, hkf, hcl]
    refine ⟨rc, w', hcl, key _ w' ?_ hneg⟩
    simp only [process_fd, hread, hwr, if_true, process_write, hget, hcb, ite_self,
      process_write_switch, ht, hne, if_false, hf, hcall, hnn, h2, hg, hsend, hneg]

/-- Witness of C11 (amended): descriptor 3, below the ceiling 4, is writable and
the write of its two pending bytes is short; descriptors 0, 1 and 2 are not
ready. The send operation closes the connection, `process_request` returns
`ERR_SEND` and `main` exits with `EXIT_FAILURE`. -/
theorem C11_transient_faults_witness :
    0 < (select_wrapper Env.write_ready_short (World.single cli_cb_t.pending_out)).1 ∧
    (3 : Int) <
      (select_wrapper Env.write_ready_short (World.single cli_cb_t.pending_out)).2.max_fd ∧
    ErrCodes.sample.ERR_SEND < 0 ∧
    ∃ rc w', call_close ErrCodes.sample Env.write_ready_short .tcp_close_socket 1
        { (select_wrapper Env.write_ready_short (World.single cli_cb_t.pending_out)).2 with
          trace :=
            (select_wrapper Env.write_ready_short
              (World.single cli_cb_t.pending_out)).2.trace ++
            [Event.sys_send cli_cb_t.pending_out.cli_fd cli_cb_t.pending_out.buf_out_ctr] } =
          some (rc, w') ∧
      aborts_tick ErrCodes.sample Env.write_ready_short (World.single cli_cb_t.pending_out)
        ErrCodes.sample.ERR_SEND w' :=
  ⟨by decide, by decide, by decide,
    (C11_transient_faults ErrCodes.sample Env.write_ready_short
      (World.single cli_cb_t.pending_out)
      (fun _ => (select_wrapper Env.write_ready_short (World.single cli_cb_t.pending_out)).2)
      3 (by decide) rfl (by decide)
      (fun j hj => by interval_cases j <;> exact ⟨by decide, rfl⟩)
      (by decide)).2.2.2.2.2.2.2
      (select_wrapper Env.write_ready_short (World.single cli_cb_t.pending_out)).2
      1 cli_cb_t.pending_out .handle_req_msg 0
      (select_wrapper Env.write_ready_short (World.single cli_cb_t.pending_out)).2
      cli_cb_t.pending_out .tcp_close_socket
      rfl rfl rfl rfl rfl rfl rfl (by decide) rfl rfl (by decide) (by decide) rfl
      (by decide)⟩

/-- A failed handshake and a malformed message end the tick and the process:
with `SSL_new` failing on the listening descriptor 4, `process_request`
returns `ERR_SSL_NEW`; with the parser rejecting the bytes received on
descriptor 3, it returns the value of the parser and the connection is not
closed; `main` exits with `EXIT_FAILURE` in both. -/
theorem process_request_fault_examples :
    (process_request ErrCodes.sample Env.read_ready_ssl_new_fails
        (select_wrapper Env.read_ready_ssl_new_fails World.listening_ssl).2).map
      (fun r => r.1) = some ErrCodes.sample.ERR_SSL_NEW ∧
    (main_loop_body ErrCodes.sample Env.read_ready_ssl_new_fails World.listening_ssl).map
      (fun o => o.status) = some (some EXIT_FAILURE) ∧
    (process_request ErrCodes.sample Env.read_ready_malformed
        (select_wrapper Env.read_ready_malformed (World.single cli_cb_t.accepted_plain)).2).map
      (fun r => (r.1, (r.2.heap 1).isSome, r.2.trace)) =
      some (-20, true, [Event.sys_select 4, Event.sys_recv 3, Event.parse_cli_cb 1]) ∧
    (main_loop_body ErrCodes.sample Env.read_ready_malformed
        (World.single cli_cb_t.accepted_plain)).map (fun o => o.status) =
      some (some EXIT_FAILURE) := by
  refine ⟨by rfl, by rfl, by rfl, by rfl⟩

/-! ### Release of storage along a path -/

theorem audit_append (cbs bufs : Nat → Bool) (xs ys : List Event) :
    audit cbs bufs (xs ++ ys) =
      match audit cbs bufs xs with
      | .ok c b => audit c b ys
      | .alloc_fault => .alloc_fault
      | .dead_free => .dead_free := by
  induction xs generalizing cbs bufs with
  | nil => rfl
  | cons e es ih =>
    simp only [List.cons_append, audit]
    cases h : audit_step cbs bufs e with
    | ok c b => exact ih c b
    | alloc_fault => rfl
    | dead_free => rfl

theorem audit_step_quiet (cbs bufs : Nat → Bool) (e : Event) (h : e.quiet = true) :
    audit_step cbs bufs e = .ok cbs bufs := by
  cases e <;> first
    | rfl
    | (rename_i p; cases p <;> first | rfl | simp [Event.quiet] at h)

theorem audit_quiet (cbs bufs : Nat → Bool) (ext : List Event)
    (h : ∀ e ∈ ext, e.quiet = true) : audit cbs bufs ext = .ok cbs bufs := by
  induction ext with
  | nil => rfl
  | cons e es ih =>
    simp only [audit, audit_step_quiet cbs bufs e (h e (List.mem_cons_self _ _))]
    exact ih (fun x hx => h x (List.mem_cons_of_mem _ hx))

theorem Audited.quiet {P Q : (Nat → Bool) → (Nat → Bool) → Prop} {w w' : World}
    (ext : List Event) (ht : w'.trace = w.trace ++ ext) (hq : ∀ e ∈ ext, e.quiet = true)
    (h : ∀ c b, P c b → Q c b) : Audited P w w' Q :=
  ⟨ext, ht, fun cbs bufs hp => Or.inr ⟨cbs, bufs, audit_quiet cbs bufs ext hq, h cbs bufs hp⟩⟩

theorem store_inv_live {R : Option Nat → Prop} {cbs bufs : Nat → Bool}
    {h : Nat → Option cli_cb_t} (hi : store_inv R cbs bufs h) (p : Nat) (c : cli_cb_t)
    (hp : h p = some c) : cbs p = true := by
  rw [hi.1]; simp [hp]

theorem store_inv_dead {R : Option Nat → Prop} {cbs bufs : Nat → Bool}
    {h : Nat → Option cli_cb_t} (hi : store_inv R cbs bufs h) (p : Nat)
    (hp : cbs p = false) : h p = none := by
  rw [hi.1] at hp
  cases hh : h p with
  | none => rfl
  | some c => simp [hh] at hp

/-- Releasing a live block. -/
theorem store_inv_remove {R : Option Nat → Prop} {cbs bufs : Nat → Bool}
    {h : Nat → Option cli_cb_t} (hi : store_inv R cbs bufs h) (p : Nat) :
    store_inv R (fun q => !decide (q = p) && cbs q) bufs (heap_set h p none) := by
  obtain ⟨h1, h2, h3, h4⟩ := hi
  refine ⟨?_, ?_, ?_, ?_⟩
  · rw [h1]
    funext q
    by_cases hq : q = p
    · subst hq; simp [heap_set]
    · simp [heap_set, hq]
  · intro q d b hq hd
    by_cases hqp : q = p
    · subst hqp; simp [heap_set] at hq
    · simp only [heap_set, hqp, if_false] at hq
      exact h2 q d b hq hd
  · intro q1 q2 d1 d2 b1 b2 hq1 hq2 hd1 hd2 hab
    by_cases hq1p : q1 = p
    · subst hq1p; simp [heap_set] at hq1
    by_cases hq2p : q2 = p
    · subst hq2p; simp [heap_set] at hq2
    simp only [heap_set, hq1p, hq2p, if_false] at hq1 hq2
    exact h3 q1 q2 d1 d2 b1 b2 hq1 hq2 hd1 hd2 hab
  · intro q d hq hd
    by_cases hqp : q = p
    · subst hqp; simp [heap_set] at hq
    · simp only [heap_set, hqp, if_false] at hq
      exact h4 q d hq hd

theorem forget_sent_buf_buf_out (c : cli_cb_t) :
    (forget_sent_buf c).buf_out = c.buf_out ∨ (forget_sent_buf c).buf_out = none := by
  unfold forget_sent_buf
  split
  · exact Or.inr rfl
  · exact Or.inl rfl

/-- A step that releases a live control block with `free`, leaving the buffer
it points to alone. -/
theorem Audited.free_cb (R : Option Nat → Prop) {w w' : World} (q1 : List Event)
    (p : Nat) (c : cli_cb_t)
    (ht : w'.trace = w.trace ++ (q1 ++ [Event.free_cb p]))
    (hq1 : ∀ e ∈ q1, e.quiet = true)
    (hp : w.heap p = some c) (hh : w'.heap = heap_set w.heap p none) :
    Audited (store_at R w) w w' (store_at R w') := by
  refine ⟨_, ht, fun cbs bufs hi => Or.inr ?_⟩
  have hlive := store_inv_live hi p c hp
  refine ⟨fun q => !decide (q = p) && cbs q, bufs, ?_, ?_⟩
  · rw [audit_append, audit_quiet cbs bufs q1 hq1]
    simp [audit, audit_step, hlive]
  · simp only [store_at, hh]
    exact store_inv_remove hi p

/-- The audit at work. The pass of the witness releases block 1 once. A run of
two passes, a not-found response on descriptor 3 and then the shutdown,
allocates buffer 200, sends it, and releases buffer 200 and block 1 once each.
The trace `ssl_new_connection` would leave if `SSL_shutdown` accepted the
unassigned handle of the listening block releases block 1 twice, and the audit
says so. -/
theorem audit_examples :
    (Outcome.accept_failed.status, Outcome.accept_failed.world.trace,
      (audit (fun p => decide (p = 1)) (fun _ => false)
        Outcome.accept_failed.world.trace).freed_dead) =
      (some EXIT_FAILURE,
        [Event.sys_select 5, Event.sys_accept 4, Event.SSL_shutdown none, Event.free_cb 1],
        false) ∧
    (run ErrCodes.sample [Env.write_ready_not_found, Env.interrupted]
        (World.single cli_cb_t.get_queued)).map
      (fun o => (o.status, o.world.trace,
        (audit (fun p => decide (p = 1)) (fun _ => false) o.world.trace).freed_dead)) =
      some (some EXIT_FAILURE,
        [Event.sys_select 4, Event.handle_get_mthd req_msg_t.get_a,
          Event.sys_open "../static_site//a".toList, Event.malloc_buf (some 200),
          Event.free_req_msg req_msg_t.get_a, Event.sys_send 3 27, Event.sys_select 4,
          Event.SSL_CTX_free, Event.sys_close 3, Event.free_buf 200, Event.free_cb 1,
          Event.sys_close (-1), Event.exit 1],
        false) ∧
    (ssl_new_connection ErrCodes.sample Env.quiet 1 World.listening_ssl).map
      (fun r => (r.2.trace,
        (audit (fun p => decide (p = 1)) (fun _ => false) r.2.trace).freed_dead)) =
      some ([Event.sys_accept 4, Event.SSL_shutdown none, Event.SSL_free none,
         Event.sys_close 4, Event.free_cb 1, Event.free_cb 1], true) := by
  refine ⟨by rfl, by rfl, by rfl⟩

end Liso
